import Mathlib

/-!
# GES timeline layer: ordering, ownership, the priority band and transitions

A shallow embedding of `ges/ges-timeline-layer.c`, with the duration routine
of `ges/ges-track-audio-transition.c`.  GObject instances are identified by
natural numbers (their addresses); the heap is the record `World`.  Reference
counting (`g_object_ref`, `g_object_unref`) and debug logging have no
counterpart here.  Unsigned 32-bit arithmetic is written with an explicit
reduction modulo `2 ^ 32`.
-/

namespace GES

/-! ## Constants and machine arithmetic -/

/-- The constant of `#define LAYER_HEIGHT 1000`. -/
def LAYER_HEIGHT : Nat := 1000

/-- The number of values of a `guint32` / `guint`, that is `2 ^ 32`. -/
def UINT32_RANGE : Nat := 4294967296

/-- Reduction of an integer to `guint32`. -/
def wrap32 (n : Nat) : Nat := n % UINT32_RANGE

/-- The number of values of a `guint64`, that is `2 ^ 64`. -/
def UINT64_RANGE : Nat := 18446744073709551616

/-- The number of non-negative values of a `gint64`, that is `2 ^ 63`. -/
def INT64_RANGE : Nat := 9223372036854775808

/-- A `guint64` read into a `gint64` variable: the values from `2 ^ 63` on
are read as negative numbers. -/
def to_gint64 (n : Nat) : Int :=
  if n % UINT64_RANGE < INT64_RANGE then ((n % UINT64_RANGE : Nat) : Int)
  else ((n % UINT64_RANGE : Nat) : Int) - (UINT64_RANGE : Int)

/-- A `gint64` stored where a `guint64` is kept: the value modulo `2 ^ 64`. -/
def to_guint64 (i : Int) : Nat := (i % (UINT64_RANGE : Int)).toNat

/-- The result of an addition or subtraction in `gint64`, which wraps
around. -/
def wrap_gint64 (i : Int) : Int := to_gint64 (to_guint64 i)

/-! ## Data model -/

/-- The run-time type of a track object, as far as the layer tests it with
`GES_IS_TRACK_SOURCE`, `GES_IS_TRACK_AUDIO_TRANSITION`,
`GES_IS_TRACK_VIDEO_TRANSITION`. -/
inductive GESTrackObjectKind where
  | source
  | audio_transition
  | video_transition
  | other
deriving DecidableEq, Repr, Inhabited

/-- The fields of a `GESTrackObject` the layer reads. -/
structure GESTrackObject where
  kind : GESTrackObjectKind
  start : Nat
  duration : Nat
  track : Option Nat
  timeline_object : Option Nat
deriving DecidableEq, Repr, Inhabited

/-- The fields of a `GESTimelineObject` the layer reads and writes: `start`
and `duration` are `guint64`, `priority` is `guint32`, `layer` is the back
reference (`NULL` is `none`), `is_source` is `GES_IS_TIMELINE_SOURCE`, and
`trackobjects` is what `ges_timeline_object_get_track_objects` lists.
`is_transition` tells a `GESTimelineStandardTransition`, and
`supported_formats` is the track type the object is tagged with. -/
structure GESTimelineObject where
  start : Nat
  duration : Nat
  priority : Nat
  height : Nat
  layer : Option Nat
  is_source : Bool
  trackobjects : List Nat
  is_transition : Bool := false
  supported_formats : Nat := 0
deriving DecidableEq, Repr, Inhabited

/-- The public fields and `struct _GESTimelineLayerPrivate`:
`objects_start` holds the member timeline objects, `signal_table` maps a
track to the id of the handler connected on it. -/
structure GESTimelineLayer where
  objects_start : List Nat
  priority : Nat
  auto_transition : Bool
  signal_table : List (Nat × Nat)
  min_gnl_priority : Nat
  max_gnl_priority : Nat
deriving DecidableEq, Repr, Inhabited

/-- The two signals of the layer class, with the layer that emits and the
timeline object passed along. -/
inductive Emission where
  | object_added (layer : Nat) (object : Nat)
  | object_removed (layer : Nat) (object : Nat)
deriving DecidableEq, Repr, Inhabited

/-- A GObject that a handler is connected on. -/
inductive Emitter where
  | timeline_object (id : Nat)
  | track_object (id : Nat)
  | track (id : Nat)
deriving DecidableEq, Repr, Inhabited

/-- The detailed signal names the layer connects to. -/
inductive SignalName where
  | track_object_added
  | track_object_removed
  | notify_start
  | notify_duration
  | notify_height
deriving DecidableEq, Repr, Inhabited

/-- The callbacks of this file that are passed to `g_signal_connect`. -/
inductive Callback where
  | track_object_added_cb
  | track_object_removed_cb
  | track_object_changed_cb
  | track_object_duration_cb
  | track_object_deleted_cb
  | timeline_object_height_changed_cb
deriving DecidableEq, Repr, Inhabited

/-- One handler installed by `g_signal_connect`; `data` is the user data
pointer (the layer whose signal table is passed, or the second object). -/
structure Connection where
  id : Nat
  emitter : Emitter
  signal : SignalName
  callback : Callback
  data : Option Nat
deriving DecidableEq, Repr, Inhabited

/-- The heap: timeline objects, track objects, the object list of each
track (`ges_track_get_objects`), layers, the installed signal handlers, the
next handler id, and the signals emitted so far (most recent last);
`track_type` is the `type` field of each track, `next_object` the address the
next timeline object is allocated at, and `layer_data` lists the handlers
whose user data is a layer where the callback expects a signal table. -/
structure World where
  objs : Nat → GESTimelineObject
  tobjs : Nat → GESTrackObject
  tracks : Nat → List Nat
  layers : Nat → GESTimelineLayer
  connections : List Connection
  next_handler : Nat
  emitted : List Emission
  track_type : Nat → Nat := fun _ => 0
  next_object : Nat
  layer_data : List Nat := []

/-- The result of a call that may fail to return: `fault` is a `NULL`
dereference, `exhausted` means the recursion budget ran out. -/
inductive Outcome (α : Type) where
  | done (a : α)
  | fault
  | exhausted
deriving DecidableEq, Repr

/-! ## GLib list primitives -/

/-- The function `g_list_insert_sorted`: `data` goes before the first element
`x` with `cmp data x ≤ 0`, or at the end. -/
def g_list_insert_sorted {α : Type} (cmp : α → α → Int) (data : α) : List α → List α
  | [] => [data]
  | x :: xs =>
    if cmp data x > 0 then x :: g_list_insert_sorted cmp data xs
    else data :: x :: xs

/-- The function `g_list_remove`: removes the first element equal to `data`. -/
def g_list_remove (l : List Nat) (data : Nat) : List Nat :=
  l.erase data

/-- The function `g_signal_connect`: installs a handler and returns its id. -/
def g_signal_connect (w : World) (emitter : Emitter) (signal : SignalName)
    (callback : Callback) (data : Option Nat) : Nat × World :=
  (w.next_handler,
    { w with
      connections := w.connections ++
        [{ id := w.next_handler, emitter := emitter, signal := signal,
           callback := callback, data := data }]
      next_handler := w.next_handler + 1 })

/-- The function `g_signal_handler_disconnect`. -/
def g_signal_handler_disconnect (w : World) (emitter : Emitter) (id : Nat) : World :=
  { w with
    connections := w.connections.filter
      (fun c => !(decide (c.emitter = emitter) && decide (c.id = id))) }

/-- The function `g_signal_emit` on a layer signal: the emission is recorded;
the handlers of other components are not part of this file. -/
def g_signal_emit (w : World) (e : Emission) : World :=
  { w with emitted := w.emitted ++ [e] }

/-! ## Timeline object accessors -/

/-- Modelled from the spec: `ges_timeline_object_get_layer` of
`ges-timeline-object.c`, which is missing; it reads the `layer` back
reference of the timeline object. -/
def ges_timeline_object_get_layer (w : World) (object : Nat) : Option Nat :=
  (w.objs object).layer

/-- Modelled from the spec: `ges_timeline_object_set_layer` of
`ges-timeline-object.c`, which is missing; it stores the back reference. -/
def ges_timeline_object_set_layer (w : World) (object : Nat) (layer : Option Nat) : World :=
  { w with objs := Function.update w.objs object { w.objs object with layer := layer } }

/-- The macro `GES_TIMELINE_OBJECT_PRIORITY`. -/
def GES_TIMELINE_OBJECT_PRIORITY (w : World) (object : Nat) : Nat :=
  (w.objs object).priority

/-- Modelled from the spec: `ges_timeline_object_set_priority` of
`ges-timeline-object.c`, which is missing; the relative priority of the
timeline object becomes `priority`. -/
def ges_timeline_object_set_priority (w : World) (object : Nat) (priority : Nat) : World :=
  { w with objs := Function.update w.objs object { w.objs object with priority := priority } }

/-- The type test `GES_IS_TIMELINE_SOURCE`. -/
def GES_IS_TIMELINE_SOURCE (w : World) (object : Nat) : Bool :=
  (w.objs object).is_source

/-- The type test `GES_IS_TRACK_SOURCE`. -/
def GES_IS_TRACK_SOURCE (w : World) (t : Nat) : Bool :=
  decide ((w.tobjs t).kind = GESTrackObjectKind.source)

/-- The test `GES_IS_TRACK_AUDIO_TRANSITION (x) || GES_IS_TRACK_VIDEO_TRANSITION (x)`. -/
def GES_IS_TRACK_AUDIO_OR_VIDEO_TRANSITION (w : World) (t : Nat) : Bool :=
  decide ((w.tobjs t).kind = GESTrackObjectKind.audio_transition) ||
  decide ((w.tobjs t).kind = GESTrackObjectKind.video_transition)

/-! ## The layer -/

/-- The function `ges_timeline_layer_init`: the fields of a new layer. -/
def ges_timeline_layer_init : GESTimelineLayer :=
  { objects_start := []
    priority := 0
    auto_transition := false
    signal_table := []
    min_gnl_priority := 0
    max_gnl_priority := LAYER_HEIGHT }

/-- The function `ges_timeline_layer_new`, creating the layer at address `layer`. -/
def ges_timeline_layer_new (w : World) (layer : Nat) : World :=
  { w with layers := Function.update w.layers layer ges_timeline_layer_init }

/-- The function `objects_start_compare`. -/
def objects_start_compare (a b : GESTimelineObject) : Int :=
  if a.start = b.start then
    if a.priority < b.priority then -1
    else if a.priority > b.priority then 1
    else 0
  else if a.start < b.start then -1
  else if a.start > b.start then 1
  else 0

/-- The function `ges_timeline_layer_resync_priorities`: every member is given
its own priority again. -/
def ges_timeline_layer_resync_priorities (w : World) (layer : Nat) : World :=
  (w.layers layer).objects_start.foldl
    (fun acc obj => ges_timeline_object_set_priority acc obj (GES_TIMELINE_OBJECT_PRIORITY acc obj))
    w

/-- The function `ges_timeline_layer_add_object`. -/
def ges_timeline_layer_add_object (w : World) (layer object : Nat) : Bool × World :=
  match ges_timeline_object_get_layer w object with
  | some _ => (false, w)
  | none =>
    -- store it sorted by start/priority
    let L := w.layers layer
    let w1 : World :=
      { w with
        layers := Function.update w.layers layer
          ({ L with
            objects_start :=
              g_list_insert_sorted (fun a b => objects_start_compare (w.objs a) (w.objs b))
                object L.objects_start }) }
    -- wait for the track objects to be created
    let w2 : World :=
      if (w1.layers layer).auto_transition && GES_IS_TIMELINE_SOURCE w1 object then
        let c1 := g_signal_connect w1 (Emitter.timeline_object object)
          SignalName.track_object_added Callback.track_object_added_cb (some layer)
        (g_signal_connect c1.2 (Emitter.timeline_object object)
          SignalName.track_object_removed Callback.track_object_removed_cb none).2
      else w1
    -- inform the object it is now in this layer
    let w3 := ges_timeline_object_set_layer w2 object (some layer)
    -- set the priority
    let maxprio := (w3.layers layer).max_gnl_priority
    let minprio := (w3.layers layer).min_gnl_priority
    let prio := GES_TIMELINE_OBJECT_PRIORITY w3 object
    let w4 :=
      if wrap32 (minprio + prio) > maxprio then
        ges_timeline_object_set_priority w3 object (LAYER_HEIGHT - 1)
      else w3
    let w5 := ges_timeline_layer_resync_priorities w4 layer
    (true, g_signal_emit w5 (Emission.object_added layer object))

/-- The loop body shared by the two `for` loops of `look_for_transition`:
walk `rest` until a source is met, removing the timeline object of every
audio or video transition on the way.  `rm` is
`ges_timeline_layer_remove_object` on the layer at hand. -/
def look_for_transition_walk (rm : World → Nat → Outcome (Bool × World)) (w : World) :
    List Nat → Outcome World
  | [] => Outcome.done w
  | t :: rest =>
    if GES_IS_TRACK_SOURCE w t then Outcome.done w
    else if GES_IS_TRACK_AUDIO_OR_VIDEO_TRANSITION w t then
      match (w.tobjs t).timeline_object with
      | none => look_for_transition_walk rm w rest
      | some tl =>
        match rm w tl with
        | Outcome.done r => look_for_transition_walk rm r.2 rest
        | Outcome.fault => Outcome.fault
        | Outcome.exhausted => Outcome.exhausted
    else look_for_transition_walk rm w rest

/-- The function `look_for_transition`: `cur` is found in the object list of
the track; the elements after it are walked forward, then the elements before
it backward. -/
def look_for_transition (rm : World → Nat → Outcome (Bool × World)) (w : World)
    (track_object : Nat) : Outcome World :=
  match (w.tobjs track_object).track with
  | none => Outcome.fault
  | some track =>
    let track_objects := w.tracks track
    if track_object ∈ track_objects then
      let before := track_objects.takeWhile (fun x => !decide (x = track_object))
      let after := (track_objects.dropWhile (fun x => !decide (x = track_object))).tail
      match look_for_transition_walk rm w after with
      | Outcome.done w1 => look_for_transition_walk rm w1 before.reverse
      | Outcome.fault => Outcome.fault
      | Outcome.exhausted => Outcome.exhausted
    else Outcome.fault

/-- The loop over the track objects of the removed object in
`ges_timeline_layer_remove_object`. -/
def look_for_transition_all (rm : World → Nat → Outcome (Bool × World)) (w : World) :
    List Nat → Outcome World
  | [] => Outcome.done w
  | t :: rest =>
    match look_for_transition rm w t with
    | Outcome.done w1 => look_for_transition_all rm w1 rest
    | Outcome.fault => Outcome.fault
    | Outcome.exhausted => Outcome.exhausted

/-- The function `disconnect_handlers` applied by `g_hash_table_foreach_remove`
to every entry of the signal table; every entry is removed. -/
def disconnect_all_handlers (w : World) (layer : Nat) : World :=
  let w1 := (w.layers layer).signal_table.foldl
    (fun acc e => g_signal_handler_disconnect acc (Emitter.track e.1) e.2) w
  { w1 with
    layers := Function.update w1.layers layer
      ({ w1.layers layer with signal_table := [] }) }

/-- The tail of `ges_timeline_layer_remove_object`, after the transitions
were looked for: disconnect, emit, detach, unlink. -/
def remove_object_finish (w : World) (layer object : Nat) : World :=
  let w2 := disconnect_all_handlers w layer
  let w3 := g_signal_emit w2 (Emission.object_removed layer object)
  let w4 := ges_timeline_object_set_layer w3 object none
  { w4 with
    layers := Function.update w4.layers layer
      ({ w4.layers layer with
        objects_start := g_list_remove (w4.layers layer).objects_start object }) }

/-- The function `ges_timeline_layer_remove_object`.  The first argument
bounds the depth of the recursion through `look_for_transition`. -/
def ges_timeline_layer_remove_object : Nat → World → Nat → Nat → Outcome (Bool × World)
  | 0, _, _, _ => Outcome.exhausted
  | fuel + 1, w, layer, object =>
    if ges_timeline_object_get_layer w object ≠ some layer then Outcome.done (false, w)
    else
      let looked : Outcome World :=
        if (w.layers layer).auto_transition then
          look_for_transition_all
            (fun w1 o => ges_timeline_layer_remove_object fuel w1 layer o)
            w (w.objs object).trackobjects
        else Outcome.done w
      match looked with
      | Outcome.done w1 => Outcome.done (true, remove_object_finish w1 layer object)
      | Outcome.fault => Outcome.fault
      | Outcome.exhausted => Outcome.exhausted

/-- The function `ges_timeline_layer_set_priority`; the products are computed
in `guint`. -/
def ges_timeline_layer_set_priority (w : World) (layer : Nat) (priority : Nat) : World :=
  if priority ≠ (w.layers layer).priority then
    let w1 : World :=
      { w with
        layers := Function.update w.layers layer
          ({ w.layers layer with
            priority := priority
            min_gnl_priority := wrap32 (priority * LAYER_HEIGHT)
            max_gnl_priority :=
              wrap32 (wrap32 ((priority + 1) * LAYER_HEIGHT) + (UINT32_RANGE - 1)) }) }
    ges_timeline_layer_resync_priorities w1 layer
  else w

/-- The function `ges_timeline_layer_get_priority`. -/
def ges_timeline_layer_get_priority (w : World) (layer : Nat) : Nat :=
  (w.layers layer).priority

/-! ## Track lists and the overlap classifier

Times are `guint64` fields, natural numbers here.  `compare` reads them
into `gint64` variables, adds them with wrap-around and compares them as
signed numbers; what it stores back is taken modulo `2 ^ 64`. -/

/-- A node of a `GList`: the elements before it (nearest first), its data and
the elements after it. -/
structure GListNode where
  prev : List Nat
  data : Nat
  next : List Nat
deriving DecidableEq, Repr

/-- The search of `g_list_find` with the elements already passed in `prev`. -/
def g_list_find_from (prev : List Nat) : List Nat → Nat → Option GListNode
  | [], _ => none
  | y :: ys, x =>
    if y = x then some { prev := prev, data := y, next := ys }
    else g_list_find_from (y :: prev) ys x

/-- The function `g_list_find`: the first node that holds `x`. -/
def g_list_find (l : List Nat) (x : Nat) : Option GListNode :=
  g_list_find_from [] l x

/-- The type test `GES_IS_TRACK_TRANSITION`; the audio and the video
transition are the two types derived from `GES_TYPE_TRACK_TRANSITION`. -/
def GES_IS_TRACK_TRANSITION (w : World) (t : Nat) : Bool :=
  decide ((w.tobjs t).kind = GESTrackObjectKind.audio_transition) ||
  decide ((w.tobjs t).kind = GESTrackObjectKind.video_transition)

/-- Modelled from the spec: `ges_track_get_objects` of `ges-track.c`, which
is missing; it lists the track objects of the track in their order, and
nothing for `NULL`. -/
def ges_track_get_objects (w : World) (track : Option Nat) : List Nat :=
  match track with
  | none => []
  | some k => w.tracks k

/-- The layer of the timeline object of a track object, `NULL` when the track
object has no timeline object. -/
def layer_of_track_object (w : World) (t : Nat) : Option Nat :=
  match (w.tobjs t).timeline_object with
  | none => none
  | some tl => ges_timeline_object_get_layer w tl

/-- The function `track_get_by_layer`: the track objects of the track whose
timeline object is in `layer`. -/
def track_get_by_layer (w : World) (layer : Option Nat) (track : Option Nat) : List Nat :=
  (ges_track_get_objects w track).filter
    (fun t => decide (layer_of_track_object w t = layer))

/-- Modelled from the spec: a new `GESTimelineStandardTransition`, as
`ges_timeline_standard_transition_new_for_nick` of the missing
`ges-timeline-standard-transition.c` returns it: in no layer, without track
objects, at time 0. -/
def new_standard_transition : GESTimelineObject :=
  { start := 0, duration := 0, priority := 0, height := 1, layer := none,
    is_source := false, trackobjects := [], is_transition := true }

/-- Modelled from the spec: `ges_timeline_standard_transition_new_for_nick`,
which is missing; the new object is placed at the next free address. -/
def ges_timeline_standard_transition_new_for_nick (w : World) : Nat × World :=
  (w.next_object,
    { w with
      objs := Function.update w.objs w.next_object new_standard_transition
      next_object := w.next_object + 1 })

/-- Modelled from the spec: `ges_timeline_object_set_supported_formats` of
`ges-timeline-object.c`, which is missing; it stores the track type. -/
def ges_timeline_object_set_supported_formats (w : World) (object : Nat) (formats : Nat) :
    World :=
  { w with
    objs := Function.update w.objs object
      ({ w.objs object with supported_formats := formats }) }

/-- Modelled from the spec: the `start` and `duration` property setters of
`ges-timeline-object.c`, which is missing; the values are stored on the
timeline object and mirrored on its track objects. -/
def ges_timeline_object_set_start_duration (w : World) (object : Nat)
    (start duration : Nat) : World :=
  { w with
    objs := Function.update w.objs object
      ({ w.objs object with start := start, duration := duration })
    tobjs := fun t =>
      if t ∈ (w.objs object).trackobjects then
        { w.tobjs t with start := start, duration := duration }
      else w.tobjs t }

/-- A call `ges_timeline_layer_remove_object (layer, object)` with pointers
that may be `NULL`: the `g_return_val_if_fail` guards return at once for a
`NULL` layer or object.  The boolean result is dropped, as every caller in
`compare` does. -/
def remove_object_checked (fuel : Nat) (w : World) (layer object : Option Nat) :
    Outcome World :=
  match layer, object with
  | some l, some o =>
    match ges_timeline_layer_remove_object fuel w l o with
    | Outcome.done r => Outcome.done r.2
    | Outcome.fault => Outcome.fault
    | Outcome.exhausted => Outcome.exhausted
  | _, _ => Outcome.done w

/-- The first block of each branch of `compare`: forward, the transition
right before `compared` is removed when it lies inside `compared`; backward,
the transition right after `compared` is removed when the element right
before `compared` lies inside `compared`.  The times are `gint64`. -/
def compare_cleanup (fuel : Nat) (w : World) (compared : GListNode) (layer : Option Nat)
    (ahead : Bool) : Outcome World :=
  let compared_start := to_gint64 (w.tobjs compared.data).start
  let compared_end := wrap_gint64 (compared_start + to_gint64 (w.tobjs compared.data).duration)
  if ahead then
    match compared.prev with
    | [] => Outcome.done w
    | p :: _ =>
      if GES_IS_TRACK_TRANSITION w p then
        if to_gint64 (w.tobjs p).start ≥ compared_start ∧
            wrap_gint64 (to_gint64 (w.tobjs p).start + to_gint64 (w.tobjs p).duration) ≤
              compared_end then
          remove_object_checked fuel w layer (w.tobjs p).timeline_object
        else Outcome.done w
      else Outcome.done w
  else
    match compared.next with
    | [] => Outcome.done w
    | n :: _ =>
      if GES_IS_TRACK_TRANSITION w n then
        match compared.prev with
        | [] => Outcome.fault
        | p :: _ =>
          if to_gint64 (w.tobjs p).start ≥ compared_start ∧
              wrap_gint64 (to_gint64 (w.tobjs p).start + to_gint64 (w.tobjs p).duration) ≤
                compared_end then
            remove_object_checked fuel w layer (w.tobjs n).timeline_object
          else Outcome.done w
      else Outcome.done w

/-- The forward search loop of `compare`: the timeline object of the first
transition after `compared` whose `tr_start + tr_duration` equals
`compared_start + compared_duration`, both sums in `gint64`. -/
def compare_find_ahead (w : World) (compared_end : Int) : List Nat → Option Nat
  | [] => none
  | t :: rest =>
    if GES_IS_TRACK_TRANSITION w t &&
        decide (wrap_gint64 (to_gint64 (w.tobjs t).start + to_gint64 (w.tobjs t).duration) =
          compared_end) then
      (w.tobjs t).timeline_object
    else compare_find_ahead w compared_end rest

/-- The backward search loop of `compare`: the timeline object of the first
transition before `compared` that starts where `compared` starts. -/
def compare_find_behind (w : World) (compared_start : Int) : List Nat → Option Nat
  | [] => none
  | t :: rest =>
    if GES_IS_TRACK_TRANSITION w t &&
        decide (to_gint64 (w.tobjs t).start = compared_start) then
      (w.tobjs t).timeline_object
    else compare_find_behind w compared_start rest

/-- The no-overlap branch of `compare`: a transition that was found is
removed and the priority of `source` is copied to `target`.  Reading the
priority of a `NULL` object leaves the local variable unset, which is a
fault here. -/
def compare_no_overlap (fuel : Nat) (w : World) (layer trans source target : Option Nat) :
    Outcome World :=
  match trans with
  | none => Outcome.done w
  | some tr =>
    match remove_object_checked fuel w layer (some tr) with
    | Outcome.done w1 =>
      match source with
      | none => Outcome.fault
      | some src =>
        match target with
        | none => Outcome.done w1
        | some dst =>
          Outcome.done
            (ges_timeline_object_set_priority w1 dst (GES_TIMELINE_OBJECT_PRIORITY w1 src))
    | Outcome.fault => Outcome.fault
    | Outcome.exhausted => Outcome.exhausted

/-- The end of `compare`, reached when the pair is to be bridged: without a
transition a crossfade is created, tagged with the type of the track, added
to the layer, the second object is stacked on the first, and a handler for
the height of the first is connected; then the transition is given its start
and duration. -/
def compare_bridge (w : World) (layer trans first second : Option Nat) (track_object : Nat)
    (tr_start tr_duration : Nat) : Outcome World :=
  match trans with
  | some tr => Outcome.done (ges_timeline_object_set_start_duration w tr tr_start tr_duration)
  | none =>
    let created := ges_timeline_standard_transition_new_for_nick w
    match (created.2.tobjs track_object).track with
    | none => Outcome.fault
    | some track =>
      let w2 := ges_timeline_object_set_supported_formats created.2 created.1
        (created.2.track_type track)
      match layer with
      | none => Outcome.fault
      | some l =>
        let w3 := (ges_timeline_layer_add_object w2 l created.1).2
        match first with
        | none => Outcome.fault
        | some f =>
          let priority := (w3.objs f).priority
          let height := (w3.objs f).height
          let w4 :=
            match second with
            | none => w3
            | some s => ges_timeline_object_set_priority w3 s (wrap32 (priority + height))
          let w5 := (g_signal_connect w4 (Emitter.timeline_object f) SignalName.notify_height
            Callback.timeline_object_height_changed_cb second).2
          Outcome.done (ges_timeline_object_set_start_duration w5 created.1 tr_start tr_duration)

/-- The function `compare`: `compared` is the node of the neighbour,
`track_object` the object that changed, `ahead` tells the forward
comparison.  The four times are read into `gint64`, the sums and differences
wrap around, the tests are signed, and the start and duration given to the
transition are stored as `guint64`. -/
def compare (fuel : Nat) (w : World) (compared : GListNode) (track_object : Nat)
    (ahead : Bool) : Outcome World :=
  match (w.tobjs track_object).timeline_object with
  | none => Outcome.done w
  | some object =>
    let compared_object := (w.tobjs compared.data).timeline_object
    let layer := ges_timeline_object_get_layer w object
    let start := to_gint64 (w.tobjs track_object).start
    let duration := to_gint64 (w.tobjs track_object).duration
    let compared_start := to_gint64 (w.tobjs compared.data).start
    let compared_duration := to_gint64 (w.tobjs compared.data).duration
    let end_ := wrap_gint64 (start + duration)
    let compared_end := wrap_gint64 (compared_start + compared_duration)
    match compare_cleanup fuel w compared layer ahead with
    | Outcome.done w1 =>
      if ahead then
        let trans := compare_find_ahead w1 (wrap_gint64 (compared_start + compared_duration))
          compared.next
        if compared_end ≤ start then
          compare_no_overlap fuel w1 layer trans compared_object (some object)
        else if start > compared_start ∧ end_ < compared_end then
          remove_object_checked fuel w1 layer trans
        else if start ≤ compared_start then
          remove_object_checked fuel w1 layer trans
        else
          compare_bridge w1 layer trans (w1.tobjs compared.data).timeline_object (some object)
            track_object (to_guint64 start)
            (to_guint64 (wrap_gint64 (wrap_gint64 (compared_duration + compared_start) - start)))
      else
        let trans := compare_find_behind w1 compared_start compared.prev
        if wrap_gint64 (start + duration) ≤ compared_start then
          compare_no_overlap fuel w1 layer trans (some object) compared_object
        else if start > compared_start then
          remove_object_checked fuel w1 layer trans
        else if start < compared_start ∧ end_ > compared_end then
          remove_object_checked fuel w1 layer trans
        else
          compare_bridge w1 layer trans (some object) (w1.tobjs compared.data).timeline_object
            track_object (to_guint64 compared_start)
            (to_guint64 (wrap_gint64 (wrap_gint64 (start + duration) - compared_start)))
    | Outcome.fault => Outcome.fault
    | Outcome.exhausted => Outcome.exhausted

/-- The loop `do compared = compared->next while not a source` of
`calculate_next_transition_with_list`: the node of the nearest source after
`data`, if there is one. -/
def walk_next_source (w : World) : List Nat → Nat → List Nat → Option GListNode
  | _, _, [] => none
  | prev, data, y :: ys =>
    if GES_IS_TRACK_SOURCE w y then some { prev := data :: prev, data := y, next := ys }
    else walk_next_source w (data :: prev) y ys

/-- The loop `do compared = compared->prev while not a source` of
`calculate_transitions`: the node of the nearest source before `data`, if
there is one. -/
def walk_prev_source (w : World) : List Nat → Nat → List Nat → Option GListNode
  | _, _, [] => none
  | next, data, y :: ys =>
    if GES_IS_TRACK_SOURCE w y then some { prev := ys, data := y, next := data :: next }
    else walk_prev_source w (data :: next) y ys

/-- The function `calculate_next_transition_with_list`. -/
def calculate_next_transition_with_list (fuel : Nat) (w : World) (track_object : Nat)
    (tckobjs_in_layer : List Nat) : Outcome World :=
  match g_list_find tckobjs_in_layer track_object with
  | none => Outcome.done w
  | some node =>
    match walk_next_source w node.prev node.data node.next with
    | none => Outcome.done w
    | some compared => compare fuel w compared track_object false

/-- The function `calculate_next_transition`. -/
def calculate_next_transition (fuel : Nat) (w : World) (track_object : Nat)
    (layer : Option Nat) : Outcome World :=
  let track := (w.tobjs track_object).track
  let tckobjs_in_layer := track_get_by_layer w layer track
  if track.isSome then
    calculate_next_transition_with_list fuel w track_object tckobjs_in_layer
  else Outcome.done w

/-- The function `calculate_transitions`. -/
def calculate_transitions (fuel : Nat) (w : World) (track_object : Nat) : Outcome World :=
  let track := (w.tobjs track_object).track
  let layer := layer_of_track_object w track_object
  let tckobjs_in_layer := track_get_by_layer w layer track
  match g_list_find tckobjs_in_layer track_object with
  | none => Outcome.done w
  | some node =>
    match walk_prev_source w node.next node.data node.prev with
    | none => calculate_next_transition_with_list fuel w track_object tckobjs_in_layer
    | some compared =>
      match compare fuel w compared track_object true with
      | Outcome.done w1 =>
        calculate_next_transition_with_list fuel w1 track_object tckobjs_in_layer
      | Outcome.fault => Outcome.fault
      | Outcome.exhausted => Outcome.exhausted

/-- The function `track_object_changed_cb`, the handler of `notify::start`. -/
def track_object_changed_cb (fuel : Nat) (w : World) (track_object : Nat) : Outcome World :=
  if GES_IS_TRACK_SOURCE w track_object then calculate_transitions fuel w track_object
  else Outcome.done w

/-- The function `track_object_duration_cb`, the handler of
`notify::duration`. -/
def track_object_duration_cb (fuel : Nat) (w : World) (track_object : Nat) : Outcome World :=
  calculate_next_transition fuel w track_object (layer_of_track_object w track_object)

/-- The function `track_object_added_cb` with the signal table of `layer` as
user data.  With a track object in no track the table gets an entry for the
`NULL` key, which no lookup returns; that entry is left out. -/
def track_object_added_cb (fuel : Nat) (w : World) (track_object : Nat) (layer : Nat) :
    Outcome World :=
  let classified : Outcome World :=
    if GES_IS_TRACK_SOURCE w track_object then
      let c1 := g_signal_connect w (Emitter.track_object track_object) SignalName.notify_start
        Callback.track_object_changed_cb none
      let c2 := g_signal_connect c1.2 (Emitter.track_object track_object)
        SignalName.notify_duration Callback.track_object_duration_cb none
      calculate_transitions fuel c2.2 track_object
    else Outcome.done w
  match classified with
  | Outcome.done w1 =>
    match (w1.tobjs track_object).track with
    | none => Outcome.done w1
    | some track =>
      if ((w1.layers layer).signal_table.lookup track).isNone then
        let c := g_signal_connect w1 (Emitter.track track) SignalName.track_object_removed
          Callback.track_object_deleted_cb none
        Outcome.done
          { c.2 with
            layers := Function.update c.2.layers layer
              ({ c.2.layers layer with
                signal_table := (c.2.layers layer).signal_table ++ [(track, c.1)] }) }
      else Outcome.done w1
  | Outcome.fault => Outcome.fault
  | Outcome.exhausted => Outcome.exhausted

/-- The function `ges_timeline_layer_get_auto_transition`. -/
def ges_timeline_layer_get_auto_transition (w : World) (layer : Nat) : Bool :=
  (w.layers layer).auto_transition

/-- The function `ges_timeline_layer_set_auto_transition`; the handlers it
connects get the layer itself as user data. -/
def ges_timeline_layer_set_auto_transition (w : World) (layer : Nat) (auto_transition : Bool) :
    World :=
  let w1 : World :=
    if auto_transition then
      (w.layers layer).objects_start.foldl
        (fun acc obj =>
          if GES_IS_TIMELINE_SOURCE acc obj then
            let c1 := g_signal_connect acc (Emitter.timeline_object obj)
              SignalName.track_object_added Callback.track_object_added_cb (some layer)
            let c2 := g_signal_connect c1.2 (Emitter.timeline_object obj)
              SignalName.track_object_removed Callback.track_object_removed_cb (some layer)
            { c2.2 with
              layer_data := c2.2.layer_data ++ [c1.1, c2.1] }
          else acc)
        w
    else w
  { w1 with
    layers := Function.update w1.layers layer
      ({ w1.layers layer with auto_transition := auto_transition }) }

/-! ## Signal delivery -/

/-- The handlers connected on `emitter` for `signal`, in the order they were
connected. -/
def handlers_of (w : World) (emitter : Emitter) (signal : SignalName) : List Connection :=
  w.connections.filter (fun c => decide (c.emitter = emitter) && decide (c.signal = signal))

/-- One handler of this file run on a track object; the handlers of
`track-object-added` that were given a layer in place of a signal table use
it as a hash table, which is a fault. -/
def run_handler (fuel : Nat) (w : World) (c : Connection) (track_object : Nat) :
    Outcome World :=
  match c.callback with
  | Callback.track_object_changed_cb => track_object_changed_cb fuel w track_object
  | Callback.track_object_duration_cb => track_object_duration_cb fuel w track_object
  | Callback.track_object_added_cb =>
    if c.id ∈ w.layer_data then Outcome.fault
    else
      match c.data with
      | none => Outcome.fault
      | some layer => track_object_added_cb fuel w track_object layer
  | _ => Outcome.done w

/-- The handlers in `cs` run one after the other on a track object. -/
def run_handlers (fuel : Nat) : World → List Connection → Nat → Outcome World
  | w, [], _ => Outcome.done w
  | w, c :: cs, track_object =>
    match run_handler fuel w c track_object with
    | Outcome.done w1 => run_handlers fuel w1 cs track_object
    | Outcome.fault => Outcome.fault
    | Outcome.exhausted => Outcome.exhausted

/-- Modelled from the spec: the `track-object-added` signal that the missing
`ges-timeline-object.c` emits on a timeline object once a track object was
created for it; the connected handlers run before the emission returns. -/
def emit_track_object_added (fuel : Nat) (w : World) (object track_object : Nat) :
    Outcome World :=
  run_handlers fuel w
    (handlers_of w (Emitter.timeline_object object) SignalName.track_object_added)
    track_object

/-- Modelled from the spec: `ges_track_object_set_start` of the missing
`ges-track-object.c`; the start is stored and `notify::start` is delivered
to the connected handlers before the call returns. -/
def ges_track_object_set_start (fuel : Nat) (w : World) (track_object start : Nat) :
    Outcome World :=
  let w1 : World :=
    { w with
      tobjs := Function.update w.tobjs track_object
        ({ w.tobjs track_object with start := start }) }
  run_handlers fuel w1
    (handlers_of w1 (Emitter.track_object track_object) SignalName.notify_start) track_object

/-- Modelled from the spec: `ges_track_object_set_duration` of the missing
`ges-track-object.c`; the duration is stored and `notify::duration` is
delivered to the connected handlers before the call returns. -/
def ges_track_object_set_duration (fuel : Nat) (w : World) (track_object duration : Nat) :
    Outcome World :=
  let w1 : World :=
    { w with
      tobjs := Function.update w.tobjs track_object
        ({ w.tobjs track_object with duration := duration }) }
  run_handlers fuel w1
    (handlers_of w1 (Emitter.track_object track_object) SignalName.notify_duration)
    track_object

/-! ## The height subscription -/

/-- The function `timeline_object_height_changed_cb`: `obj` is the object
whose height changed and `second_obj` the user data.  The sum is formed in
`gint` and stored in the `guint` priority; `g_object_set` returns at once on
`NULL`. -/
def timeline_object_height_changed_cb (w : World) (obj : Nat) (second_obj : Option Nat) :
    World :=
  match second_obj with
  | none => w
  | some second =>
    ges_timeline_object_set_priority w second
      (wrap32 ((w.objs obj).priority + (w.objs obj).height))

/-- The handlers in `cs` run one after the other on the timeline object
`obj`; among the callbacks of this file only
`timeline_object_height_changed_cb` is connected for `notify::height`. -/
def run_height_handlers (obj : Nat) : World → List Connection → World
  | w, [] => w
  | w, c :: cs =>
    run_height_handlers obj
      (match c.callback with
        | Callback.timeline_object_height_changed_cb =>
          timeline_object_height_changed_cb w obj c.data
        | _ => w)
      cs

/-- Modelled from the spec: the height of a timeline object changes (in the
missing `ges-timeline-object.c`); the height is stored and `notify::height`
is delivered to the connected handlers before the change returns. -/
def ges_timeline_object_set_height (w : World) (obj height : Nat) : World :=
  let w1 : World :=
    { w with
      objs := Function.update w.objs obj
        ({ w.objs obj with height := height }) }
  run_height_handlers obj w1
    (handlers_of w1 (Emitter.timeline_object obj) SignalName.notify_height)

/-- Modelled from the spec: the timeline gives the member `object` a track
object `t` on `track` (the missing `ges-timeline.c` and `ges-track.c`): `t`
has the given kind and the start and duration of `object`, it is listed among
the track objects of `object`, and the track lists it right before the track
object `before`. -/
def attach_track_object (w : World) (object t : Nat) (kind : GESTrackObjectKind)
    (track before : Nat) : World :=
  { w with
    tobjs := Function.update w.tobjs t
      ({ kind := kind, start := (w.objs object).start, duration := (w.objs object).duration,
         track := some track, timeline_object := some object })
    objs := Function.update w.objs object
      ({ w.objs object with trackobjects := (w.objs object).trackobjects ++ [t] })
    tracks := Function.update w.tracks track
      ((w.tracks track).takeWhile (fun x => !decide (x = before)) ++
        t :: (w.tracks track).dropWhile (fun x => !decide (x = before))) }

/-! ## Listing the members -/

/-- The function `g_list_prepend`. -/
def g_list_prepend (l : List Nat) (data : Nat) : List Nat :=
  data :: l

/-- The function `g_list_reverse`. -/
def g_list_reverse (l : List Nat) : List Nat :=
  l.reverse

/-- The function `ges_timeline_layer_get_objects`.  `klass_get_objects` is the
`get_objects` slot of the class of the layer, `NULL` for the default
implementation.  The call writes reference counts only, so the heap after it
is the heap before it. -/
def ges_timeline_layer_get_objects (klass_get_objects : Option (World → Nat → List Nat))
    (w : World) (layer : Nat) : List Nat :=
  match klass_get_objects with
  | some get_objects => get_objects w layer
  | none => g_list_reverse ((w.layers layer).objects_start.foldl g_list_prepend [])

/-! ## The tail of a removal, statement by statement -/

/-- The tail of `ges_timeline_layer_remove_object` up to and including
`g_signal_emit`: the heap in which the handlers of `object-removed` run. -/
def remove_object_emit (w : World) (layer object : Nat) : World :=
  g_signal_emit (disconnect_all_handlers w layer) (Emission.object_removed layer object)

/-- The statements of `ges_timeline_layer_remove_object` that follow the
emission: the back reference is cleared and the object is unlinked. -/
def remove_object_unlink (w : World) (layer object : Nat) : World :=
  let w4 := ges_timeline_object_set_layer w object none
  { w4 with
    layers := Function.update w4.layers layer
      ({ w4.layers layer with
        objects_start := g_list_remove (w4.layers layer).objects_start object }) }

/-! ## The audio transition (`ges-track-audio-transition.c`) -/

/-- The keyframes of a `GstInterpolationControlSource`: timestamp and value,
by ascending timestamp.  The values 0.0 and 1.0 are written 0 and 1. -/
abbrev GstInterpolationControlSource := List (Nat × Nat)

/-- The function `gst_interpolation_control_source_unset_all`. -/
def gst_interpolation_control_source_unset_all (_self : GstInterpolationControlSource) :
    GstInterpolationControlSource :=
  []

/-- The function `gst_interpolation_control_source_set`: the keyframe at
`timestamp` is set to `value`, replacing the one that was there. -/
def gst_interpolation_control_source_set (self : GstInterpolationControlSource)
    (timestamp value : Nat) : GstInterpolationControlSource :=
  self.filter (fun k => decide (k.1 < timestamp)) ++ (timestamp, value) ::
    self.filter (fun k => decide (timestamp < k.1))

/-- The fields of a `GESTrackAudioTransition` that its duration routine reads:
the `gnlobject` of the track object and the two control sources (`NULL` is
`none`). -/
structure GESTrackAudioTransition where
  gnlobject : Option Nat
  a_control_source : Option GstInterpolationControlSource
  b_control_source : Option GstInterpolationControlSource
deriving DecidableEq, Repr

/-- The state of a function body between two statements: still running, or
left by a `return`. -/
inductive Flow (α : Type) where
  | running (s : α)
  | returned (s : α)
deriving DecidableEq, Repr

/-- The next statement runs only when no `return` was met. -/
def Flow.next {α : Type} (f : Flow α) (statement : α → Flow α) : Flow α :=
  match f with
  | Flow.running s => statement s
  | Flow.returned s => Flow.returned s

/-- The state a function body ends with. -/
def Flow.result {α : Type} : Flow α → α
  | Flow.running s => s
  | Flow.returned s => s

/-- The statements of `ges_track_audio_transition_duration_changed` that
follow its `return`: both control sources are emptied and given two
keyframes, from 1 to 0 for `a` and from 0 to 1 for `b`.  The GStreamer calls
return at once on a `NULL` control source. -/
def audio_transition_set_keyframes (self : GESTrackAudioTransition) (duration : Nat) :
    GESTrackAudioTransition :=
  { self with
    a_control_source := self.a_control_source.map (fun cs =>
      gst_interpolation_control_source_set
        (gst_interpolation_control_source_set
          (gst_interpolation_control_source_unset_all cs) 0 1) duration 0)
    b_control_source := self.b_control_source.map (fun cs =>
      gst_interpolation_control_source_set
        (gst_interpolation_control_source_set
          (gst_interpolation_control_source_unset_all cs) 0 0) duration 1) }

/-- The function `ges_track_audio_transition_duration_changed`: the `if`
whose body is the empty statement, the `return`, and the statements after
it. -/
def ges_track_audio_transition_duration_changed (self : GESTrackAudioTransition)
    (duration : Nat) : GESTrackAudioTransition :=
  Flow.result
    ((((Flow.running self).next
      (fun s =>
        if s.gnlobject.isNone || s.a_control_source.isNone || s.b_control_source.isNone then
          Flow.running s
        else Flow.running s)).next
      (fun s => Flow.returned s)).next
      (fun s => Flow.running (audio_transition_set_keyframes s duration)))

/-- An audio transition with its element and both control sources, `a` with
the keyframes of a duration of 5. -/
def faded_transition : GESTrackAudioTransition :=
  { gnlobject := some 0, a_control_source := some [(0, 1), (5, 0)],
    b_control_source := some [(0, 0), (5, 1)] }

/-! ## Observations used by the statements -/

/-- The member list of a layer (`priv->objects_start`). -/
def members (w : World) (layer : Nat) : List Nat :=
  (w.layers layer).objects_start

/-- The order of the index: `a` may stand before `b` when `a` starts earlier,
or at the same time with a priority that is not larger. -/
def start_priority_le (w : World) (a b : Nat) : Bool :=
  decide ((w.objs a).start < (w.objs b).start) ||
  (decide ((w.objs a).start = (w.objs b).start) &&
    decide ((w.objs a).priority ≤ (w.objs b).priority))

/-- The member list is sorted by start ascending and, among equal starts, by
priority ascending. -/
def members_sorted (w : World) (layer : Nat) : Prop :=
  List.Pairwise (fun a b => start_priority_le w a b = true) (members w layer)

/-- Single ownership at one layer: no object is listed twice, and an object
is listed exactly when its back reference is this layer. -/
def LayerOwns (w : World) (layer : Nat) : Prop :=
  (members w layer).Nodup ∧
  ∀ o, o ∈ members w layer ↔ ges_timeline_object_get_layer w o = some layer

/-- The absolute stacking value of a member: the bottom of the band of the
layer plus the relative priority of the object. -/
def absolute_priority (w : World) (layer object : Nat) : Nat :=
  (w.layers layer).min_gnl_priority + GES_TIMELINE_OBJECT_PRIORITY w object

/-- A call of the public interface of the layer. -/
inductive LayerOp where
  | add (layer object : Nat)
  | remove (layer object : Nat)
deriving DecidableEq, Repr

/-- One call, its boolean result dropped. -/
def run_op (fuel : Nat) (w : World) : LayerOp → Outcome World
  | LayerOp.add layer object => Outcome.done (ges_timeline_layer_add_object w layer object).2
  | LayerOp.remove layer object =>
    match ges_timeline_layer_remove_object fuel w layer object with
    | Outcome.done r => Outcome.done r.2
    | Outcome.fault => Outcome.fault
    | Outcome.exhausted => Outcome.exhausted

/-- A sequence of calls, each run to completion before the next. -/
def run_ops (fuel : Nat) : World → List LayerOp → Outcome World
  | w, [] => Outcome.done w
  | w, op :: ops =>
    match run_op fuel w op with
    | Outcome.done w1 => run_ops fuel w1 ops
    | Outcome.fault => Outcome.fault
    | Outcome.exhausted => Outcome.exhausted

/-- A sequence of `ges_timeline_layer_add_object` calls on one layer. -/
def add_objects (w : World) (layer : Nat) : List Nat → World
  | [] => w
  | o :: os => add_objects (ges_timeline_layer_add_object w layer o).2 layer os

/-- A heap with the given timeline objects at addresses `0, 1, ...`, no track
objects, and every layer as `ges_timeline_layer_new` leaves it. -/
def world_of (objects : List GESTimelineObject) : World :=
  { objs := fun i => objects.getD i default
    tobjs := fun _ => default
    tracks := fun _ => []
    layers := fun _ => ges_timeline_layer_init
    connections := []
    next_handler := 1
    emitted := []
    next_object := objects.length }

/-- A timeline object outside every layer with the given start and priority. -/
def free_object (start priority : Nat) : GESTimelineObject :=
  { start := start, duration := 10, priority := priority, height := 1,
    layer := none, is_source := true, trackobjects := [] }

/-- What a removal may do to ownership: a back reference stays or is cleared,
and single ownership at a layer, once it holds, still holds. -/
def OwnershipFrame (w w' : World) : Prop :=
  (∀ x, ges_timeline_object_get_layer w' x = ges_timeline_object_get_layer w x ∨
    ges_timeline_object_get_layer w' x = none) ∧
  ∀ l, LayerOwns w l → LayerOwns w' l

/-- What a removal leaves alone: track objects, track lists, track types and
the allocator; every field of a timeline object but its back reference, which
stays or is cleared; the auto-transition flags; and no member list gains an
element. -/
def HeapFrame (w w' : World) : Prop :=
  w'.tobjs = w.tobjs ∧ w'.tracks = w.tracks ∧ w'.track_type = w.track_type ∧
  w'.next_object = w.next_object ∧
  (∀ x, ({ w'.objs x with layer := none } : GESTimelineObject) =
    { w.objs x with layer := none }) ∧
  (∀ x, ges_timeline_object_get_layer w' x = ges_timeline_object_get_layer w x ∨
    ges_timeline_object_get_layer w' x = none) ∧
  (∀ l, (members w' l).Sublist (members w l)) ∧
  (∀ l, (w'.layers l).auto_transition = (w.layers l).auto_transition)

/-- A walk of `look_for_transition` over `ts` that removes nothing from
`layer`: up to the first source, no audio or video transition has its
timeline object in `layer`. -/
def walk_idle (w : World) (layer : Nat) : List Nat → Bool
  | [] => true
  | t :: rest =>
    if GES_IS_TRACK_SOURCE w t then true
    else if GES_IS_TRACK_AUDIO_OR_VIDEO_TRANSITION w t then
      match (w.tobjs t).timeline_object with
      | none => walk_idle w layer rest
      | some tl =>
        !decide (ges_timeline_object_get_layer w tl = some layer) && walk_idle w layer rest
    else walk_idle w layer rest

/-- Both walks of `look_for_transition` from `track_object` are idle: the
track object is listed by its track and, on either side, a source is met
before any other transition of `layer`. -/
def look_idle (w : World) (layer track_object : Nat) : Bool :=
  match (w.tobjs track_object).track with
  | none => false
  | some track =>
    decide (track_object ∈ w.tracks track) &&
    walk_idle w layer
      ((w.tracks track).dropWhile (fun x => !decide (x = track_object))).tail &&
    walk_idle w layer
      ((w.tracks track).takeWhile (fun x => !decide (x = track_object))).reverse

/-- The removal of `object` from `layer` touches no other object: every track
object of `object` has idle walks. -/
def removal_idle (w : World) (layer object : Nat) : Bool :=
  (w.objs object).trackobjects.all (fun t => look_idle w layer t)

/-- The transitions of `layer` stand apart: the timeline object of every
transition track object, when it is in `layer`, is removed without touching
another object. -/
def TransitionsApart (w : World) (layer : Nat) : Prop :=
  ∀ t tl, GES_IS_TRACK_TRANSITION w t = true → (w.tobjs t).timeline_object = some tl →
    ges_timeline_object_get_layer w tl = some layer → removal_idle w layer tl = true

/-- The heap after `object` left `layer`, if it was there. -/
def detach (w : World) (layer object : Nat) : World :=
  if ges_timeline_object_get_layer w object = some layer then
    remove_object_finish w layer object
  else w

/-- The transition that the search loop of `compare` finds for the pair. -/
def compare_found (w : World) (compared : GListNode) (ahead : Bool) : Option Nat :=
  if ahead then
    compare_find_ahead w
      (wrap_gint64 (to_gint64 (w.tobjs compared.data).start +
        to_gint64 (w.tobjs compared.data).duration)) compared.next
  else compare_find_behind w (to_gint64 (w.tobjs compared.data).start) compared.prev

/-- The end of a track object, `start + duration`. -/
def track_end (w : World) (t : Nat) : Nat :=
  (w.tobjs t).start + (w.tobjs t).duration

/-- The track object ends below `2 ^ 63`, so that its start, its duration and
its end are the same numbers in `gint64`. -/
def Fits (w : World) (t : Nat) : Prop :=
  track_end w t < INT64_RANGE

/-- The start of a track object as `compare` reads it. -/
def signed_start (w : World) (t : Nat) : Int :=
  to_gint64 (w.tobjs t).start

/-- The end of a track object as `compare` computes it. -/
def signed_end (w : World) (t : Nat) : Int :=
  wrap_gint64 (to_gint64 (w.tobjs t).start + to_gint64 (w.tobjs t).duration)

/-- The first test of the branch of `compare` holds: forward
`compared_end <= start`, backward `start + duration <= compared_start`. -/
def first_test (w : World) (compared : GListNode) (track_object : Nat) (ahead : Bool) : Prop :=
  if ahead then signed_end w compared.data ≤ signed_start w track_object
  else signed_end w track_object ≤ signed_start w compared.data

/-- None of the three tests of the branch of `compare` holds, so that it
reaches its last part. -/
def falls_through (w : World) (compared : GListNode) (track_object : Nat) (ahead : Bool) :
    Prop :=
  if ahead then
    signed_start w compared.data < signed_start w track_object ∧
    signed_start w track_object < signed_end w compared.data ∧
    signed_end w compared.data ≤ signed_end w track_object
  else
    signed_start w track_object ≤ signed_start w compared.data ∧
    signed_start w compared.data < signed_end w track_object ∧
    (signed_start w track_object = signed_start w compared.data ∨
      signed_end w track_object ≤ signed_end w compared.data)

/-- The intervals for which `compare` bridges the pair, that is reaches its
last part, when the times fit in `gint64` (`falls_through` is the condition
as `compare` tests it): forward, the object starts inside `compared` and does
not end before it; backward, the object starts no later than `compared`,
ends after the start of `compared`, and either starts with it or does not
end after it. -/
def bridges (w : World) (compared : GListNode) (track_object : Nat) (ahead : Bool) : Prop :=
  if ahead then
    (w.tobjs compared.data).start < (w.tobjs track_object).start ∧
    (w.tobjs track_object).start < track_end w compared.data ∧
    track_end w compared.data ≤ track_end w track_object
  else
    (w.tobjs track_object).start ≤ (w.tobjs compared.data).start ∧
    (w.tobjs compared.data).start < track_end w track_object ∧
    ((w.tobjs track_object).start = (w.tobjs compared.data).start ∨
      track_end w track_object ≤ track_end w compared.data)

/-- The pair does not overlap: the later object starts at or after the end
of the earlier one. -/
def no_overlap (w : World) (compared : GListNode) (track_object : Nat) (ahead : Bool) : Prop :=
  if ahead then track_end w compared.data ≤ (w.tobjs track_object).start
  else track_end w track_object ≤ (w.tobjs compared.data).start

/-- The earlier and the later timeline object of a comparison: forward the
object of `compared` is the earlier one, backward the changed object is. -/
def earlier_of (ahead : Bool) (object compared_object : Nat) : Nat :=
  if ahead then compared_object else object

/-- The later timeline object of a comparison. -/
def later_of (ahead : Bool) (object compared_object : Nat) : Nat :=
  if ahead then object else compared_object

/-- The heap after the transition that was found, if any, left `layer`. -/
def remove_found (w : World) (layer : Nat) (trans : Option Nat) : World :=
  match trans with
  | none => w
  | some tr => detach w layer tr

/-- The start that `compare` gives the transition of a bridged pair. -/
def bridge_start (w : World) (compared : GListNode) (track_object : Nat) (ahead : Bool) : Nat :=
  if ahead then to_guint64 (to_gint64 (w.tobjs track_object).start)
  else to_guint64 (to_gint64 (w.tobjs compared.data).start)

/-- The duration that `compare` gives the transition of a bridged pair. -/
def bridge_duration (w : World) (compared : GListNode) (track_object : Nat) (ahead : Bool) :
    Nat :=
  if ahead then
    to_guint64 (wrap_gint64
      (wrap_gint64 (to_gint64 (w.tobjs compared.data).duration +
        to_gint64 (w.tobjs compared.data).start) - to_gint64 (w.tobjs track_object).start))
  else
    to_guint64 (wrap_gint64
      (wrap_gint64 (to_gint64 (w.tobjs track_object).start +
        to_gint64 (w.tobjs track_object).duration) - to_gint64 (w.tobjs compared.data).start))

/-- The heap in which `compare` has created a crossfade for a track of type
`formats` and added it to `layer`, before the stacking of the pair. -/
def crossfade_added (w : World) (layer formats : Nat) : World :=
  (ges_timeline_layer_add_object
    (ges_timeline_object_set_supported_formats
      (ges_timeline_standard_transition_new_for_nick w).2
      (ges_timeline_standard_transition_new_for_nick w).1 formats)
    layer (ges_timeline_standard_transition_new_for_nick w).1).2

/-- The stacking step of `compare`: the second object gets the priority of
the first plus its height, in 32 bits, and a handler for the height of the
first is connected with the second as user data. -/
def stacked (w : World) (first second : Nat) : World :=
  (g_signal_connect
    (ges_timeline_object_set_priority w second
      (wrap32 ((w.objs first).priority + (w.objs first).height)))
    (Emitter.timeline_object first) SignalName.notify_height
    Callback.timeline_object_height_changed_cb (some second)).2

/-- The heap `compare` ends with when it creates the transition of a pair. -/
def bridged (w : World) (layer formats first second ts td : Nat) : World :=
  ges_timeline_object_set_start_duration
    (stacked (crossfade_added w layer formats) first second) w.next_object ts td

/-- The intervals that `compare` takes for containment when the times fit in
`gint64`: the earlier object lies strictly around the later one (in either
direction), or, in the forward comparison, the later object starts no later
than the earlier one. -/
def containment (w : World) (compared : GListNode) (track_object : Nat) (ahead : Bool) :
    Prop :=
  if ahead then
    ((w.tobjs compared.data).start < (w.tobjs track_object).start ∧
      track_end w track_object < track_end w compared.data) ∨
    (w.tobjs track_object).start ≤ (w.tobjs compared.data).start
  else
    (w.tobjs track_object).start < (w.tobjs compared.data).start ∧
    track_end w compared.data < track_end w track_object

/-- What connecting handlers does to the heap: timeline objects, track
objects, track lists, layers, emitted signals and the allocator stay, and the
list of connected handlers grows at its end. -/
def ConnectsOnly (w w' : World) : Prop :=
  w'.objs = w.objs ∧ w'.tobjs = w.tobjs ∧ w'.tracks = w.tracks ∧ w'.layers = w.layers ∧
  w'.emitted = w.emitted ∧ w'.next_object = w.next_object ∧
  w'.track_type = w.track_type ∧ ∃ added, w'.connections = w.connections ++ added

/-- The nearest source in a list of track objects, walked from its head:
the elements stepped over (none of them a source), the source, and the
elements beyond it. -/
def nearest_source (w : World) : List Nat → Option (List Nat × Nat × List Nat)
  | [] => none
  | y :: ys =>
    if GES_IS_TRACK_SOURCE w y then some ([], y, ys)
    else
      match nearest_source w ys with
      | none => none
      | some r => some (y :: r.1, r.2.1, r.2.2)

/-- The comparison of `track_object` with its earlier neighbour in the list
`pre ++ track_object :: post`: the nearest source before it, compared with
`ahead = TRUE`; no comparison when no source stands before it. -/
def compare_with_earlier (fuel : Nat) (w : World) (track_object : Nat) (pre post : List Nat) :
    Outcome World :=
  match nearest_source w pre.reverse with
  | none => Outcome.done w
  | some r =>
    compare fuel w { prev := r.2.2, data := r.2.1, next := r.1.reverse ++ track_object :: post }
      track_object true

/-- The comparison of `track_object` with its later neighbour in the list
`pre ++ track_object :: post`: the nearest source after it, compared with
`ahead = FALSE`; no comparison when no source stands after it. -/
def compare_with_later (fuel : Nat) (w : World) (track_object : Nat) (pre post : List Nat) :
    Outcome World :=
  match nearest_source w post with
  | none => Outcome.done w
  | some r =>
    compare fuel w
      { prev := r.1.reverse ++ track_object :: pre.reverse, data := r.2.1, next := r.2.2 }
      track_object false

/-- The steps of `compare` and of a removal all keep the relation `R`. -/
def Preserved (R : World → World → Prop) : Prop :=
  (∀ w, R w w) ∧ (∀ a b c, R a b → R b c → R a c) ∧
  (∀ w l o, R w (remove_object_finish w l o)) ∧
  (∀ w o p, R w (ges_timeline_object_set_priority w o p)) ∧
  (∀ w o s d, R w (ges_timeline_object_set_start_duration w o s d)) ∧
  (∀ w, R w (ges_timeline_standard_transition_new_for_nick w).2) ∧
  (∀ w o f, R w (ges_timeline_object_set_supported_formats w o f)) ∧
  (∀ w l o, R w (ges_timeline_layer_add_object w l o).2) ∧
  (∀ w e s c d, R w (g_signal_connect w e s c d).2)

/-- The kind of every track object is the same in both heaps. -/
def SameKinds (w w' : World) : Prop :=
  ∀ t, (w'.tobjs t).kind = (w.tobjs t).kind

/-- The user data of the handlers connected for `notify::height` on a
timeline object, in the order they were connected. -/
def height_subscriptions (w : World) (obj : Nat) : List (Option Nat) :=
  (handlers_of w (Emitter.timeline_object obj) SignalName.notify_height).map (fun c => c.data)

/-- No handler on a timeline object is lost: for every timeline object and
signal, the handlers connected in the first heap are connected in the second,
in the same order, followed by the ones added. -/
def HandlersKept (w w' : World) : Prop :=
  ∀ o s, ∃ added, handlers_of w' (Emitter.timeline_object o) s =
    handlers_of w (Emitter.timeline_object o) s ++ added

/-! ## Concrete heaps -/

/-- Two objects that start together, with priorities 1000 and 2000. -/
def order_world : World :=
  world_of [free_object 0 1000, free_object 0 2000]

/-- The heap `order_world` after object 0 and then object 1 were added to the
new layer 0. -/
def order_world_added : World :=
  (ges_timeline_layer_add_object (ges_timeline_layer_add_object order_world 0 0).2 0 1).2

/-- One object of priority 5 that starts at 3, in no layer. -/
def single_world : World :=
  world_of [free_object 3 5]

/-- The heap `single_world` after object 0 was added to layer 0. -/
def single_world_added : World :=
  (ges_timeline_layer_add_object single_world 0 0).2

/-- Layer 0 moved to priority 1, and one object of priority 1000 in no layer. -/
def band_world : World :=
  ges_timeline_layer_set_priority (world_of [free_object 0 1000]) 0 1

/-- One object of priority 0 added to the new layer 0, which is then given a
priority whose band does not fit in 32 bits. -/
def overflow_world : World :=
  ges_timeline_layer_set_priority
    (ges_timeline_layer_add_object (world_of [free_object 0 0]) 0 0).2 0 4294968

/-- Three objects of priorities 0, 999 and 5000 in no layer. -/
def trio_world : World :=
  world_of [free_object 0 0, free_object 0 999, free_object 4 5000]

/-- The calls that put object 0 in layer 0 and object 1 in layer 1, take
object 0 out again and put it in layer 1. -/
def two_layer_ops : List LayerOp :=
  [LayerOp.add 0 0, LayerOp.add 1 1, LayerOp.remove 0 0, LayerOp.add 1 0]

/-- The heap `order_world` after the calls `two_layer_ops`. -/
def two_layer_world : World :=
  (ges_timeline_layer_add_object
    (remove_object_finish
      (ges_timeline_layer_add_object (ges_timeline_layer_add_object order_world 0 0).2 1 1).2
      0 0) 1 0).2

/-- The heap `trio_world` after its three objects were added to the new layer
0 and the layer was set to priority 3. -/
def trio_world_banded : World :=
  ges_timeline_layer_set_priority (add_objects trio_world 0 [0, 1, 2]) 0 3

/-- A source timeline object in layer 0 whose one track object is `t`. -/
def source_object (start duration priority height t : Nat) : GESTimelineObject :=
  { start := start, duration := duration, priority := priority, height := height,
    layer := some 0, is_source := true, trackobjects := [t] }

/-- A transition timeline object in layer 0 whose one track object is `t`. -/
def transition_object (start duration t : Nat) : GESTimelineObject :=
  { start := start, duration := duration, priority := 0, height := 1,
    layer := some 0, is_source := false, trackobjects := [t], is_transition := true }

/-- A source track object on track 0 that belongs to timeline object `tl`. -/
def track_source (start duration tl : Nat) : GESTrackObject :=
  { kind := GESTrackObjectKind.source, start := start, duration := duration,
    track := some 0, timeline_object := some tl }

/-- A transition track object on track 0 that belongs to timeline object
`tl`. -/
def track_transition (start duration tl : Nat) : GESTrackObject :=
  { kind := GESTrackObjectKind.video_transition, start := start, duration := duration,
    track := some 0, timeline_object := some tl }

/-- A heap with one auto-transition layer 0 that holds the given timeline
objects (at addresses `0, 1, ...`), their track objects, and track 0 listing
the track objects in the order `track`. -/
def scene (objects : List GESTimelineObject) (track_objects : List GESTrackObject)
    (track : List Nat) : World :=
  { objs := fun i => objects.getD i default
    tobjs := fun i => track_objects.getD i default
    tracks := fun k => if k = 0 then track else []
    layers := fun l =>
      if l = 0 then
        { ges_timeline_layer_init with
          auto_transition := true
          objects_start := List.range objects.length }
      else ges_timeline_layer_init
    connections := []
    next_handler := 1
    emitted := []
    next_object := objects.length }

/-- The start and duration of the transitions among the members of a
layer. -/
def transitions_of (w : World) (layer : Nat) : List (Nat × Nat) :=
  ((members w layer).filter (fun o => (w.objs o).is_transition)).map
    (fun o => ((w.objs o).start, (w.objs o).duration))

/-- The transitions of layer 0 in the heap a call returned. -/
def outcome_transitions (r : Outcome World) : Option (List (Nat × Nat)) :=
  match r with
  | Outcome.done w => some (transitions_of w 0)
  | _ => none

/-- The priorities of the given objects in the heap a call returned. -/
def outcome_priorities (r : Outcome World) (objects : List Nat) : Option (List Nat) :=
  match r with
  | Outcome.done w => some (objects.map (fun o => (w.objs o).priority))
  | _ => none

/-- The members of layer 0 in the heap a call returned. -/
def outcome_members (r : Outcome World) : Option (List Nat) :=
  match r with
  | Outcome.done w => some (members w 0)
  | _ => none

/-- Sources E (0 to 10) and L (5 to 15) on one track, no transition. -/
def pair_world : World :=
  scene [source_object 0 10 0 1 0, source_object 5 10 0 1 1]
    [track_source 0 10 0, track_source 5 10 1] [0, 1]

/-- Sources X (5 to 25) and N (5 to 15) that start together, X listed
first. -/
def same_start_world : World :=
  scene [source_object 5 20 0 1 0, source_object 5 10 0 1 1]
    [track_source 5 20 0, track_source 5 10 1] [0, 1]

/-- Source A (0 to 10), source B moved to start 10, and the transition
(5, 5) that bridged them, listed between them; B has priority 1. -/
def touching_world : World :=
  scene [source_object 0 10 0 1 0, source_object 10 10 1 1 1, transition_object 5 5 2]
    [track_source 0 10 0, track_source 10 10 1, track_transition 5 5 2] [0, 2, 1]

/-- Source E (0 to 10) and source L (5 to 10) inside it, ending together. -/
def same_end_world : World :=
  scene [source_object 0 10 0 1 0, source_object 5 5 0 1 1]
    [track_source 0 10 0, track_source 5 5 1] [0, 1]

/-- Source E (0 to 20) strictly around source L (5 to 15), with a transition
that ends where E ends listed between them. -/
def inside_world : World :=
  scene [source_object 0 20 0 1 0, source_object 5 10 4 1 1, transition_object 5 15 2]
    [track_source 0 20 0, track_source 5 10 1, track_transition 5 15 2] [0, 2, 1]

/-- Source A (0 to 10) and source B (0 to 20) that contains it, both of
priority 3, A listed first. -/
def contained_world : World :=
  scene [source_object 0 10 3 1 0, source_object 0 20 3 1 1]
    [track_source 0 10 0, track_source 0 20 1] [0, 1]

/-- Sources E (0 to 10, priority 0, height 1) and L (5 to 15, priority 7)
with their transition (5, 5) listed between them. -/
def bridged_world : World :=
  scene [source_object 0 10 0 1 0, source_object 5 10 7 1 1, transition_object 5 5 2]
    [track_source 0 10 0, track_source 5 10 1, track_transition 5 5 2] [0, 2, 1]

/-- The members of the layer and the result in what a removal returned. -/
def outcome_removed (r : Outcome (Bool × World)) (layer : Nat) : Option (Bool × List Nat) :=
  match r with
  | Outcome.done x => some (x.1, members x.2 layer)
  | _ => none

/-- Sequencing of calls that may fail to return. -/
def Outcome.andThen {α β : Type} (r : Outcome α) (f : α → Outcome β) : Outcome β :=
  match r with
  | Outcome.done a => f a
  | Outcome.fault => Outcome.fault
  | Outcome.exhausted => Outcome.exhausted

/-- An edit of the timeline: an object is added to a layer, or the start or
the duration of a track object is changed. -/
inductive EditOp where
  | add (layer object : Nat)
  | set_start (track_object start : Nat)
  | set_duration (track_object duration : Nat)
deriving DecidableEq, Repr

/-- One edit, run to completion with its handlers. -/
def run_edit (fuel : Nat) (w : World) : EditOp → Outcome World
  | EditOp.add layer object => Outcome.done (ges_timeline_layer_add_object w layer object).2
  | EditOp.set_start t start => ges_track_object_set_start fuel w t start
  | EditOp.set_duration t duration => ges_track_object_set_duration fuel w t duration

/-- A sequence of edits. -/
def run_edits (fuel : Nat) : World → List EditOp → Outcome World
  | w, [] => Outcome.done w
  | w, op :: ops => (run_edit fuel w op).andThen (fun w1 => run_edits fuel w1 ops)

/-- Sources A (0 to 10) and B (20 to 30) in no layer, each with its track
object on track 0, and new layers. -/
def loose_world : World :=
  { objs := fun i =>
      [({ source_object 0 10 0 1 0 with layer := none } : GESTimelineObject),
        { source_object 20 10 0 1 1 with layer := none }].getD i default
    tobjs := fun i => [track_source 0 10 0, track_source 20 10 1].getD i default
    tracks := fun k => if k = 0 then [0, 1] else []
    layers := fun _ => ges_timeline_layer_init
    connections := []
    next_handler := 1
    emitted := []
    next_object := 2 }

/-- Auto-transition is switched on for layer 0 of `loose_world`, A and B are
added, the `track-object-added` signal is delivered for both, and
auto-transition is switched off again. -/
def toggled_world : Outcome World :=
  (emit_track_object_added 3
    (ges_timeline_layer_add_object
      (ges_timeline_layer_add_object
        (ges_timeline_layer_set_auto_transition loose_world 0 true) 0 0).2 0 1).2 0 0).andThen
    (fun w4 => (emit_track_object_added 3 w4 1 1).andThen
      (fun w5 => Outcome.done (ges_timeline_layer_set_auto_transition w5 0 false)))

/-- The track object of B is moved to start 5 in `toggled_world`. -/
def toggled_moved : Outcome World :=
  toggled_world.andThen (fun w => ges_track_object_set_start 3 w 1 5)

/-- The auto-transition flag of layer 0 in the heap a call returned. -/
def outcome_auto (r : Outcome World) : Option Bool :=
  match r with
  | Outcome.done w => some (ges_timeline_layer_get_auto_transition w 0)
  | _ => none

/-- Source E (0 to 10), sources X and N (both 5 to 15, X listed first) and
the transition (5, 5) of E and X; the track lists E, the transition, X, N.
The objects are at addresses 0 (E), 1 (X), 2 (N) and 3 (the transition). -/
def wedge_world : World :=
  scene
    [source_object 0 10 0 1 0, source_object 5 10 1 1 1, source_object 5 10 2 1 2,
      transition_object 5 5 3]
    [track_source 0 10 0, track_source 5 10 1, track_source 5 10 2, track_transition 5 5 3]
    [0, 3, 1, 2]

/-- The track object of X is classified once in `wedge_world`. -/
def wedge_once : Outcome World :=
  calculate_transitions 3 wedge_world 1

/-- The track object of X is classified a second time right after. -/
def wedge_twice : Outcome World :=
  wedge_once.andThen (fun w => calculate_transitions 3 w 1)

/-- The track list of track 0 in the heap a call returned. -/
def outcome_track (r : Outcome World) : Option (List Nat) :=
  match r with
  | Outcome.done w => some (w.tracks 0)
  | _ => none

/-- Sources A (0 to 10) and B (5 to 15) and two transitions (5, 5) of the
layer that the track lists next to each other between them.  The objects
are at addresses 0 (A), 1 (B), 2 and 3 (the transitions). -/
def adjacent_world : World :=
  scene
    [source_object 0 10 0 1 0, source_object 5 10 0 1 1, transition_object 5 5 2,
      transition_object 5 5 3]
    [track_source 0 10 0, track_source 5 10 1, track_transition 5 5 2, track_transition 5 5 3]
    [0, 2, 3, 1]

/-- Sources A (0 to 10), B (5 to 15) and C (10 to 20) and the transition
(5, 5) of A and B, listed right before B; no transition for B and C yet.
The objects are at addresses 0 (A), 1 (B), 2 (C) and 3 (the transition). -/
def chain_world : World :=
  scene
    [source_object 0 10 0 1 0, source_object 5 10 1 1 1, source_object 10 10 2 1 2,
      transition_object 5 5 3]
    [track_source 0 10 0, track_source 5 10 1, track_source 10 10 2, track_transition 5 5 3]
    [0, 3, 1, 2]

/-- Sources E and L that both run from 0 to 10, E listed first, and no
transition. -/
def level_world : World :=
  scene [source_object 0 10 0 1 0, source_object 0 10 0 1 1]
    [track_source 0 10 0, track_source 0 10 1] [0, 1]

/-- The classification as the specification words it: the track object is
compared with its earlier neighbour and then with its later neighbour. -/
def classify_both_neighbours (fuel : Nat) (w : World) (track_object : Nat)
    (pre post : List Nat) : Outcome World :=
  (compare_with_earlier fuel w track_object pre post).andThen
    (fun w1 => compare_with_later fuel w1 track_object pre post)

/-- Auto-transition is switched on for layer 0 of `loose_world`, A (0 to 10)
and B (20 to 30) are added and the `track-object-added` signal is delivered
for both. -/
def joined_world : Outcome World :=
  (emit_track_object_added 3
    (ges_timeline_layer_add_object
      (ges_timeline_layer_add_object
        (ges_timeline_layer_set_auto_transition loose_world 0 true) 0 0).2 0 1).2 0 0).andThen
    (fun w => emit_track_object_added 3 w 1 1)

/-- The track object of B is moved to start 5 in `joined_world`, which
creates the transition of A and B as object 2, and the transition gets its
track object 2, listed between the two sources. -/
def crossfaded_world : Outcome World :=
  (joined_world.andThen (fun w => ges_track_object_set_start 3 w 1 5)).andThen
    (fun w => Outcome.done (attach_track_object w 2 2 GESTrackObjectKind.video_transition 0 1))

/-- The track object of B is moved on to start 10, where A ends. -/
def parted_world : Outcome World :=
  crossfaded_world.andThen (fun w => ges_track_object_set_start 3 w 1 10)

/-- The height of A changes to 4 after the pair was parted. -/
def parted_raised : Outcome World :=
  parted_world.andThen (fun w => Outcome.done (ges_timeline_object_set_height w 0 4))

/-- The track object of B is moved back to start 5 after the pair was
parted. -/
def rejoined_world : Outcome World :=
  parted_world.andThen (fun w => ges_track_object_set_start 3 w 1 5)

/-- The height subscriptions on object 0 in the heap a call returned. -/
def outcome_subscriptions (r : Outcome World) : Option (List (Option Nat)) :=
  match r with
  | Outcome.done w => some (height_subscriptions w 0)
  | _ => none

/-- The track object of L in `bridged_world` is given the duration 3, so that
L (5 to 8) lies inside E (0 to 10); no handler is connected there. -/
def shrunk_world : Outcome World :=
  ges_track_object_set_duration 2 bridged_world 1 3

/-- The heap `touching_world` with the height subscription of the pair A, B
connected. -/
def touching_subscribed : World :=
  stacked touching_world 0 1

/-- Sources E (0 to 10) and L, which starts at 5 and has the duration
`2 ^ 63`, and no transition. -/
def huge_world : World :=
  scene [source_object 0 10 0 1 0, source_object 5 9223372036854775808 0 1 1]
    [track_source 0 10 0, track_source 5 9223372036854775808 1] [0, 1]

/-- Source A (0 to 10), source B moved to start 10, and two transitions
(5, 5) of the layer that the track lists next to each other between them.
The objects are at addresses 0 (A), 1 (B), 2 and 3 (the transitions). -/
def parted_adjacent_world : World :=
  scene
    [source_object 0 10 0 1 0, source_object 10 10 0 1 1, transition_object 5 5 2,
      transition_object 5 5 3]
    [track_source 0 10 0, track_source 10 10 1, track_transition 5 5 2,
      track_transition 5 5 3]
    [0, 2, 3, 1]

/-- The same-layer list of a track object in the words of the specification:
the track objects that its track lists, in the order of the track, whose
timeline object is in the layer that holds the timeline object of `t`. -/
def same_layer_list (w : World) (t : Nat) : List Nat :=
  match (w.tobjs t).track with
  | none => []
  | some k =>
    (w.tracks k).filter (fun x =>
      decide ((w.tobjs x).timeline_object.bind (fun tl => (w.objs tl).layer) =
        (w.tobjs t).timeline_object.bind (fun tl => (w.objs tl).layer)))

/-- Two auto-transition layers on one track: the sources A (0 to 10), B (5 to
15) and C (12 to 22) are in layer 0, the source X (2 to 12) is in layer 1, and
the track lists A, X, B, C.  The objects are at addresses 0 (A), 1 (X), 2 (B)
and 3 (C). -/
def mixed_world : World :=
  { objs := fun i =>
      [source_object 0 10 0 1 0,
        ({ source_object 2 10 0 1 1 with layer := some 1 } : GESTimelineObject),
        source_object 5 10 0 1 2, source_object 12 10 0 1 3].getD i default
    tobjs := fun i =>
      [track_source 0 10 0, track_source 2 10 1, track_source 5 10 2,
        track_source 12 10 3].getD i default
    tracks := fun k => if k = 0 then [0, 1, 2, 3] else []
    layers := fun l =>
      if l = 0 then
        { ges_timeline_layer_init with
          auto_transition := true
          objects_start := [0, 2, 3] }
      else if l = 1 then
        { ges_timeline_layer_init with
          auto_transition := true
          objects_start := [1] }
      else ges_timeline_layer_init
    connections := []
    next_handler := 1
    emitted := []
    next_object := 4 }

/-! ## Frame lemmas -/

theorem set_priority_self (w : World) (o : Nat) :
    ges_timeline_object_set_priority w o (GES_TIMELINE_OBJECT_PRIORITY w o) = w := by
  cases w
  simp [ges_timeline_object_set_priority, GES_TIMELINE_OBJECT_PRIORITY]

theorem resync_priorities_eq (w : World) (layer : Nat) :
    ges_timeline_layer_resync_priorities w layer = w := by
  unfold ges_timeline_layer_resync_priorities
  induction (w.layers layer).objects_start with
  | nil => rfl
  | cons o os ih => simp [List.foldl_cons, set_priority_self, ih]

theorem add_object_of_owned (w : World) (layer object : Nat)
    (h : ges_timeline_object_get_layer w object ≠ none) :
    ges_timeline_layer_add_object w layer object = (false, w) := by
  unfold ges_timeline_layer_add_object
  cases hl : ges_timeline_object_get_layer w object with
  | none => exact absurd hl h
  | some l0 => rfl

theorem add_object_fst (w : World) (layer object : Nat)
    (h : ges_timeline_object_get_layer w object = none) :
    (ges_timeline_layer_add_object w layer object).1 = true := by
  unfold ges_timeline_layer_add_object
  rw [h]

theorem add_object_layers (w : World) (layer object : Nat)
    (h : ges_timeline_object_get_layer w object = none) :
    (ges_timeline_layer_add_object w layer object).2.layers =
      Function.update w.layers layer
        ({ w.layers layer with
          objects_start :=
            g_list_insert_sorted (fun a b => objects_start_compare (w.objs a) (w.objs b))
              object (w.layers layer).objects_start }) := by
  unfold ges_timeline_layer_add_object
  rw [h]
  simp only [resync_priorities_eq]
  split_ifs <;> rfl

theorem add_object_objs (w : World) (layer object : Nat)
    (h : ges_timeline_object_get_layer w object = none) :
    (ges_timeline_layer_add_object w layer object).2.objs =
      Function.update w.objs object
        ({ w.objs object with
          layer := some layer
          priority :=
            if wrap32 ((w.layers layer).min_gnl_priority + (w.objs object).priority) >
                (w.layers layer).max_gnl_priority
            then LAYER_HEIGHT - 1 else (w.objs object).priority }) := by
  unfold ges_timeline_layer_add_object
  rw [h]
  simp only [resync_priorities_eq]
  split_ifs <;>
    simp_all [ges_timeline_object_set_priority, ges_timeline_object_set_layer, g_signal_emit,
      g_signal_connect, GES_TIMELINE_OBJECT_PRIORITY, Function.update_same]

theorem add_object_emitted (w : World) (layer object : Nat)
    (h : ges_timeline_object_get_layer w object = none) :
    (ges_timeline_layer_add_object w layer object).2.emitted =
      w.emitted ++ [Emission.object_added layer object] := by
  unfold ges_timeline_layer_add_object
  rw [h]
  simp only [resync_priorities_eq]
  split_ifs <;> rfl

theorem insert_sorted_split {α : Type} (cmp : α → α → Int) (d : α) (xs : List α) :
    ∃ pre post, xs = pre ++ post ∧ g_list_insert_sorted cmp d xs = pre ++ d :: post := by
  induction xs with
  | nil => exact ⟨[], [], rfl, rfl⟩
  | cons x xs ih =>
    unfold g_list_insert_sorted
    by_cases hc : cmp d x > 0
    · obtain ⟨pre, post, h1, h2⟩ := ih
      refine ⟨x :: pre, post, ?_, ?_⟩
      · simp [h1]
      · simp [hc, h2]
    · exact ⟨[], x :: xs, rfl, by simp [hc]⟩

theorem insert_sorted_perm {α : Type} (cmp : α → α → Int) (d : α) (xs : List α) :
    (g_list_insert_sorted cmp d xs).Perm (d :: xs) := by
  obtain ⟨pre, post, h1, h2⟩ := insert_sorted_split cmp d xs
  rw [h2, h1]
  exact List.perm_middle

theorem mem_insert_sorted {α : Type} (cmp : α → α → Int) (d x : α) (xs : List α) :
    x ∈ g_list_insert_sorted cmp d xs ↔ x = d ∨ x ∈ xs := by
  rw [(insert_sorted_perm cmp d xs).mem_iff]
  simp

theorem disconnect_fold_frame (entries : List (Nat × Nat)) (w : World) :
    let w1 := entries.foldl
      (fun acc e => g_signal_handler_disconnect acc (Emitter.track e.1) e.2) w
    w1.objs = w.objs ∧ w1.layers = w.layers ∧ w1.emitted = w.emitted ∧
      w1.tobjs = w.tobjs ∧ w1.tracks = w.tracks := by
  induction entries generalizing w with
  | nil => simp
  | cons e es ih =>
    have h := ih (g_signal_handler_disconnect w (Emitter.track e.1) e.2)
    simpa [List.foldl_cons, g_signal_handler_disconnect] using h

theorem finish_objs (w : World) (layer object : Nat) :
    (remove_object_finish w layer object).objs =
      Function.update w.objs object ({ w.objs object with layer := none }) := by
  have h := disconnect_fold_frame (w.layers layer).signal_table w
  simp only [remove_object_finish, disconnect_all_handlers, g_signal_emit,
    ges_timeline_object_set_layer]
  rw [h.1]

theorem finish_layers (w : World) (layer object : Nat) :
    (remove_object_finish w layer object).layers =
      Function.update w.layers layer
        ({ w.layers layer with
          signal_table := []
          objects_start := (w.layers layer).objects_start.erase object }) := by
  have h := disconnect_fold_frame (w.layers layer).signal_table w
  simp only [remove_object_finish, disconnect_all_handlers, g_signal_emit,
    ges_timeline_object_set_layer, g_list_remove]
  rw [h.2.1]
  simp

theorem finish_emitted (w : World) (layer object : Nat) :
    (remove_object_finish w layer object).emitted =
      w.emitted ++ [Emission.object_removed layer object] := by
  have h := disconnect_fold_frame (w.layers layer).signal_table w
  simp only [remove_object_finish, disconnect_all_handlers, g_signal_emit,
    ges_timeline_object_set_layer]
  rw [h.2.2.1]

theorem remove_object_not_member (fuel : Nat) (w : World) (layer object : Nat)
    (h : ges_timeline_object_get_layer w object ≠ some layer) :
    ges_timeline_layer_remove_object (fuel + 1) w layer object = Outcome.done (false, w) := by
  simp [ges_timeline_layer_remove_object, h]

theorem remove_object_member (fuel : Nat) (w : World) (layer object : Nat)
    (h : ges_timeline_object_get_layer w object = some layer) :
    ges_timeline_layer_remove_object (fuel + 1) w layer object =
      match (if (w.layers layer).auto_transition then
          look_for_transition_all
            (fun w1 o => ges_timeline_layer_remove_object fuel w1 layer o)
            w (w.objs object).trackobjects
        else Outcome.done w) with
      | Outcome.done w1 => Outcome.done (true, remove_object_finish w1 layer object)
      | Outcome.fault => Outcome.fault
      | Outcome.exhausted => Outcome.exhausted := by
  simp [ges_timeline_layer_remove_object, h]

/-! ## Adding and removing a single object -/

/-- C1: `ges_timeline_layer_add_object` returns FALSE exactly when the object
already has a layer (any layer, this one included); the call then leaves the
whole heap as it was, so the member list, the layer priority and band, the
auto-transition flag, the priority of the object and the list of emitted
signals are unchanged.  For an object without a layer it returns TRUE. -/
theorem add_object_refuses_owned (w : World) (layer object : Nat) :
    ((ges_timeline_layer_add_object w layer object).1 = false ↔
      ges_timeline_object_get_layer w object ≠ none) ∧
    (ges_timeline_layer_add_object w layer object = (false, w) ↔
      ges_timeline_object_get_layer w object ≠ none) ∧
    ((ges_timeline_layer_add_object w layer object).1 = true ↔
      ges_timeline_object_get_layer w object = none) := by
  by_cases h : ges_timeline_object_get_layer w object = none
  · have h1 := add_object_fst w layer object h
    refine ⟨?_, ?_, ?_⟩
    · simp [h1, h]
    · constructor
      · intro he
        rw [he] at h1
        exact absurd h1 (by simp)
      · intro hn
        exact absurd h hn
    · simp [h1, h]
  · have h1 := add_object_of_owned w layer object h
    refine ⟨?_, ?_, ?_⟩
    · simp [h1, h]
    · simp [h1, h]
    · simp [h1, h]

/-- C3: for an object without a layer, after `ges_timeline_layer_add_object`
the back reference of the object is this layer, the member list is the
previous list with the object put in at one place (so the previous members
keep their relative order), the length grows by one, and the object occurs
once more than before while every other object occurs as often as before. -/
theorem add_object_inserts_once (w : World) (layer object : Nat)
    (h : ges_timeline_object_get_layer w object = none) :
    ges_timeline_object_get_layer (ges_timeline_layer_add_object w layer object).2 object =
      some layer ∧
    (∃ pre post, members w layer = pre ++ post ∧
      members (ges_timeline_layer_add_object w layer object).2 layer =
        pre ++ object :: post) ∧
    (members (ges_timeline_layer_add_object w layer object).2 layer).length =
      (members w layer).length + 1 ∧
    ∀ x, (members (ges_timeline_layer_add_object w layer object).2 layer).count x =
      (members w layer).count x + (if x = object then 1 else 0) := by
  have hl := add_object_layers w layer object h
  have ho := add_object_objs w layer object h
  have hm : members (ges_timeline_layer_add_object w layer object).2 layer =
      g_list_insert_sorted (fun a b => objects_start_compare (w.objs a) (w.objs b))
        object (members w layer) := by
    simp [members, hl]
  have hperm := insert_sorted_perm
    (fun a b => objects_start_compare (w.objs a) (w.objs b)) object (members w layer)
  refine ⟨?_, ?_, ?_, ?_⟩
  · simp [ges_timeline_object_get_layer, ho]
  · rw [hm]
    exact insert_sorted_split _ object (members w layer)
  · rw [hm, hperm.length_eq]
    simp
  · intro x
    rw [hm, hperm.count_eq, List.count_cons]
    by_cases hx : x = object
    · simp [hx]
    · have hx2 : ¬ object = x := fun e => hx e.symm
      simp [hx, hx2]

/-- C4: with at least one unit of recursion budget,
`ges_timeline_layer_remove_object` returns FALSE exactly when the layer of the
object is not this layer (no layer, or another layer), and then the heap is
the one before the call: member list, back reference, signal table and
emitted signals are unchanged. -/
theorem remove_object_refuses_iff (fuel : Nat) (w : World) (layer object : Nat)
    (w' : World) :
    ges_timeline_layer_remove_object (fuel + 1) w layer object = Outcome.done (false, w') ↔
      (ges_timeline_object_get_layer w object ≠ some layer ∧ w' = w) := by
  by_cases h : ges_timeline_object_get_layer w object = some layer
  · rw [remove_object_member fuel w layer object h]
    constructor
    · intro he
      split at he <;> simp at he
    · intro hn
      exact absurd h hn.1
  · rw [remove_object_not_member fuel w layer object h]
    constructor
    · intro he
      injection he with he
      injection he with _ he2
      exact ⟨h, he2.symm⟩
    · intro hn
      rw [hn.2]

/-- C5: on a layer with auto-transition off, removing an object whose layer is
this layer returns TRUE; afterwards the back reference of the object is
empty, the member list is the previous one with the object erased (a sublist
of the previous one, so the other members keep their order), the
object-removed signal has been emitted, and the start, duration and priority
of every object are what they were. -/
theorem remove_object_detaches (fuel : Nat) (w : World) (layer object : Nat)
    (hauto : (w.layers layer).auto_transition = false)
    (h : ges_timeline_object_get_layer w object = some layer) :
    ∃ w', ges_timeline_layer_remove_object (fuel + 1) w layer object =
        Outcome.done (true, w') ∧
      ges_timeline_object_get_layer w' object = none ∧
      members w' layer = (members w layer).erase object ∧
      (members w' layer).Sublist (members w layer) ∧
      w'.emitted = w.emitted ++ [Emission.object_removed layer object] ∧
      ∀ x, (w'.objs x).start = (w.objs x).start ∧
        (w'.objs x).duration = (w.objs x).duration ∧
        (w'.objs x).priority = (w.objs x).priority := by
  refine ⟨remove_object_finish w layer object, ?_, ?_, ?_, ?_, ?_, ?_⟩
  · rw [remove_object_member fuel w layer object h]
    simp [hauto]
  · simp [ges_timeline_object_get_layer, finish_objs]
  · simp [members, finish_layers]
  · simp only [members, finish_layers, Function.update_same]
    exact List.erase_sublist _ _
  · exact finish_emitted w layer object
  · intro x
    rw [finish_objs]
    by_cases hx : x = object
    · subst hx
      simp
    · simp [Function.update_noteq hx]

/-! ## Single ownership -/

theorem ownershipFrame_refl (w : World) : OwnershipFrame w w :=
  ⟨fun _ => Or.inl rfl, fun _ h => h⟩

theorem ownershipFrame_trans {a b c : World} (h1 : OwnershipFrame a b)
    (h2 : OwnershipFrame b c) : OwnershipFrame a c := by
  refine ⟨?_, fun l h => h2.2 l (h1.2 l h)⟩
  intro x
  rcases h2.1 x with e | e
  · rw [e]
    exact h1.1 x
  · exact Or.inr e

theorem add_object_owns (w : World) (layer object l : Nat) (h : LayerOwns w l) :
    LayerOwns (ges_timeline_layer_add_object w layer object).2 l := by
  by_cases hfree : ges_timeline_object_get_layer w object = none
  · have hl := add_object_layers w layer object hfree
    have ho := add_object_objs w layer object hfree
    have hnot : object ∉ members w l := by
      intro hm
      have := (h.2 object).1 hm
      rw [hfree] at this
      exact absurd this (by simp)
    by_cases hll : l = layer
    · subst hll
      have hm : members (ges_timeline_layer_add_object w l object).2 l =
          g_list_insert_sorted (fun a b => objects_start_compare (w.objs a) (w.objs b))
            object (members w l) := by
        simp [members, hl]
      refine ⟨?_, ?_⟩
      · rw [hm, (insert_sorted_perm _ object (members w l)).nodup_iff]
        exact List.nodup_cons.mpr ⟨hnot, h.1⟩
      · intro x
        rw [hm, mem_insert_sorted]
        by_cases hx : x = object
        · subst hx
          simp [ges_timeline_object_get_layer, ho]
        · have := h.2 x
          simp only [ges_timeline_object_get_layer] at this
          simp [ges_timeline_object_get_layer, ho, Function.update_noteq hx, hx, this]
    · have hm : members (ges_timeline_layer_add_object w layer object).2 l = members w l := by
        simp [members, hl, Function.update_noteq hll]
      refine ⟨by rw [hm]; exact h.1, ?_⟩
      intro x
      rw [hm]
      by_cases hx : x = object
      · subst hx
        have hne : ¬ layer = l := fun e => hll e.symm
        simp [ges_timeline_object_get_layer, ho, hnot, hne]
      · have := h.2 x
        simp only [ges_timeline_object_get_layer] at this
        simp [ges_timeline_object_get_layer, ho, Function.update_noteq hx, this]
  · rw [add_object_of_owned w layer object hfree]
    exact h

theorem finish_owns (w : World) (layer object l : Nat)
    (hl : ges_timeline_object_get_layer w object = some layer ∨
      ges_timeline_object_get_layer w object = none)
    (h : LayerOwns w l) : LayerOwns (remove_object_finish w layer object) l := by
  by_cases hll : l = layer
  · subst hll
    have hm : members (remove_object_finish w l object) l = (members w l).erase object := by
      simp [members, finish_layers]
    refine ⟨?_, ?_⟩
    · rw [hm]
      exact h.1.erase object
    · intro x
      rw [hm, h.1.mem_erase_iff]
      by_cases hx : x = object
      · subst hx
        simp [ges_timeline_object_get_layer, finish_objs]
      · have := h.2 x
        simp only [ges_timeline_object_get_layer] at this
        simp [ges_timeline_object_get_layer, finish_objs, Function.update_noteq hx, hx, this]
  · have hm : members (remove_object_finish w layer object) l = members w l := by
      simp [members, finish_layers, Function.update_noteq hll]
    refine ⟨by rw [hm]; exact h.1, ?_⟩
    intro x
    rw [hm]
    by_cases hx : x = object
    · subst hx
      have hnot : x ∉ members w l := by
        intro hmem
        have h2 := (h.2 x).1 hmem
        rcases hl with e | e
        · rw [e] at h2
          injection h2 with h2
          exact hll h2.symm
        · rw [e] at h2
          exact absurd h2 (by simp)
      simp [ges_timeline_object_get_layer, finish_objs, hnot]
    · have := h.2 x
      simp only [ges_timeline_object_get_layer] at this
      simp [ges_timeline_object_get_layer, finish_objs, Function.update_noteq hx, this]

theorem finish_layer_ref (w : World) (layer object x : Nat) :
    ges_timeline_object_get_layer (remove_object_finish w layer object) x =
      ges_timeline_object_get_layer w x ∨
    ges_timeline_object_get_layer (remove_object_finish w layer object) x = none := by
  by_cases hx : x = object
  · subst hx
    right
    simp [ges_timeline_object_get_layer, finish_objs]
  · left
    simp [ges_timeline_object_get_layer, finish_objs, Function.update_noteq hx]

theorem walk_frame (rm : World → Nat → Outcome (Bool × World))
    (hrm : ∀ w o r, rm w o = Outcome.done r → OwnershipFrame w r.2) :
    ∀ (ts : List Nat) (w w' : World),
      look_for_transition_walk rm w ts = Outcome.done w' → OwnershipFrame w w' := by
  intro ts
  induction ts with
  | nil =>
    intro w w' h
    simp only [look_for_transition_walk] at h
    injection h with h
    rw [← h]
    exact ownershipFrame_refl w
  | cons t rest ih =>
    intro w w' h
    rw [look_for_transition_walk] at h
    split_ifs at h with h1 h2
    · injection h with h
      rw [← h]
      exact ownershipFrame_refl w
    · cases htl : (w.tobjs t).timeline_object with
      | none =>
        rw [htl] at h
        exact ih w w' h
      | some tl =>
        rw [htl] at h
        simp only at h
        cases hr : rm w tl with
        | done r =>
          rw [hr] at h
          exact ownershipFrame_trans (hrm w tl r hr) (ih r.2 w' h)
        | fault => rw [hr] at h; simp at h
        | exhausted => rw [hr] at h; simp at h
    · exact ih w w' h

theorem look_for_transition_frame (rm : World → Nat → Outcome (Bool × World))
    (hrm : ∀ w o r, rm w o = Outcome.done r → OwnershipFrame w r.2)
    (w w' : World) (t : Nat) (h : look_for_transition rm w t = Outcome.done w') :
    OwnershipFrame w w' := by
  unfold look_for_transition at h
  cases htr : (w.tobjs t).track with
  | none => rw [htr] at h; simp at h
  | some track =>
    rw [htr] at h
    simp only at h
    split_ifs at h with hmem
    cases ha : look_for_transition_walk rm w
        ((w.tracks track).dropWhile (fun x => !decide (x = t))).tail with
    | done w1 =>
      rw [ha] at h
      exact ownershipFrame_trans (walk_frame rm hrm _ w w1 ha) (walk_frame rm hrm _ w1 w' h)
    | fault => rw [ha] at h; simp at h
    | exhausted => rw [ha] at h; simp at h

theorem look_for_transition_all_frame (rm : World → Nat → Outcome (Bool × World))
    (hrm : ∀ w o r, rm w o = Outcome.done r → OwnershipFrame w r.2) :
    ∀ (ts : List Nat) (w w' : World),
      look_for_transition_all rm w ts = Outcome.done w' → OwnershipFrame w w' := by
  intro ts
  induction ts with
  | nil =>
    intro w w' h
    simp only [look_for_transition_all] at h
    injection h with h
    rw [← h]
    exact ownershipFrame_refl w
  | cons t rest ih =>
    intro w w' h
    rw [look_for_transition_all] at h
    cases ha : look_for_transition rm w t with
    | done w1 =>
      rw [ha] at h
      exact ownershipFrame_trans (look_for_transition_frame rm hrm w w1 t ha) (ih w1 w' h)
    | fault => rw [ha] at h; simp at h
    | exhausted => rw [ha] at h; simp at h

theorem remove_object_frame (fuel : Nat) :
    ∀ (w : World) (layer object : Nat) (r : Bool × World),
      ges_timeline_layer_remove_object fuel w layer object = Outcome.done r →
      OwnershipFrame w r.2 := by
  induction fuel with
  | zero =>
    intro w layer object r h
    simp [ges_timeline_layer_remove_object] at h
  | succ fuel ih =>
    intro w layer object r h
    by_cases hl : ges_timeline_object_get_layer w object = some layer
    · rw [remove_object_member fuel w layer object hl] at h
      have hlooked : ∀ w1,
          (if (w.layers layer).auto_transition then
            look_for_transition_all
              (fun w1 o => ges_timeline_layer_remove_object fuel w1 layer o)
              w (w.objs object).trackobjects
          else Outcome.done w) = Outcome.done w1 → OwnershipFrame w w1 := by
        intro w1 h1
        split_ifs at h1
        · exact look_for_transition_all_frame _
            (fun w2 o r2 h2 => ih w2 layer o r2 h2) _ w w1 h1
        · injection h1 with h1
          rw [← h1]
          exact ownershipFrame_refl w
      cases hk : (if (w.layers layer).auto_transition then
            look_for_transition_all
              (fun w1 o => ges_timeline_layer_remove_object fuel w1 layer o)
              w (w.objs object).trackobjects
          else Outcome.done w) with
      | done w1 =>
        rw [hk] at h
        injection h with h
        rw [← h]
        have hf := hlooked w1 hk
        have href : ges_timeline_object_get_layer w1 object = some layer ∨
            ges_timeline_object_get_layer w1 object = none := by
          rcases hf.1 object with e | e
          · left; rw [e]; exact hl
          · right; exact e
        refine ⟨?_, ?_⟩
        · intro x
          rcases finish_layer_ref w1 layer object x with e | e
          · rw [e]
            exact hf.1 x
          · exact Or.inr e
        · intro l hown
          exact finish_owns w1 layer object l href (hf.2 l hown)
      | fault => rw [hk] at h; simp at h
      | exhausted => rw [hk] at h; simp at h
    · rw [remove_object_not_member fuel w layer object hl] at h
      injection h with h
      rw [← h]
      exact ownershipFrame_refl w

theorem run_op_owns (fuel : Nat) (w w' : World) (op : LayerOp) (l : Nat)
    (h : run_op fuel w op = Outcome.done w') (hown : LayerOwns w l) : LayerOwns w' l := by
  cases op with
  | add layer object =>
    simp only [run_op] at h
    injection h with h
    rw [← h]
    exact add_object_owns w layer object l hown
  | remove layer object =>
    simp only [run_op] at h
    cases hr : ges_timeline_layer_remove_object fuel w layer object with
    | done r =>
      rw [hr] at h
      injection h with h
      rw [← h]
      exact (remove_object_frame fuel w layer object r hr).2 l hown
    | fault => rw [hr] at h; simp at h
    | exhausted => rw [hr] at h; simp at h

theorem run_ops_owns (fuel : Nat) (l : Nat) :
    ∀ (ops : List LayerOp) (w w' : World),
      run_ops fuel w ops = Outcome.done w' → LayerOwns w l → LayerOwns w' l := by
  intro ops
  induction ops with
  | nil =>
    intro w w' h hown
    simp only [run_ops] at h
    injection h with h
    rw [← h]
    exact hown
  | cons op ops ih =>
    intro w w' h hown
    rw [run_ops] at h
    cases hr : run_op fuel w op with
    | done w1 =>
      rw [hr] at h
      exact ih w1 w' h (run_op_owns fuel w w1 op l hr hown)
    | fault => rw [hr] at h; simp at h
    | exhausted => rw [hr] at h; simp at h

theorem add_object_auto (w : World) (layer object l : Nat) :
    ((ges_timeline_layer_add_object w layer object).2.layers l).auto_transition =
      (w.layers l).auto_transition := by
  by_cases hfree : ges_timeline_object_get_layer w object = none
  · rw [add_object_layers w layer object hfree]
    by_cases hl : l = layer
    · subst hl
      simp
    · simp [Function.update_noteq hl]
  · rw [add_object_of_owned w layer object hfree]

theorem finish_auto (w : World) (layer object l : Nat) :
    ((remove_object_finish w layer object).layers l).auto_transition =
      (w.layers l).auto_transition := by
  rw [finish_layers]
  by_cases hl : l = layer
  · subst hl
    simp
  · simp [Function.update_noteq hl]

theorem remove_object_completes (fuel : Nat) (w : World) (layer object : Nat)
    (hauto : (w.layers layer).auto_transition = false) :
    ∃ r, ges_timeline_layer_remove_object (fuel + 1) w layer object = Outcome.done r ∧
      ∀ l, (r.2.layers l).auto_transition = (w.layers l).auto_transition := by
  by_cases h : ges_timeline_object_get_layer w object = some layer
  · refine ⟨(true, remove_object_finish w layer object), ?_, fun l => finish_auto w layer object l⟩
    rw [remove_object_member fuel w layer object h]
    simp [hauto]
  · exact ⟨(false, w), remove_object_not_member fuel w layer object h, fun _ => rfl⟩

theorem run_ops_completes (fuel : Nat) :
    ∀ (ops : List LayerOp) (w : World),
      (∀ l, (w.layers l).auto_transition = false) →
      ∃ w', run_ops (fuel + 1) w ops = Outcome.done w' := by
  intro ops
  induction ops with
  | nil =>
    intro w _
    exact ⟨w, rfl⟩
  | cons op ops ih =>
    intro w hauto
    cases op with
    | add layer object =>
      have hnext : ∀ l,
          ((ges_timeline_layer_add_object w layer object).2.layers l).auto_transition = false := by
        intro l
        rw [add_object_auto]
        exact hauto l
      obtain ⟨w', hw'⟩ := ih _ hnext
      exact ⟨w', by simpa [run_ops, run_op] using hw'⟩
    | remove layer object =>
      obtain ⟨r, hr, hflag⟩ := remove_object_completes fuel w layer object (hauto layer)
      have hnext : ∀ l, (r.2.layers l).auto_transition = false := by
        intro l
        rw [hflag l]
        exact hauto l
      obtain ⟨w', hw'⟩ := ih _ hnext
      exact ⟨w', by simpa [run_ops, run_op, hr] using hw'⟩

/-- C6: single ownership.  Start from a heap in which the two distinct layers
`L1` and `L2` are empty and no object refers to either; after every sequence
of add and remove calls that runs to completion (as every sequence does while
auto-transition is off, `run_ops_completes`), no object is a member of both
layers, neither member list holds an object twice, and an object is listed by
a layer exactly when its back reference is that layer. -/
theorem single_ownership (fuel : Nat) (w0 w : World) (L1 L2 : Nat) (ops : List LayerOp)
    (hne : L1 ≠ L2)
    (h1 : members w0 L1 = []) (h2 : members w0 L2 = [])
    (hfree : ∀ o, ges_timeline_object_get_layer w0 o ≠ some L1 ∧
      ges_timeline_object_get_layer w0 o ≠ some L2)
    (hrun : run_ops fuel w0 ops = Outcome.done w) :
    (∀ o, ¬ (o ∈ members w L1 ∧ o ∈ members w L2)) ∧
    (members w L1).Nodup ∧ (members w L2).Nodup ∧
    (∀ o, o ∈ members w L1 ↔ ges_timeline_object_get_layer w o = some L1) ∧
    (∀ o, o ∈ members w L2 ↔ ges_timeline_object_get_layer w o = some L2) := by
  have own1 : LayerOwns w0 L1 := by
    refine ⟨by rw [h1]; exact List.nodup_nil, ?_⟩
    intro o
    rw [h1]
    simp [(hfree o).1]
  have own2 : LayerOwns w0 L2 := by
    refine ⟨by rw [h2]; exact List.nodup_nil, ?_⟩
    intro o
    rw [h2]
    simp [(hfree o).2]
  have r1 := run_ops_owns fuel L1 ops w0 w hrun own1
  have r2 := run_ops_owns fuel L2 ops w0 w hrun own2
  refine ⟨?_, r1.1, r2.1, r1.2, r2.2⟩
  intro o hboth
  have e1 := (r1.2 o).1 hboth.1
  have e2 := (r2.2 o).1 hboth.2
  rw [e1] at e2
  injection e2 with e2
  exact hne e2

/-- C2: the index loses its order on a new layer.  Objects 0 and 1 start
together with priorities 1000 and 2000; after both were added to the new
layer 0 the member list is 0, 1 with priorities 1000 and 999, which is not
sorted by start and priority. -/
theorem add_object_breaks_order :
    order_world.layers 0 = ges_timeline_layer_init ∧
    run_ops 1 order_world [LayerOp.add 0 0, LayerOp.add 0 1] = Outcome.done order_world_added ∧
    members order_world_added 0 = [0, 1] ∧
    (members order_world_added 0).map (fun o => (order_world_added.objs o).start) = [0, 0] ∧
    (members order_world_added 0).map (fun o => (order_world_added.objs o).priority) =
      [1000, 999] ∧
    ¬ members_sorted order_world_added 0 := by
  refine ⟨rfl, rfl, by decide, by decide, by decide, ?_⟩
  unfold members_sorted
  decide

/-! ## The priority band -/

theorem set_priority_objs (w : World) (layer p : Nat) :
    (ges_timeline_layer_set_priority w layer p).objs = w.objs := by
  unfold ges_timeline_layer_set_priority
  split_ifs
  · rw [resync_priorities_eq]
  · rfl

theorem set_priority_layer_of_ne (w : World) (layer p : Nat)
    (h : p ≠ (w.layers layer).priority) :
    (ges_timeline_layer_set_priority w layer p).layers layer =
      { w.layers layer with
        priority := p
        min_gnl_priority := wrap32 (p * LAYER_HEIGHT)
        max_gnl_priority := wrap32 (wrap32 ((p + 1) * LAYER_HEIGHT) + (UINT32_RANGE - 1)) } := by
  unfold ges_timeline_layer_set_priority
  rw [if_pos h, resync_priorities_eq]
  simp

theorem set_priority_of_eq (w : World) (layer p : Nat)
    (h : p = (w.layers layer).priority) :
    ges_timeline_layer_set_priority w layer p = w := by
  unfold ges_timeline_layer_set_priority
  rw [if_neg (by simpa using h)]

theorem wrap32_band_bottom (p : Nat) (hp : p ≤ 4294966) :
    wrap32 (p * LAYER_HEIGHT) = p * LAYER_HEIGHT := by
  unfold wrap32 UINT32_RANGE LAYER_HEIGHT
  omega

theorem wrap32_band_top (p : Nat) (hp : p ≤ 4294966) :
    wrap32 (wrap32 ((p + 1) * LAYER_HEIGHT) + (UINT32_RANGE - 1)) = p * LAYER_HEIGHT + 999 := by
  unfold wrap32 UINT32_RANGE LAYER_HEIGHT
  omega

/-- C7: the band of a new layer.  `ges_timeline_layer_new` leaves priority 0
with the band 0 to 1000, which has 1001 values and whose top is not
`priority * 1000 + 999`; `ges_timeline_layer_set_priority` with priority 0
keeps that band, while going to priority 1 and back to 0 gives the band 0 to
999. -/
theorem new_layer_band_top (w : World) (layer : Nat) :
    ((ges_timeline_layer_new w layer).layers layer).priority = 0 ∧
    ((ges_timeline_layer_new w layer).layers layer).min_gnl_priority = 0 ∧
    ((ges_timeline_layer_new w layer).layers layer).max_gnl_priority = 1000 ∧
    ((ges_timeline_layer_new w layer).layers layer).max_gnl_priority ≠
      ((ges_timeline_layer_new w layer).layers layer).priority * LAYER_HEIGHT + 999 ∧
    ((ges_timeline_layer_set_priority (ges_timeline_layer_new w layer) layer 0).layers
      layer).max_gnl_priority = 1000 ∧
    ((ges_timeline_layer_set_priority
      (ges_timeline_layer_set_priority (ges_timeline_layer_new w layer) layer 1) layer 0).layers
      layer).max_gnl_priority = 999 := by
  have hnew : (ges_timeline_layer_new w layer).layers layer = ges_timeline_layer_init := by
    simp [ges_timeline_layer_new]
  have h0 : ges_timeline_layer_set_priority (ges_timeline_layer_new w layer) layer 0 =
      ges_timeline_layer_new w layer :=
    set_priority_of_eq _ layer 0 (by rw [hnew]; rfl)
  have h1 := set_priority_layer_of_ne (ges_timeline_layer_new w layer) layer 1
    (by rw [hnew]; decide)
  have h2 := set_priority_layer_of_ne
    (ges_timeline_layer_set_priority (ges_timeline_layer_new w layer) layer 1) layer 0
    (by rw [h1]; simp)
  refine ⟨by rw [hnew]; rfl, by rw [hnew]; rfl, by rw [hnew]; rfl, by rw [hnew]; decide, ?_, ?_⟩
  · rw [h0, hnew]
    rfl
  · rw [h2]
    simp only [wrap32, UINT32_RANGE, LAYER_HEIGHT]

/-- C8 fails as stated: 4294968 is a value of the priority property, and
`ges_timeline_layer_set_priority` with it gives the band 704 to 1703, the
products reduced modulo `2 ^ 32`, not 4294968000 to 4294968999. -/
theorem set_priority_band_wraps :
    4294968 < UINT32_RANGE ∧
    ges_timeline_layer_get_priority (ges_timeline_layer_set_priority (world_of []) 0 4294968) 0 =
      4294968 ∧
    ((ges_timeline_layer_set_priority (world_of []) 0 4294968).layers 0).min_gnl_priority =
      704 ∧
    ((ges_timeline_layer_set_priority (world_of []) 0 4294968).layers 0).max_gnl_priority =
      1703 ∧
    ((ges_timeline_layer_set_priority (world_of []) 0 4294968).layers 0).min_gnl_priority ≠
      4294968 * 1000 ∧
    ((ges_timeline_layer_set_priority (world_of []) 0 4294968).layers 0).max_gnl_priority ≠
      4294968 * 1000 + 999 := by
  decide

/-- C8, amended: for every priority `p` up to 4294966, the largest one whose
band fits in 32 bits, `ges_timeline_layer_set_priority` on a layer whose
priority is not `p` already (or whose band is already that of `p`) leaves
`ges_timeline_layer_get_priority` equal to `p` and the band equal to
`p * 1000` and `p * 1000 + 999`; the priority read back is the one set for
every value at all. -/
theorem set_priority_band (w : World) (layer p : Nat)
    (hp : p ≤ 4294966)
    (hchg : p ≠ (w.layers layer).priority ∨
      ((w.layers layer).min_gnl_priority = p * LAYER_HEIGHT ∧
        (w.layers layer).max_gnl_priority = p * LAYER_HEIGHT + 999)) :
    ges_timeline_layer_get_priority (ges_timeline_layer_set_priority w layer p) layer = p ∧
    ((ges_timeline_layer_set_priority w layer p).layers layer).min_gnl_priority =
      p * LAYER_HEIGHT ∧
    ((ges_timeline_layer_set_priority w layer p).layers layer).max_gnl_priority =
      p * LAYER_HEIGHT + 999 ∧
    ∀ q, ges_timeline_layer_get_priority (ges_timeline_layer_set_priority w layer q) layer =
      q := by
  have hget : ∀ q,
      ges_timeline_layer_get_priority (ges_timeline_layer_set_priority w layer q) layer = q := by
    intro q
    by_cases hq : q = (w.layers layer).priority
    · rw [set_priority_of_eq w layer q hq]
      exact hq.symm
    · simp [ges_timeline_layer_get_priority, set_priority_layer_of_ne w layer q hq]
  refine ⟨hget p, ?_, ?_, hget⟩
  · by_cases hq : p = (w.layers layer).priority
    · rw [set_priority_of_eq w layer p hq]
      rcases hchg with h | h
      · exact absurd hq h
      · exact h.1
    · rw [set_priority_layer_of_ne w layer p hq]
      exact wrap32_band_bottom p hp
  · by_cases hq : p = (w.layers layer).priority
    · rw [set_priority_of_eq w layer p hq]
      rcases hchg with h | h
      · exact absurd hq h
      · exact h.2
    · rw [set_priority_layer_of_ne w layer p hq]
      exact wrap32_band_top p hp

/-- C9 fails as stated: on a layer with the band 1000 to 1999 an object of
priority 1000 in no layer lies outside the band; the add returns TRUE and the
priority of the object becomes 999, while `max_stack - min_stack - 1` is
998. -/
theorem add_object_clamp_not_below_top :
    ges_timeline_object_get_layer band_world 0 = none ∧
    (band_world.layers 0).min_gnl_priority = 1000 ∧
    (band_world.layers 0).max_gnl_priority = 1999 ∧
    (band_world.layers 0).min_gnl_priority + GES_TIMELINE_OBJECT_PRIORITY band_world 0 >
      (band_world.layers 0).max_gnl_priority ∧
    (ges_timeline_layer_add_object band_world 0 0).1 = true ∧
    GES_TIMELINE_OBJECT_PRIORITY (ges_timeline_layer_add_object band_world 0 0).2 0 = 999 ∧
    GES_TIMELINE_OBJECT_PRIORITY (ges_timeline_layer_add_object band_world 0 0).2 0 ≠
      (band_world.layers 0).max_gnl_priority - (band_world.layers 0).min_gnl_priority - 1 := by
  decide

/-- C9, amended: when an object in no layer is added and the 32-bit sum of the
bottom of the band and the priority of the object exceeds the top of the
band, the add returns TRUE and the priority of the object afterwards is
`LAYER_HEIGHT - 1`, that is 999, whatever the band is. -/
theorem add_object_clamps (w : World) (layer object : Nat)
    (hfree : ges_timeline_object_get_layer w object = none)
    (hout : wrap32 ((w.layers layer).min_gnl_priority + GES_TIMELINE_OBJECT_PRIORITY w object) >
      (w.layers layer).max_gnl_priority) :
    (ges_timeline_layer_add_object w layer object).1 = true ∧
    GES_TIMELINE_OBJECT_PRIORITY (ges_timeline_layer_add_object w layer object).2 object =
      LAYER_HEIGHT - 1 ∧
    LAYER_HEIGHT - 1 = 999 := by
  refine ⟨add_object_fst w layer object hfree, ?_, by decide⟩
  simp only [GES_TIMELINE_OBJECT_PRIORITY] at hout
  simp [GES_TIMELINE_OBJECT_PRIORITY, add_object_objs w layer object hfree, hout]

theorem add_object_low (w : World) (layer object : Nat)
    (hmin : (w.layers layer).min_gnl_priority = 0)
    (hmax : (w.layers layer).max_gnl_priority = LAYER_HEIGHT)
    (hmem : ∀ m ∈ members w layer, (w.objs m).priority ≤ 999)
    (ho : (w.objs object).priority < UINT32_RANGE ∧ (w.objs object).priority ≠ LAYER_HEIGHT) :
    ((ges_timeline_layer_add_object w layer object).2.layers layer).min_gnl_priority = 0 ∧
    ((ges_timeline_layer_add_object w layer object).2.layers layer).max_gnl_priority =
      LAYER_HEIGHT ∧
    ((ges_timeline_layer_add_object w layer object).2.layers layer).priority =
      (w.layers layer).priority ∧
    (∀ m ∈ members (ges_timeline_layer_add_object w layer object).2 layer,
      ((ges_timeline_layer_add_object w layer object).2.objs m).priority ≤ 999) ∧
    ∀ x, ((ges_timeline_layer_add_object w layer object).2.objs x).priority =
        (w.objs x).priority ∨
      ((ges_timeline_layer_add_object w layer object).2.objs x).priority = 999 := by
  by_cases hfree : ges_timeline_object_get_layer w object = none
  · have hl := add_object_layers w layer object hfree
    have hob := add_object_objs w layer object hfree
    have hnew : ((ges_timeline_layer_add_object w layer object).2.objs object).priority ≤ 999 ∧
        (((ges_timeline_layer_add_object w layer object).2.objs object).priority =
          (w.objs object).priority ∨
        ((ges_timeline_layer_add_object w layer object).2.objs object).priority = 999) := by
      rw [hob, hmin, hmax]
      simp only [Function.update_same]
      have h1 := ho.1
      have h2 := ho.2
      unfold wrap32
      unfold UINT32_RANGE at h1 ⊢
      unfold LAYER_HEIGHT at h2 ⊢
      split_ifs with hc
      · omega
      · omega
    have hother : ∀ x, x ≠ object →
        ((ges_timeline_layer_add_object w layer object).2.objs x).priority =
          (w.objs x).priority := by
      intro x hx
      rw [hob, Function.update_noteq hx]
    refine ⟨by simp [hl, hmin], by simp [hl, hmax], by simp [hl], ?_, ?_⟩
    · intro m hm
      have hm2 : m = object ∨ m ∈ members w layer := by
        have : m ∈ g_list_insert_sorted
            (fun a b => objects_start_compare (w.objs a) (w.objs b)) object
            (members w layer) := by
          simpa [members, hl] using hm
        exact (mem_insert_sorted _ object m _).1 this
      by_cases hx : m = object
      · rw [hx]
        exact hnew.1
      · rw [hother m hx]
        rcases hm2 with e | e
        · exact absurd e hx
        · exact hmem m e
    · intro x
      by_cases hx : x = object
      · rw [hx]
        exact hnew.2
      · exact Or.inl (hother x hx)
  · rw [add_object_of_owned w layer object hfree]
    exact ⟨hmin, hmax, rfl, hmem, fun _ => Or.inl rfl⟩

theorem add_objects_low (layer : Nat) :
    ∀ (os : List Nat) (w : World),
      (w.layers layer).min_gnl_priority = 0 →
      (w.layers layer).max_gnl_priority = LAYER_HEIGHT →
      (∀ m ∈ members w layer, (w.objs m).priority ≤ 999) →
      (∀ o ∈ os, (w.objs o).priority < UINT32_RANGE ∧ (w.objs o).priority ≠ LAYER_HEIGHT) →
      ((add_objects w layer os).layers layer).min_gnl_priority = 0 ∧
      ((add_objects w layer os).layers layer).priority = (w.layers layer).priority ∧
      ∀ m ∈ members (add_objects w layer os) layer,
        ((add_objects w layer os).objs m).priority ≤ 999 := by
  intro os
  induction os with
  | nil =>
    intro w hmin _ hmem _
    exact ⟨hmin, rfl, hmem⟩
  | cons o os ih =>
    intro w hmin hmax hmem hos
    have hstep := add_object_low w layer o hmin hmax hmem (hos o (List.mem_cons_self o os))
    have hrest : ∀ x ∈ os,
        ((ges_timeline_layer_add_object w layer o).2.objs x).priority < UINT32_RANGE ∧
        ((ges_timeline_layer_add_object w layer o).2.objs x).priority ≠ LAYER_HEIGHT := by
      intro x hx
      have hx0 := hos x (List.mem_cons_of_mem o hx)
      rcases hstep.2.2.2.2 x with e | e
      · rw [e]
        exact hx0
      · rw [e]
        unfold UINT32_RANGE LAYER_HEIGHT
        omega
    have hrec := ih (ges_timeline_layer_add_object w layer o).2 hstep.1 hstep.2.1
      hstep.2.2.2.1 hrest
    simp only [add_objects]
    exact ⟨hrec.1, hrec.2.1.trans hstep.2.2.1, hrec.2.2⟩

/-- C10 fails as stated: object 0 of priority 0 is added to the new layer 0,
and the layer is set to priority 4294968; the band bottom becomes 704, so the
absolute stacking value of the member is 704, below 4294968000. -/
theorem member_out_of_band :
    members overflow_world 0 = [0] ∧
    absolute_priority overflow_world 0 0 = 704 ∧
    ¬ (4294968 * 1000 ≤ absolute_priority overflow_world 0 0 ∧
      absolute_priority overflow_world 0 0 ≤ 4294968 * 1000 + 999) := by
  decide

/-- C10, amended: take a new layer, add objects to it whose priorities are
32-bit values other than 1000, then set the layer to a priority `p` up to
4294966.  Every member then has its absolute stacking value, the bottom of
the band plus its priority, between `p * 1000` and `p * 1000 + 999`. -/
theorem members_in_band (w : World) (layer : Nat) (os : List Nat) (p : Nat)
    (hnew : w.layers layer = ges_timeline_layer_init)
    (hprio : ∀ o ∈ os, (w.objs o).priority < UINT32_RANGE ∧
      (w.objs o).priority ≠ LAYER_HEIGHT)
    (hp : p ≤ 4294966) :
    ∀ m ∈ members (ges_timeline_layer_set_priority (add_objects w layer os) layer p) layer,
      p * LAYER_HEIGHT ≤
        absolute_priority (ges_timeline_layer_set_priority (add_objects w layer os) layer p)
          layer m ∧
      absolute_priority (ges_timeline_layer_set_priority (add_objects w layer os) layer p)
          layer m ≤ p * LAYER_HEIGHT + 999 := by
  have hlow := add_objects_low layer os w (by rw [hnew]; rfl) (by rw [hnew]; rfl)
    (by intro m hm; simp [members, hnew, ges_timeline_layer_init] at hm) hprio
  have hpr : ((add_objects w layer os).layers layer).priority = 0 := by
    rw [hlow.2.1, hnew]
    rfl
  intro m hm
  by_cases hq : p = ((add_objects w layer os).layers layer).priority
  · rw [set_priority_of_eq _ layer p hq] at hm ⊢
    have hm2 := hlow.2.2 m hm
    have hp0 : p = 0 := hq.trans hpr
    simp only [absolute_priority, GES_TIMELINE_OBJECT_PRIORITY, hlow.1, hp0]
    omega
  · have hlay := set_priority_layer_of_ne _ layer p hq
    have hmem : m ∈ members (add_objects w layer os) layer := by
      simpa [members, hlay] using hm
    have hm2 := hlow.2.2 m hmem
    simp only [absolute_priority, GES_TIMELINE_OBJECT_PRIORITY, hlay, set_priority_objs,
      wrap32_band_bottom p hp]
    omega

/-! ## Instances of the conditional statements -/

/-- Object 0 of `single_world`, which is in no layer, is added to layer 0. -/
theorem add_object_inserts_once_witness :
    ges_timeline_object_get_layer single_world 0 = none ∧
    ges_timeline_object_get_layer (ges_timeline_layer_add_object single_world 0 0).2 0 =
      some 0 ∧
    (members (ges_timeline_layer_add_object single_world 0 0).2 0).length =
      (members single_world 0).length + 1 :=
  ⟨by decide, (add_object_inserts_once single_world 0 0 (by decide)).1,
    (add_object_inserts_once single_world 0 0 (by decide)).2.2.1⟩

/-- Object 0 is removed from layer 0 of `single_world_added`, where
auto-transition is off. -/
theorem remove_object_detaches_witness :
    (single_world_added.layers 0).auto_transition = false ∧
    ges_timeline_object_get_layer single_world_added 0 = some 0 ∧
    ∃ w', ges_timeline_layer_remove_object (0 + 1) single_world_added 0 0 =
        Outcome.done (true, w') ∧
      ges_timeline_object_get_layer w' 0 = none ∧
      members w' 0 = (members single_world_added 0).erase 0 ∧
      (members w' 0).Sublist (members single_world_added 0) ∧
      w'.emitted = single_world_added.emitted ++ [Emission.object_removed 0 0] ∧
      ∀ x, (w'.objs x).start = (single_world_added.objs x).start ∧
        (w'.objs x).duration = (single_world_added.objs x).duration ∧
        (w'.objs x).priority = (single_world_added.objs x).priority :=
  ⟨by decide, by decide, remove_object_detaches 0 single_world_added 0 0 (by decide) (by decide)⟩

theorem order_world_free (o l : Nat) :
    ges_timeline_object_get_layer order_world o ≠ some l := by
  unfold order_world world_of free_object ges_timeline_object_get_layer
  rcases o with _ | _ | o <;> simp

/-- The calls `two_layer_ops` on layers 0 and 1 of `order_world` run to
completion and leave layer 1 owning its members. -/
theorem single_ownership_witness :
    (0 : Nat) ≠ 1 ∧ members order_world 0 = [] ∧ members order_world 1 = [] ∧
    run_ops 1 order_world two_layer_ops = Outcome.done two_layer_world ∧
    (members two_layer_world 1).Nodup ∧
    (∀ o, o ∈ members two_layer_world 1 ↔
      ges_timeline_object_get_layer two_layer_world o = some 1) :=
  ⟨by decide, by decide, by decide, rfl,
    (single_ownership 1 order_world two_layer_world 0 1 two_layer_ops
      (by decide) (by decide) (by decide)
      (fun o => ⟨order_world_free o 0, order_world_free o 1⟩) rfl).2.2.1,
    (single_ownership 1 order_world two_layer_world 0 1 two_layer_ops
      (by decide) (by decide) (by decide)
      (fun o => ⟨order_world_free o 0, order_world_free o 1⟩) rfl).2.2.2.2⟩

/-- A new layer is set to priority 1 and gets the band 1000 to 1999. -/
theorem set_priority_band_witness :
    (1 : Nat) ≤ 4294966 ∧ 1 ≠ ((world_of []).layers 0).priority ∧
    ges_timeline_layer_get_priority (ges_timeline_layer_set_priority (world_of []) 0 1) 0 = 1 ∧
    ((ges_timeline_layer_set_priority (world_of []) 0 1).layers 0).min_gnl_priority =
      1 * LAYER_HEIGHT ∧
    ((ges_timeline_layer_set_priority (world_of []) 0 1).layers 0).max_gnl_priority =
      1 * LAYER_HEIGHT + 999 :=
  ⟨by decide, by decide,
    (set_priority_band (world_of []) 0 1 (by decide) (Or.inl (by decide))).1,
    (set_priority_band (world_of []) 0 1 (by decide) (Or.inl (by decide))).2.1,
    (set_priority_band (world_of []) 0 1 (by decide) (Or.inl (by decide))).2.2.1⟩

/-- An object of priority 1000 is added to a layer with the band 1000 to 1999
and ends with priority 999. -/
theorem add_object_clamps_witness :
    ges_timeline_object_get_layer band_world 0 = none ∧
    wrap32 ((band_world.layers 0).min_gnl_priority + GES_TIMELINE_OBJECT_PRIORITY band_world 0) >
      (band_world.layers 0).max_gnl_priority ∧
    (ges_timeline_layer_add_object band_world 0 0).1 = true ∧
    GES_TIMELINE_OBJECT_PRIORITY (ges_timeline_layer_add_object band_world 0 0).2 0 =
      LAYER_HEIGHT - 1 ∧
    LAYER_HEIGHT - 1 = 999 :=
  ⟨by decide, by decide, add_object_clamps band_world 0 0 (by decide) (by decide)⟩

/-- The three objects of `trio_world` are added to a new layer, which is then
set to priority 3; object 2, clamped to 999, lies in the band. -/
theorem members_in_band_witness :
    trio_world.layers 0 = ges_timeline_layer_init ∧
    members trio_world_banded 0 = [0, 1, 2] ∧
    3 * LAYER_HEIGHT ≤ absolute_priority trio_world_banded 0 2 ∧
    absolute_priority trio_world_banded 0 2 ≤ 3 * LAYER_HEIGHT + 999 :=
  ⟨rfl, by decide,
    members_in_band trio_world 0 [0, 1, 2] 3 rfl (by decide) (by decide) 2 (by decide)⟩

/-! ## What a removal leaves alone -/

theorem disconnect_fold_rest (entries : List (Nat × Nat)) (w : World) :
    let w1 := entries.foldl
      (fun acc e => g_signal_handler_disconnect acc (Emitter.track e.1) e.2) w
    w1.track_type = w.track_type ∧ w1.next_object = w.next_object ∧
      w1.layer_data = w.layer_data := by
  induction entries generalizing w with
  | nil => simp
  | cons e es ih =>
    have h := ih (g_signal_handler_disconnect w (Emitter.track e.1) e.2)
    simpa [List.foldl_cons, g_signal_handler_disconnect] using h

theorem finish_rest (w : World) (layer object : Nat) :
    (remove_object_finish w layer object).tobjs = w.tobjs ∧
    (remove_object_finish w layer object).tracks = w.tracks ∧
    (remove_object_finish w layer object).track_type = w.track_type ∧
    (remove_object_finish w layer object).next_object = w.next_object := by
  have h := disconnect_fold_frame (w.layers layer).signal_table w
  have h2 := disconnect_fold_rest (w.layers layer).signal_table w
  simp only [remove_object_finish, disconnect_all_handlers, g_signal_emit,
    ges_timeline_object_set_layer]
  exact ⟨h.2.2.2.1, h.2.2.2.2, h2.1, h2.2.1⟩

theorem heapFrame_refl (w : World) : HeapFrame w w :=
  ⟨rfl, rfl, rfl, rfl, fun _ => rfl, fun _ => Or.inl rfl, fun _ => List.Sublist.refl _,
    fun _ => rfl⟩

theorem heapFrame_trans {a b c : World} (h1 : HeapFrame a b) (h2 : HeapFrame b c) :
    HeapFrame a c := by
  obtain ⟨a1, a2, a3, a4, a5, a6, a7, a8⟩ := h1
  obtain ⟨b1, b2, b3, b4, b5, b6, b7, b8⟩ := h2
  refine ⟨b1.trans a1, b2.trans a2, b3.trans a3, b4.trans a4, fun x => (b5 x).trans (a5 x),
    ?_, fun l => (b7 l).trans (a7 l), fun l => (b8 l).trans (a8 l)⟩
  intro x
  rcases b6 x with e | e
  · rw [e]
    exact a6 x
  · exact Or.inr e

theorem finish_heapFrame (w : World) (layer object : Nat) :
    HeapFrame w (remove_object_finish w layer object) := by
  have hr := finish_rest w layer object
  refine ⟨hr.1, hr.2.1, hr.2.2.1, hr.2.2.2, ?_, fun x => finish_layer_ref w layer object x,
    ?_, fun l => finish_auto w layer object l⟩
  · intro x
    rw [finish_objs]
    by_cases hx : x = object
    · subst hx
      simp
    · simp [Function.update_noteq hx]
  · intro l
    simp only [members, finish_layers]
    by_cases hl : l = layer
    · subst hl
      simp only [Function.update_same]
      exact List.erase_sublist _ _
    · rw [Function.update_noteq hl]

theorem walk_rel (R : World → World → Prop) (hrefl : ∀ w, R w w)
    (htrans : ∀ a b c, R a b → R b c → R a c)
    (rm : World → Nat → Outcome (Bool × World))
    (hrm : ∀ w o r, rm w o = Outcome.done r → R w r.2) :
    ∀ (ts : List Nat) (w w' : World),
      look_for_transition_walk rm w ts = Outcome.done w' → R w w' := by
  intro ts
  induction ts with
  | nil =>
    intro w w' h
    simp only [look_for_transition_walk] at h
    injection h with h
    rw [← h]
    exact hrefl w
  | cons t rest ih =>
    intro w w' h
    rw [look_for_transition_walk] at h
    split_ifs at h with h1 h2
    · injection h with h
      rw [← h]
      exact hrefl w
    · cases htl : (w.tobjs t).timeline_object with
      | none =>
        rw [htl] at h
        exact ih w w' h
      | some tl =>
        rw [htl] at h
        simp only at h
        cases hr : rm w tl with
        | done r =>
          rw [hr] at h
          exact htrans _ _ _ (hrm w tl r hr) (ih r.2 w' h)
        | fault => rw [hr] at h; simp at h
        | exhausted => rw [hr] at h; simp at h
    · exact ih w w' h

theorem look_for_transition_rel (R : World → World → Prop) (hrefl : ∀ w, R w w)
    (htrans : ∀ a b c, R a b → R b c → R a c)
    (rm : World → Nat → Outcome (Bool × World))
    (hrm : ∀ w o r, rm w o = Outcome.done r → R w r.2)
    (w w' : World) (t : Nat) (h : look_for_transition rm w t = Outcome.done w') :
    R w w' := by
  unfold look_for_transition at h
  cases htr : (w.tobjs t).track with
  | none => rw [htr] at h; simp at h
  | some track =>
    rw [htr] at h
    simp only at h
    split_ifs at h with hmem
    cases ha : look_for_transition_walk rm w
        ((w.tracks track).dropWhile (fun x => !decide (x = t))).tail with
    | done w1 =>
      rw [ha] at h
      exact htrans _ _ _ (walk_rel R hrefl htrans rm hrm _ w w1 ha)
        (walk_rel R hrefl htrans rm hrm _ w1 w' h)
    | fault => rw [ha] at h; simp at h
    | exhausted => rw [ha] at h; simp at h

theorem look_for_transition_all_rel (R : World → World → Prop) (hrefl : ∀ w, R w w)
    (htrans : ∀ a b c, R a b → R b c → R a c)
    (rm : World → Nat → Outcome (Bool × World))
    (hrm : ∀ w o r, rm w o = Outcome.done r → R w r.2) :
    ∀ (ts : List Nat) (w w' : World),
      look_for_transition_all rm w ts = Outcome.done w' → R w w' := by
  intro ts
  induction ts with
  | nil =>
    intro w w' h
    simp only [look_for_transition_all] at h
    injection h with h
    rw [← h]
    exact hrefl w
  | cons t rest ih =>
    intro w w' h
    rw [look_for_transition_all] at h
    cases ha : look_for_transition rm w t with
    | done w1 =>
      rw [ha] at h
      exact htrans _ _ _ (look_for_transition_rel R hrefl htrans rm hrm w w1 t ha) (ih w1 w' h)
    | fault => rw [ha] at h; simp at h
    | exhausted => rw [ha] at h; simp at h

theorem remove_object_rel (R : World → World → Prop) (hrefl : ∀ w, R w w)
    (htrans : ∀ a b c, R a b → R b c → R a c)
    (hfin : ∀ w l o, R w (remove_object_finish w l o)) (fuel : Nat) :
    ∀ (w : World) (layer object : Nat) (r : Bool × World),
      ges_timeline_layer_remove_object fuel w layer object = Outcome.done r → R w r.2 := by
  induction fuel with
  | zero =>
    intro w layer object r h
    simp [ges_timeline_layer_remove_object] at h
  | succ fuel ih =>
    intro w layer object r h
    by_cases hl : ges_timeline_object_get_layer w object = some layer
    · rw [remove_object_member fuel w layer object hl] at h
      cases hk : (if (w.layers layer).auto_transition then
            look_for_transition_all
              (fun w1 o => ges_timeline_layer_remove_object fuel w1 layer o)
              w (w.objs object).trackobjects
          else Outcome.done w) with
      | done w1 =>
        rw [hk] at h
        injection h with h
        rw [← h]
        have hf : R w w1 := by
          split_ifs at hk
          · exact look_for_transition_all_rel R hrefl htrans _
              (fun w2 o r2 h2 => ih w2 layer o r2 h2) _ w w1 hk
          · injection hk with hk
            rw [← hk]
            exact hrefl w
        exact htrans _ _ _ hf (hfin w1 layer object)
      | fault => rw [hk] at h; simp at h
      | exhausted => rw [hk] at h; simp at h
    · rw [remove_object_not_member fuel w layer object hl] at h
      injection h with h
      rw [← h]
      exact hrefl w

theorem remove_object_heapFrame (fuel : Nat) (w : World) (layer object : Nat)
    (r : Bool × World)
    (h : ges_timeline_layer_remove_object fuel w layer object = Outcome.done r) :
    HeapFrame w r.2 :=
  remove_object_rel HeapFrame heapFrame_refl (fun _ _ _ h1 h2 => heapFrame_trans h1 h2)
    finish_heapFrame fuel w layer object r h

/-! ## Removals that touch one object -/

theorem walk_of_idle (fuel layer : Nat) :
    ∀ (ts : List Nat) (w : World), walk_idle w layer ts = true →
      look_for_transition_walk
        (fun w1 o => ges_timeline_layer_remove_object (fuel + 1) w1 layer o) w ts =
        Outcome.done w := by
  intro ts
  induction ts with
  | nil =>
    intro w _
    rfl
  | cons t rest ih =>
    intro w h
    rw [look_for_transition_walk]
    rw [walk_idle] at h
    split_ifs at h ⊢ with h1 h2
    · rfl
    · cases htl : (w.tobjs t).timeline_object with
      | none =>
        rw [htl] at h
        exact ih w h
      | some tl =>
        rw [htl] at h
        simp only [Bool.and_eq_true, Bool.not_eq_true', decide_eq_false_iff_not] at h
        simp only
        rw [remove_object_not_member fuel w layer tl h.1]
        exact ih w h.2
    · exact ih w h

theorem look_of_idle (fuel layer : Nat) (w : World) (t : Nat)
    (h : look_idle w layer t = true) :
    look_for_transition
      (fun w1 o => ges_timeline_layer_remove_object (fuel + 1) w1 layer o) w t =
      Outcome.done w := by
  unfold look_idle at h
  unfold look_for_transition
  cases htr : (w.tobjs t).track with
  | none => rw [htr] at h; simp at h
  | some track =>
    rw [htr] at h
    simp only [Bool.and_eq_true, decide_eq_true_eq] at h
    simp only [h.1.1, if_true]
    rw [walk_of_idle fuel layer _ w h.1.2]
    simp only
    exact walk_of_idle fuel layer _ w h.2

theorem look_all_of_idle (fuel layer : Nat) (w : World) :
    ∀ (ts : List Nat), ts.all (fun t => look_idle w layer t) = true →
      look_for_transition_all
        (fun w1 o => ges_timeline_layer_remove_object (fuel + 1) w1 layer o) w ts =
        Outcome.done w := by
  intro ts
  induction ts with
  | nil =>
    intro _
    rfl
  | cons t rest ih =>
    intro h
    simp only [List.all_cons, Bool.and_eq_true] at h
    rw [look_for_transition_all, look_of_idle fuel layer w t h.1]
    exact ih h.2

theorem remove_of_idle (fuel : Nat) (w : World) (layer object : Nat)
    (hidle : removal_idle w layer object = true)
    (hl : ges_timeline_object_get_layer w object = some layer) :
    ges_timeline_layer_remove_object (fuel + 2) w layer object =
      Outcome.done (true, remove_object_finish w layer object) := by
  rw [remove_object_member (fuel + 1) w layer object hl]
  split_ifs
  · rw [look_all_of_idle fuel layer w _ hidle]
  · rfl

theorem walk_idle_mono (w w1 : World) (layer : Nat) (hf : HeapFrame w w1) :
    ∀ ts : List Nat, walk_idle w layer ts = true → walk_idle w1 layer ts = true := by
  intro ts
  induction ts with
  | nil =>
    intro _
    rfl
  | cons t rest ih =>
    intro h
    rw [walk_idle] at h ⊢
    simp only [GES_IS_TRACK_SOURCE, GES_IS_TRACK_AUDIO_OR_VIDEO_TRANSITION, hf.1] at h ⊢
    split_ifs at h ⊢ with h1 h2
    · rfl
    · cases htl : (w.tobjs t).timeline_object with
      | none =>
        rw [htl] at h
        exact ih h
      | some tl =>
        rw [htl] at h
        simp only [Bool.and_eq_true, Bool.not_eq_true', decide_eq_false_iff_not] at h ⊢
        refine ⟨?_, ih h.2⟩
        rcases hf.2.2.2.2.2.1 tl with e | e
        · rw [e]
          exact h.1
        · rw [e]
          simp
    · exact ih h

theorem look_idle_mono (w w1 : World) (layer t : Nat) (hf : HeapFrame w w1)
    (h : look_idle w layer t = true) : look_idle w1 layer t = true := by
  unfold look_idle at h ⊢
  rw [hf.1, hf.2.1]
  cases htr : (w.tobjs t).track with
  | none => rw [htr] at h; simp at h
  | some track =>
    rw [htr] at h
    simp only [Bool.and_eq_true, decide_eq_true_eq] at h ⊢
    exact ⟨⟨h.1.1, walk_idle_mono w w1 layer hf _ h.1.2⟩, walk_idle_mono w w1 layer hf _ h.2⟩

theorem heapFrame_trackobjects (w w1 : World) (hf : HeapFrame w w1) (x : Nat) :
    (w1.objs x).trackobjects = (w.objs x).trackobjects := by
  have h := congrArg GESTimelineObject.trackobjects (hf.2.2.2.2.1 x)
  exact h

theorem heapFrame_priority (w w1 : World) (hf : HeapFrame w w1) (x : Nat) :
    (w1.objs x).priority = (w.objs x).priority := by
  have h := congrArg GESTimelineObject.priority (hf.2.2.2.2.1 x)
  exact h

theorem heapFrame_start (w w1 : World) (hf : HeapFrame w w1) (x : Nat) :
    (w1.objs x).start = (w.objs x).start ∧ (w1.objs x).duration = (w.objs x).duration := by
  have h1 := congrArg GESTimelineObject.start (hf.2.2.2.2.1 x)
  have h2 := congrArg GESTimelineObject.duration (hf.2.2.2.2.1 x)
  exact ⟨h1, h2⟩

theorem heapFrame_height (w w1 : World) (hf : HeapFrame w w1) (x : Nat) :
    (w1.objs x).height = (w.objs x).height := by
  have h := congrArg GESTimelineObject.height (hf.2.2.2.2.1 x)
  exact h

theorem removal_idle_mono (w w1 : World) (layer object : Nat) (hf : HeapFrame w w1)
    (h : removal_idle w layer object = true) : removal_idle w1 layer object = true := by
  unfold removal_idle at h ⊢
  rw [heapFrame_trackobjects w w1 hf]
  rw [List.all_eq_true] at h ⊢
  intro t ht
  exact look_idle_mono w w1 layer t hf (h t ht)

theorem apart_mono (w w1 : World) (layer : Nat) (hf : HeapFrame w w1)
    (h : TransitionsApart w layer) : TransitionsApart w1 layer := by
  intro t tl ht htl hl
  have ht0 : GES_IS_TRACK_TRANSITION w t = true := by
    simpa [GES_IS_TRACK_TRANSITION, hf.1] using ht
  have htl0 : (w.tobjs t).timeline_object = some tl := by
    rw [← hf.1]
    exact htl
  have hl0 : ges_timeline_object_get_layer w tl = some layer := by
    rcases hf.2.2.2.2.2.1 tl with e | e
    · rw [← e]
      exact hl
    · rw [e] at hl
      exact absurd hl (by simp)
  exact removal_idle_mono w w1 layer tl hf (h t tl ht0 htl0 hl0)

theorem detach_heapFrame (w : World) (layer object : Nat) :
    HeapFrame w (detach w layer object) := by
  unfold detach
  split_ifs
  · exact finish_heapFrame w layer object
  · exact heapFrame_refl w

theorem detach_owns (w : World) (layer object l : Nat) (h : LayerOwns w l) :
    LayerOwns (detach w layer object) l := by
  unfold detach
  split_ifs with hl
  · exact finish_owns w layer object l (Or.inl hl) h
  · exact h

theorem detach_layer_ref (w : World) (layer object : Nat) :
    ges_timeline_object_get_layer (detach w layer object) object ≠ some layer := by
  unfold detach
  split_ifs with hl
  · simp [ges_timeline_object_get_layer, finish_objs]
  · exact hl

theorem remove_found_heapFrame (w : World) (layer : Nat) (trans : Option Nat) :
    HeapFrame w (remove_found w layer trans) := by
  cases trans with
  | none => exact heapFrame_refl w
  | some tr => exact detach_heapFrame w layer tr

theorem remove_found_owns (w : World) (layer : Nat) (trans : Option Nat) (l : Nat)
    (h : LayerOwns w l) : LayerOwns (remove_found w layer trans) l := by
  cases trans with
  | none => exact h
  | some tr => exact detach_owns w layer tr l h

theorem find_ahead_spec (w : World) (ce : Int) :
    ∀ (ts : List Nat) (tr : Nat), compare_find_ahead w ce ts = some tr →
      ∃ t, GES_IS_TRACK_TRANSITION w t = true ∧ (w.tobjs t).timeline_object = some tr := by
  intro ts
  induction ts with
  | nil =>
    intro tr h
    simp [compare_find_ahead] at h
  | cons t rest ih =>
    intro tr h
    rw [compare_find_ahead] at h
    split_ifs at h with hc
    · simp only [Bool.and_eq_true] at hc
      exact ⟨t, hc.1, h⟩
    · exact ih tr h

theorem find_behind_spec (w : World) (cs : Int) :
    ∀ (ts : List Nat) (tr : Nat), compare_find_behind w cs ts = some tr →
      ∃ t, GES_IS_TRACK_TRANSITION w t = true ∧ (w.tobjs t).timeline_object = some tr := by
  intro ts
  induction ts with
  | nil =>
    intro tr h
    simp [compare_find_behind] at h
  | cons t rest ih =>
    intro tr h
    rw [compare_find_behind] at h
    split_ifs at h with hc
    · simp only [Bool.and_eq_true] at hc
      exact ⟨t, hc.1, h⟩
    · exact ih tr h

theorem find_ahead_congr (w w1 : World) (h : w1.tobjs = w.tobjs) (ce : Int) (ts : List Nat) :
    compare_find_ahead w1 ce ts = compare_find_ahead w ce ts := by
  induction ts with
  | nil => rfl
  | cons t rest ih =>
    rw [compare_find_ahead, compare_find_ahead, ih]
    simp only [GES_IS_TRACK_TRANSITION, h]

theorem find_behind_congr (w w1 : World) (h : w1.tobjs = w.tobjs) (cs : Int) (ts : List Nat) :
    compare_find_behind w1 cs ts = compare_find_behind w cs ts := by
  induction ts with
  | nil => rfl
  | cons t rest ih =>
    rw [compare_find_behind, compare_find_behind, ih]
    simp only [GES_IS_TRACK_TRANSITION, h]

theorem found_spec (w : World) (compared : GListNode) (ahead : Bool) (tr : Nat)
    (h : compare_found w compared ahead = some tr) :
    ∃ t, GES_IS_TRACK_TRANSITION w t = true ∧ (w.tobjs t).timeline_object = some tr := by
  unfold compare_found at h
  split_ifs at h
  · exact find_ahead_spec w _ _ tr h
  · exact find_behind_spec w _ _ tr h

theorem remove_checked_apart (fuel : Nat) (w : World) (layer : Nat) (t tr : Nat)
    (hapart : TransitionsApart w layer)
    (ht : GES_IS_TRACK_TRANSITION w t = true)
    (htl : (w.tobjs t).timeline_object = some tr) :
    remove_object_checked (fuel + 2) w (some layer) (some tr) =
      Outcome.done (detach w layer tr) := by
  unfold remove_object_checked detach
  by_cases hl : ges_timeline_object_get_layer w tr = some layer
  · simp only [remove_of_idle fuel w layer tr (hapart t tr ht htl hl) hl, if_pos hl]
  · simp only [remove_object_not_member (fuel + 1) w layer tr hl, if_neg hl]

theorem remove_checked_none (fuel : Nat) (w : World) (layer : Option Nat) :
    remove_object_checked fuel w layer none = Outcome.done w := by
  unfold remove_object_checked
  cases layer <;> rfl

theorem remove_checked_target (fuel : Nat) (w : World) (layer t : Nat)
    (hapart : TransitionsApart w layer) (ht : GES_IS_TRACK_TRANSITION w t = true) :
    ∃ w1, remove_object_checked (fuel + 2) w (some layer) (w.tobjs t).timeline_object =
        Outcome.done w1 ∧
      HeapFrame w w1 ∧ ∀ l, LayerOwns w l → LayerOwns w1 l := by
  cases htl : (w.tobjs t).timeline_object with
  | none =>
    exact ⟨w, remove_checked_none _ w _, heapFrame_refl w, fun _ h => h⟩
  | some tr =>
    exact ⟨detach w layer tr, remove_checked_apart fuel w layer t tr hapart ht htl,
      detach_heapFrame w layer tr, fun l h => detach_owns w layer tr l h⟩

theorem compare_cleanup_apart (fuel : Nat) (w : World) (compared : GListNode) (layer : Nat)
    (ahead : Bool) (hapart : TransitionsApart w layer)
    (hprev : ahead = false → compared.prev ≠ []) :
    ∃ w1, compare_cleanup (fuel + 2) w compared (some layer) ahead = Outcome.done w1 ∧
      HeapFrame w w1 ∧ ∀ l, LayerOwns w l → LayerOwns w1 l := by
  have hstay : ∃ w1, Outcome.done w = Outcome.done w1 ∧
      HeapFrame w w1 ∧ ∀ l, LayerOwns w l → LayerOwns w1 l :=
    ⟨w, rfl, heapFrame_refl w, fun _ h => h⟩
  unfold compare_cleanup
  cases ahead with
  | true =>
    simp only [if_true]
    cases hp : compared.prev with
    | nil => exact hstay
    | cons p rest =>
      simp only
      split_ifs with h1 h2
      · exact remove_checked_target fuel w layer p hapart h1
      · exact hstay
      · exact hstay
  | false =>
    simp only [Bool.false_eq_true, if_false]
    cases hn : compared.next with
    | nil => exact hstay
    | cons n rest =>
      simp only
      split_ifs with h1
      · cases hp : compared.prev with
        | nil => exact absurd hp (hprev rfl)
        | cons p rest2 =>
          simp only
          split_ifs with h2
          · exact remove_checked_target fuel w layer n hapart h1
          · exact hstay
      · exact hstay

theorem found_congr (w w1 : World) (h : w1.tobjs = w.tobjs) (compared : GListNode)
    (ahead : Bool) : compare_found w1 compared ahead = compare_found w compared ahead := by
  unfold compare_found
  rw [h]
  split_ifs
  · exact find_ahead_congr w w1 h _ _
  · exact find_behind_congr w w1 h _ _

theorem remove_found_apart (fuel : Nat) (w : World) (layer : Nat) (compared : GListNode)
    (ahead : Bool) (hapart : TransitionsApart w layer) :
    remove_object_checked (fuel + 2) w (some layer) (compare_found w compared ahead) =
      Outcome.done (remove_found w layer (compare_found w compared ahead)) := by
  cases hf : compare_found w compared ahead with
  | none => exact remove_checked_none _ w _
  | some tr =>
    obtain ⟨t, ht, htl⟩ := found_spec w compared ahead tr hf
    exact remove_checked_apart fuel w layer t tr hapart ht htl

theorem remove_found_layer_ref (w : World) (layer : Nat) (trans : Option Nat) (tr : Nat)
    (h : trans = some tr) :
    ges_timeline_object_get_layer (remove_found w layer trans) tr ≠ some layer := by
  subst h
  exact detach_layer_ref w layer tr

theorem no_overlap_eval (fuel : Nat) (w : World) (layer tr src dst : Nat)
    (t : Nat) (hapart : TransitionsApart w layer)
    (ht : GES_IS_TRACK_TRANSITION w t = true)
    (htl : (w.tobjs t).timeline_object = some tr) :
    compare_no_overlap (fuel + 2) w (some layer) (some tr) (some src) (some dst) =
      Outcome.done (ges_timeline_object_set_priority (detach w layer tr) dst
        (GES_TIMELINE_OBJECT_PRIORITY (detach w layer tr) src)) := by
  unfold compare_no_overlap
  simp only [remove_checked_apart fuel w layer t tr hapart ht htl]

theorem compare_not_bridging (fuel : Nat) (w : World) (compared : GListNode)
    (track_object object e layer : Nat) (ahead : Bool)
    (hobj : (w.tobjs track_object).timeline_object = some object)
    (hcomp : (w.tobjs compared.data).timeline_object = some e)
    (hlayer : ges_timeline_object_get_layer w object = some layer)
    (hapart : TransitionsApart w layer)
    (hprev : ahead = false → compared.prev ≠ [])
    (hnb : ¬ falls_through w compared track_object ahead) :
    ∃ w2, HeapFrame w w2 ∧ (∀ l, LayerOwns w l → LayerOwns w2 l) ∧
      (∀ tr, compare_found w compared ahead = some tr →
        ges_timeline_object_get_layer w2 tr ≠ some layer) ∧
      ((¬ (first_test w compared track_object ahead ∧
            compare_found w compared ahead ≠ none) ∧
          compare (fuel + 2) w compared track_object ahead = Outcome.done w2) ∨
        (first_test w compared track_object ahead ∧ compare_found w compared ahead ≠ none ∧
          compare (fuel + 2) w compared track_object ahead =
            Outcome.done (ges_timeline_object_set_priority w2 (later_of ahead object e)
              (GES_TIMELINE_OBJECT_PRIORITY w2 (earlier_of ahead object e))))) := by
  obtain ⟨w1, hc, hf1, ho1⟩ := compare_cleanup_apart fuel w compared layer ahead hapart hprev
  have hap1 := apart_mono w w1 layer hf1 hapart
  have hfound := found_congr w w1 hf1.1 compared ahead
  have hrm := remove_found_apart fuel w1 layer compared ahead hap1
  rw [hfound] at hrm
  refine ⟨remove_found w1 layer (compare_found w compared ahead),
    heapFrame_trans hf1 (remove_found_heapFrame w1 layer _),
    fun l h => remove_found_owns w1 layer _ l (ho1 l h),
    fun tr h => remove_found_layer_ref w1 layer _ tr h, ?_⟩
  cases ahead with
  | true =>
    have hfa : compare_find_ahead w1
        (wrap_gint64 (to_gint64 (w.tobjs compared.data).start +
          to_gint64 (w.tobjs compared.data).duration)) compared.next =
        compare_found w compared true := by
      rw [find_ahead_congr w w1 hf1.1]
      simp [compare_found]
    simp only [falls_through, signed_start, signed_end, if_true] at hnb
    simp only [first_test, signed_start, signed_end, if_true, later_of, earlier_of]
    unfold compare
    simp only [hobj, hlayer, hc, hcomp, if_true, hfa]
    by_cases h1 : wrap_gint64 (to_gint64 (w.tobjs compared.data).start +
        to_gint64 (w.tobjs compared.data).duration) ≤ to_gint64 (w.tobjs track_object).start
    · rw [if_pos h1]
      cases hf : compare_found w compared true with
      | none =>
        left
        refine ⟨by simp, ?_⟩
        simp [compare_no_overlap, remove_found]
      | some tr =>
        right
        refine ⟨h1, by simp, ?_⟩
        rw [← hfound] at hf
        obtain ⟨t, ht, htl⟩ := found_spec w1 compared true tr hf
        rw [no_overlap_eval fuel w1 layer tr e object t hap1 ht htl]
        rfl
    · rw [if_neg h1]
      left
      refine ⟨fun hh => h1 hh.1, ?_⟩
      split_ifs with h2 h3
      · exact hrm
      · exact hrm
      · exfalso
        apply hnb
        omega
  | false =>
    have hfb : compare_find_behind w1 (to_gint64 (w.tobjs compared.data).start)
        compared.prev = compare_found w compared false := by
      rw [find_behind_congr w w1 hf1.1]
      simp [compare_found]
    simp only [falls_through, signed_start, signed_end, Bool.false_eq_true, if_false] at hnb
    simp only [first_test, signed_start, signed_end, Bool.false_eq_true, if_false, later_of,
      earlier_of]
    unfold compare
    simp only [hobj, hlayer, hc, hcomp, Bool.false_eq_true, if_false, hfb]
    by_cases h1 : wrap_gint64 (to_gint64 (w.tobjs track_object).start +
        to_gint64 (w.tobjs track_object).duration) ≤ to_gint64 (w.tobjs compared.data).start
    · rw [if_pos h1]
      cases hf : compare_found w compared false with
      | none =>
        left
        refine ⟨by simp, ?_⟩
        simp [compare_no_overlap, remove_found]
      | some tr =>
        right
        refine ⟨h1, by simp, ?_⟩
        rw [← hfound] at hf
        obtain ⟨t, ht, htl⟩ := found_spec w1 compared false tr hf
        rw [no_overlap_eval fuel w1 layer tr object e t hap1 ht htl]
        rfl
    · rw [if_neg h1]
      left
      refine ⟨fun hh => h1 hh.1, ?_⟩
      split_ifs with h2 h3
      · exact hrm
      · exact hrm
      · exfalso
        apply hnb
        omega

/-! ## Bridging a pair -/

theorem compare_bridging (fuel : Nat) (w : World) (compared : GListNode)
    (track_object object e layer : Nat) (ahead : Bool)
    (hobj : (w.tobjs track_object).timeline_object = some object)
    (hcomp : (w.tobjs compared.data).timeline_object = some e)
    (hlayer : ges_timeline_object_get_layer w object = some layer)
    (hapart : TransitionsApart w layer)
    (hprev : ahead = false → compared.prev ≠ [])
    (hb : falls_through w compared track_object ahead) :
    ∃ w1, compare_cleanup (fuel + 2) w compared (some layer) ahead = Outcome.done w1 ∧
      HeapFrame w w1 ∧ (∀ l, LayerOwns w l → LayerOwns w1 l) ∧
      compare (fuel + 2) w compared track_object ahead =
        compare_bridge w1 (some layer) (compare_found w compared ahead)
          (some (earlier_of ahead object e)) (some (later_of ahead object e)) track_object
          (bridge_start w compared track_object ahead)
          (bridge_duration w compared track_object ahead) := by
  obtain ⟨w1, hc, hf1, ho1⟩ := compare_cleanup_apart fuel w compared layer ahead hapart hprev
  refine ⟨w1, hc, hf1, ho1, ?_⟩
  cases ahead with
  | true =>
    have hfa : compare_find_ahead w1
        (wrap_gint64 (to_gint64 (w.tobjs compared.data).start +
          to_gint64 (w.tobjs compared.data).duration)) compared.next =
        compare_found w compared true := by
      rw [find_ahead_congr w w1 hf1.1]
      simp [compare_found]
    simp only [falls_through, signed_start, signed_end, if_true] at hb
    simp only [later_of, earlier_of, bridge_start, bridge_duration, if_true]
    unfold compare
    simp only [hobj, hlayer, hc, hf1.1, hcomp, if_true, hfa]
    rw [if_neg (by omega), if_neg (by omega), if_neg (by omega)]
  | false =>
    have hfb : compare_find_behind w1 (to_gint64 (w.tobjs compared.data).start)
        compared.prev = compare_found w compared false := by
      rw [find_behind_congr w w1 hf1.1]
      simp [compare_found]
    simp only [falls_through, signed_start, signed_end, Bool.false_eq_true, if_false] at hb
    simp only [later_of, earlier_of, bridge_start, bridge_duration, Bool.false_eq_true,
      if_false]
    unfold compare
    simp only [hobj, hlayer, hc, hf1.1, hcomp, Bool.false_eq_true, if_false, hfb]
    rw [if_neg (by omega), if_neg (by omega), if_neg (by omega)]

theorem set_start_duration_frame (w : World) (object ts td : Nat) :
    (ges_timeline_object_set_start_duration w object ts td).layers = w.layers ∧
    (ges_timeline_object_set_start_duration w object ts td).next_object = w.next_object ∧
    ((ges_timeline_object_set_start_duration w object ts td).objs object).start = ts ∧
    ((ges_timeline_object_set_start_duration w object ts td).objs object).duration = td ∧
    (∀ x, ((ges_timeline_object_set_start_duration w object ts td).objs x).priority =
      (w.objs x).priority) ∧
    (∀ x, ((ges_timeline_object_set_start_duration w object ts td).objs x).height =
      (w.objs x).height) ∧
    (∀ x, ((ges_timeline_object_set_start_duration w object ts td).objs x).is_transition =
      (w.objs x).is_transition) ∧
    (∀ x, x ≠ object →
      (ges_timeline_object_set_start_duration w object ts td).objs x = w.objs x) := by
  refine ⟨rfl, rfl, ?_, ?_, ?_, ?_, ?_, ?_⟩
  · simp [ges_timeline_object_set_start_duration]
  · simp [ges_timeline_object_set_start_duration]
  · intro x
    by_cases hx : x = object
    · subst hx
      simp [ges_timeline_object_set_start_duration]
    · simp [ges_timeline_object_set_start_duration, Function.update_noteq hx]
  · intro x
    by_cases hx : x = object
    · subst hx
      simp [ges_timeline_object_set_start_duration]
    · simp [ges_timeline_object_set_start_duration, Function.update_noteq hx]
  · intro x
    by_cases hx : x = object
    · subst hx
      simp [ges_timeline_object_set_start_duration]
    · simp [ges_timeline_object_set_start_duration, Function.update_noteq hx]
  · intro x hx
    simp [ges_timeline_object_set_start_duration, Function.update_noteq hx]

theorem crossfade_added_spec (w : World) (layer formats : Nat) :
    (crossfade_added w layer formats).tobjs = w.tobjs ∧
    (crossfade_added w layer formats).tracks = w.tracks ∧
    (crossfade_added w layer formats).next_object = w.next_object + 1 ∧
    (∃ pre post, members w layer = pre ++ post ∧
      members (crossfade_added w layer formats) layer = pre ++ w.next_object :: post) ∧
    (∀ l, l ≠ layer → members (crossfade_added w layer formats) l = members w l) ∧
    ((crossfade_added w layer formats).objs w.next_object).is_transition = true ∧
    ((crossfade_added w layer formats).objs w.next_object).trackobjects = [] ∧
    (∀ x, x ≠ w.next_object → (crossfade_added w layer formats).objs x = w.objs x) := by
  have hfree : ges_timeline_object_get_layer
      (ges_timeline_object_set_supported_formats
        (ges_timeline_standard_transition_new_for_nick w).2
        (ges_timeline_standard_transition_new_for_nick w).1 formats)
      (ges_timeline_standard_transition_new_for_nick w).1 = none := by
    simp [ges_timeline_object_get_layer, ges_timeline_object_set_supported_formats,
      ges_timeline_standard_transition_new_for_nick, new_standard_transition]
  have hl := add_object_layers _ layer _ hfree
  have ho := add_object_objs _ layer _ hfree
  have hsplit := insert_sorted_split
    (fun a b => objects_start_compare
      ((ges_timeline_object_set_supported_formats
        (ges_timeline_standard_transition_new_for_nick w).2
        (ges_timeline_standard_transition_new_for_nick w).1 formats).objs a)
      ((ges_timeline_object_set_supported_formats
        (ges_timeline_standard_transition_new_for_nick w).2
        (ges_timeline_standard_transition_new_for_nick w).1 formats).objs b))
    w.next_object (members w layer)
  refine ⟨?_, ?_, ?_, ?_, ?_, ?_, ?_, ?_⟩
  · unfold crossfade_added ges_timeline_layer_add_object
    rw [hfree]
    simp only [resync_priorities_eq]
    split_ifs <;> rfl
  · unfold crossfade_added ges_timeline_layer_add_object
    rw [hfree]
    simp only [resync_priorities_eq]
    split_ifs <;> rfl
  · unfold crossfade_added ges_timeline_layer_add_object
    rw [hfree]
    simp only [resync_priorities_eq]
    split_ifs <;> rfl
  · obtain ⟨pre, post, h1, h2⟩ := hsplit
    refine ⟨pre, post, h1, ?_⟩
    simp only [members, crossfade_added, hl, Function.update_same]
    exact h2
  · intro l hne
    simp only [members, crossfade_added, hl, Function.update_noteq hne]
    rfl
  · simp only [crossfade_added, ho, Function.update_same]
    simp [ges_timeline_object_set_supported_formats,
      ges_timeline_standard_transition_new_for_nick, new_standard_transition]
  · simp only [crossfade_added, ho, Function.update_same]
    simp [ges_timeline_object_set_supported_formats,
      ges_timeline_standard_transition_new_for_nick, new_standard_transition]
  · intro x hx
    simp only [crossfade_added, ho]
    have hx2 : x ≠ (ges_timeline_standard_transition_new_for_nick w).1 := hx
    rw [Function.update_noteq hx2]
    simp [ges_timeline_object_set_supported_formats,
      ges_timeline_standard_transition_new_for_nick, Function.update_noteq hx]

theorem bridge_created_eq (w : World) (l f s t k ts td : Nat)
    (htrack : (w.tobjs t).track = some k) :
    compare_bridge w (some l) none (some f) (some s) t ts td =
      Outcome.done (bridged w l (w.track_type k) f s ts td) := by
  have h : ((ges_timeline_standard_transition_new_for_nick w).2.tobjs t).track = some k :=
    htrack
  unfold compare_bridge
  simp only [h]
  rfl

theorem stacked_spec (w : World) (f s : Nat) :
    (stacked w f s).layers = w.layers ∧ (stacked w f s).tobjs = w.tobjs ∧
    (stacked w f s).tracks = w.tracks ∧
    (stacked w f s).next_object = w.next_object ∧
    ((stacked w f s).objs s).priority = wrap32 ((w.objs f).priority + (w.objs f).height) ∧
    (∀ x, x ≠ s → (stacked w f s).objs x = w.objs x) ∧
    (∀ x, ((stacked w f s).objs x).height = (w.objs x).height) ∧
    (∀ x, ((stacked w f s).objs x).is_transition = (w.objs x).is_transition) ∧
    (∀ x, ((stacked w f s).objs x).trackobjects = (w.objs x).trackobjects) ∧
    (∀ x, ((stacked w f s).objs x).start = (w.objs x).start ∧
      ((stacked w f s).objs x).duration = (w.objs x).duration) := by
  have hobjs : (stacked w f s).objs = Function.update w.objs s
      ({ w.objs s with priority := wrap32 ((w.objs f).priority + (w.objs f).height) }) := rfl
  refine ⟨rfl, rfl, rfl, rfl, ?_, ?_, ?_, ?_, ?_, ?_⟩
  · rw [hobjs]
    simp
  · intro x hx
    rw [hobjs, Function.update_noteq hx]
  · intro x
    rw [hobjs]
    by_cases hx : x = s
    · subst hx
      simp
    · rw [Function.update_noteq hx]
  · intro x
    rw [hobjs]
    by_cases hx : x = s
    · subst hx
      simp
    · rw [Function.update_noteq hx]
  · intro x
    rw [hobjs]
    by_cases hx : x = s
    · subst hx
      simp
    · rw [Function.update_noteq hx]
  · intro x
    rw [hobjs]
    by_cases hx : x = s
    · subst hx
      simp
    · rw [Function.update_noteq hx]
      exact ⟨rfl, rfl⟩

theorem bridged_spec (w : World) (l fm f s ts td : Nat) :
    (bridged w l fm f s ts td).next_object = w.next_object + 1 ∧
    (bridged w l fm f s ts td).tobjs = w.tobjs ∧
    (∃ pre post, members w l = pre ++ post ∧
      members (bridged w l fm f s ts td) l = pre ++ w.next_object :: post) ∧
    (∀ l', l' ≠ l → members (bridged w l fm f s ts td) l' = members w l') ∧
    ((bridged w l fm f s ts td).objs w.next_object).start = ts ∧
    ((bridged w l fm f s ts td).objs w.next_object).duration = td ∧
    ((bridged w l fm f s ts td).objs w.next_object).is_transition = true ∧
    (f ≠ s → ((bridged w l fm f s ts td).objs s).priority =
      wrap32 (((bridged w l fm f s ts td).objs f).priority +
        ((bridged w l fm f s ts td).objs f).height)) ∧
    (∀ x, x ≠ w.next_object →
      ((bridged w l fm f s ts td).objs x).start = (w.objs x).start ∧
      ((bridged w l fm f s ts td).objs x).duration = (w.objs x).duration ∧
      ((bridged w l fm f s ts td).objs x).is_transition = (w.objs x).is_transition) ∧
    (∀ x, x ≠ w.next_object → x ≠ s →
      ((bridged w l fm f s ts td).objs x).priority = (w.objs x).priority) := by
  have hc := crossfade_added_spec w l fm
  have hs := stacked_spec (crossfade_added w l fm) f s
  have hd := set_start_duration_frame (stacked (crossfade_added w l fm) f s) w.next_object ts td
  have htob : (bridged w l fm f s ts td).tobjs = w.tobjs := by
    funext t
    have hnil : ((stacked (crossfade_added w l fm) f s).objs w.next_object).trackobjects = [] := by
      rw [hs.2.2.2.2.2.2.2.2.1, hc.2.2.2.2.2.2.1]
    simp only [bridged, ges_timeline_object_set_start_duration, hnil, List.not_mem_nil,
      if_false]
    rw [hs.2.1, hc.1]
  have hmem : ∀ l', members (bridged w l fm f s ts td) l' =
      members (crossfade_added w l fm) l' := by
    intro l'
    simp only [members, bridged, hd.1, hs.1]
  refine ⟨?_, htob, ?_, ?_, hd.2.2.1, hd.2.2.2.1, ?_, ?_, ?_, ?_⟩
  · simp only [bridged, hd.2.1, hs.2.2.2.1, hc.2.2.1]
  · obtain ⟨pre, post, h1, h2⟩ := hc.2.2.2.1
    exact ⟨pre, post, h1, by rw [hmem]; exact h2⟩
  · intro l' hne
    rw [hmem]
    exact hc.2.2.2.2.1 l' hne
  · simp only [bridged]
    rw [hd.2.2.2.2.2.2.1, hs.2.2.2.2.2.2.2.1, hc.2.2.2.2.2.1]
  · intro hfs
    simp only [bridged]
    rw [hd.2.2.2.2.1, hd.2.2.2.2.1, hd.2.2.2.2.2.1, hs.2.2.2.2.1, hs.2.2.2.2.2.2.1,
      hs.2.2.2.2.2.1 f hfs]
  · intro x hx
    simp only [bridged]
    rw [hd.2.2.2.2.2.2.2 x hx, (hs.2.2.2.2.2.2.2.2.2 x).1, (hs.2.2.2.2.2.2.2.2.2 x).2,
      hs.2.2.2.2.2.2.2.1, hc.2.2.2.2.2.2.2 x hx]
    exact ⟨rfl, rfl, rfl⟩
  · intro x hx hxs
    simp only [bridged]
    rw [hd.2.2.2.2.1, hs.2.2.2.2.2.1 x hxs, hc.2.2.2.2.2.2.2 x hx]

/-! ## Times that fit in `gint64` -/

theorem to_gint64_of_lt (n : Nat) (h : n < INT64_RANGE) : to_gint64 n = (n : Int) := by
  unfold to_gint64
  simp only [UINT64_RANGE, INT64_RANGE] at *
  split_ifs <;> omega

theorem to_guint64_of_fit (i : Int) (h0 : 0 ≤ i) (h : i < (INT64_RANGE : Int)) :
    to_guint64 i = i.toNat := by
  unfold to_guint64
  simp only [UINT64_RANGE, INT64_RANGE] at *
  omega

theorem wrap_of_fit (i : Int) (h0 : 0 ≤ i) (h : i < (INT64_RANGE : Int)) :
    wrap_gint64 i = i := by
  unfold wrap_gint64 to_gint64 to_guint64
  simp only [UINT64_RANGE, INT64_RANGE] at *
  split_ifs <;> omega

theorem fits_read (w : World) (t : Nat) (h : Fits w t) :
    to_gint64 (w.tobjs t).start = ((w.tobjs t).start : Int) ∧
    to_gint64 (w.tobjs t).duration = ((w.tobjs t).duration : Int) ∧
    wrap_gint64 (((w.tobjs t).start : Int) + ((w.tobjs t).duration : Int)) =
      ((w.tobjs t).start : Int) + ((w.tobjs t).duration : Int) ∧
    wrap_gint64 (((w.tobjs t).duration : Int) + ((w.tobjs t).start : Int)) =
      ((w.tobjs t).duration : Int) + ((w.tobjs t).start : Int) := by
  unfold Fits track_end at h
  refine ⟨to_gint64_of_lt _ (by omega), to_gint64_of_lt _ (by omega),
    wrap_of_fit _ (by omega) (by omega), wrap_of_fit _ (by omega) (by omega)⟩

theorem falls_through_iff (w : World) (compared : GListNode) (track_object : Nat)
    (ahead : Bool) (hc : Fits w compared.data) (ht : Fits w track_object) :
    falls_through w compared track_object ahead ↔ bridges w compared track_object ahead := by
  obtain ⟨c1, c2, c3, _⟩ := fits_read w compared.data hc
  obtain ⟨t1, t2, t3, _⟩ := fits_read w track_object ht
  cases ahead with
  | true =>
    simp only [falls_through, bridges, signed_start, signed_end, track_end, if_true, c1, c2,
      c3, t1, t2, t3]
    omega
  | false =>
    simp only [falls_through, bridges, signed_start, signed_end, track_end,
      Bool.false_eq_true, if_false, c1, c2, c3, t1, t2, t3]
    omega

theorem first_test_iff (w : World) (compared : GListNode) (track_object : Nat)
    (ahead : Bool) (hc : Fits w compared.data) (ht : Fits w track_object) :
    first_test w compared track_object ahead ↔ no_overlap w compared track_object ahead := by
  obtain ⟨c1, c2, c3, _⟩ := fits_read w compared.data hc
  obtain ⟨t1, t2, t3, _⟩ := fits_read w track_object ht
  cases ahead with
  | true =>
    simp only [first_test, no_overlap, signed_start, signed_end, track_end, if_true, c1, c2,
      c3, t1, t2, t3]
    omega
  | false =>
    simp only [first_test, no_overlap, signed_start, signed_end, track_end,
      Bool.false_eq_true, if_false, c1, c2, c3, t1, t2, t3]
    omega

theorem bridge_start_fit (w : World) (compared : GListNode) (track_object : Nat)
    (ahead : Bool) (hc : Fits w compared.data) (ht : Fits w track_object) :
    bridge_start w compared track_object ahead =
      if ahead then (w.tobjs track_object).start else (w.tobjs compared.data).start := by
  obtain ⟨c1, _, _, _⟩ := fits_read w compared.data hc
  obtain ⟨t1, _, _, _⟩ := fits_read w track_object ht
  unfold Fits track_end at hc ht
  cases ahead with
  | true =>
    simp only [bridge_start, if_true, t1]
    rw [to_guint64_of_fit _ (by omega) (by omega)]
    simp
  | false =>
    simp only [bridge_start, Bool.false_eq_true, if_false, c1]
    rw [to_guint64_of_fit _ (by omega) (by omega)]
    simp

theorem bridge_duration_fit (w : World) (compared : GListNode) (track_object : Nat)
    (ahead : Bool) (hc : Fits w compared.data) (ht : Fits w track_object)
    (hb : bridges w compared track_object ahead) :
    bridge_duration w compared track_object ahead =
      if ahead then track_end w compared.data - (w.tobjs track_object).start
      else track_end w track_object - (w.tobjs compared.data).start := by
  obtain ⟨c1, c2, _, c4⟩ := fits_read w compared.data hc
  obtain ⟨t1, t2, t3, _⟩ := fits_read w track_object ht
  unfold Fits track_end at hc ht
  cases ahead with
  | true =>
    simp only [bridges, track_end, if_true] at hb
    simp only [bridge_duration, track_end, if_true, c1, c2, c4, t1]
    rw [wrap_of_fit _ (by omega) (by omega), to_guint64_of_fit _ (by omega) (by omega)]
    omega
  | false =>
    simp only [bridges, track_end, Bool.false_eq_true, if_false] at hb
    simp only [bridge_duration, track_end, Bool.false_eq_true, if_false, c1, t1, t2, t3]
    rw [wrap_of_fit _ (by omega) (by omega), to_guint64_of_fit _ (by omega) (by omega)]
    omega

/-! ## The verdicts of a comparison -/

theorem no_overlap_not_bridges (w : World) (compared : GListNode) (track_object : Nat)
    (ahead : Bool) (h : no_overlap w compared track_object ahead) :
    ¬ bridges w compared track_object ahead := by
  cases ahead with
  | true =>
    simp only [no_overlap, bridges, track_end, if_true] at h ⊢
    omega
  | false =>
    simp only [no_overlap, bridges, track_end, Bool.false_eq_true, if_false] at h ⊢
    omega

theorem not_mem_of_layer_ref (w : World) (layer x : Nat) (hown : LayerOwns w layer)
    (h : ges_timeline_object_get_layer w x ≠ some layer) : x ∉ members w layer :=
  fun hm => h ((hown.2 x).1 hm)

theorem set_priority_frame (w : World) (object priority : Nat) :
    (ges_timeline_object_set_priority w object priority).layers = w.layers ∧
    (ges_timeline_object_set_priority w object priority).next_object = w.next_object ∧
    (ges_timeline_object_set_priority w object priority).tobjs = w.tobjs ∧
    ((ges_timeline_object_set_priority w object priority).objs object).priority = priority ∧
    (∀ x, x ≠ object →
      (ges_timeline_object_set_priority w object priority).objs x = w.objs x) ∧
    (∀ x, ((ges_timeline_object_set_priority w object priority).objs x).start =
        (w.objs x).start ∧
      ((ges_timeline_object_set_priority w object priority).objs x).duration =
        (w.objs x).duration) := by
  refine ⟨rfl, rfl, rfl, ?_, ?_, ?_⟩
  · simp [ges_timeline_object_set_priority]
  · intro x hx
    simp [ges_timeline_object_set_priority, Function.update_noteq hx]
  · intro x
    by_cases hx : x = object
    · subst hx
      simp [ges_timeline_object_set_priority]
    · simp [ges_timeline_object_set_priority, Function.update_noteq hx]

/-- C14 fails as stated: A (0 to 10, priority 0) and B (10 to 20, priority 1)
do not overlap and their transition is listed between them; the forward
comparison of B with A removes the transition and leaves B with priority 0,
the priority of A. -/
theorem no_overlap_resets_priority :
    outcome_priorities (compare 2 touching_world { prev := [], data := 0, next := [2, 1] } 1 true)
      [0, 1] = some [0, 0] ∧
    [0, 1].map (fun o => (touching_world.objs o).priority) = [0, 1] ∧
    outcome_members (compare 2 touching_world { prev := [], data := 0, next := [2, 1] } 1 true) =
      some [0, 1] := by
  decide

/-- C14, amended: both track objects belong to timeline objects, the one of
the changed object is in a layer that owns its members singly and whose
transitions can each be removed on their own, both track objects end below
`2 ^ 63`, and in a backward comparison the compared node has a predecessor.
When the later object starts at or after the end of the earlier one and the
search of the comparison found a transition, the comparison returns, that
transition is no longer a member of the layer, the earlier object keeps its
priority, the later object ends with the priority of the earlier one, and no
other object changes priority, in both directions. -/
theorem compare_no_overlap_restacks (fuel : Nat) (w : World) (compared : GListNode)
    (track_object object e layer tr : Nat) (ahead : Bool)
    (hobj : (w.tobjs track_object).timeline_object = some object)
    (hcomp : (w.tobjs compared.data).timeline_object = some e)
    (hlayer : ges_timeline_object_get_layer w object = some layer)
    (hapart : TransitionsApart w layer)
    (hown : LayerOwns w layer)
    (hprev : ahead = false → compared.prev ≠ [])
    (hfitc : Fits w compared.data) (hfitt : Fits w track_object)
    (hno : no_overlap w compared track_object ahead)
    (hfound : compare_found w compared ahead = some tr) :
    ∃ w', compare (fuel + 2) w compared track_object ahead = Outcome.done w' ∧
      tr ∉ members w' layer ∧
      (w'.objs (later_of ahead object e)).priority =
        (w.objs (earlier_of ahead object e)).priority ∧
      ∀ x, x ≠ later_of ahead object e → (w'.objs x).priority = (w.objs x).priority := by
  have hnb : ¬ falls_through w compared track_object ahead := fun h =>
    no_overlap_not_bridges w compared track_object ahead hno
      ((falls_through_iff w compared track_object ahead hfitc hfitt).1 h)
  have hft : first_test w compared track_object ahead :=
    (first_test_iff w compared track_object ahead hfitc hfitt).2 hno
  obtain ⟨w2, hf, ho, hgone, hres⟩ := compare_not_bridging fuel w compared track_object
    object e layer ahead hobj hcomp hlayer hapart hprev hnb
  rcases hres with ⟨hn, _⟩ | ⟨_, _, hr⟩
  · exact absurd ⟨hft, by rw [hfound]; simp⟩ hn
  · refine ⟨_, hr, ?_, ?_, ?_⟩
    · have hm : tr ∉ members w2 layer :=
        not_mem_of_layer_ref w2 layer tr (ho layer hown) (hgone tr hfound)
      simpa [members, (set_priority_frame w2 _ _).1] using hm
    · rw [(set_priority_frame w2 _ _).2.2.2.1]
      exact heapFrame_priority w w2 hf _
    · intro x hx
      rw [(set_priority_frame w2 _ _).2.2.2.2.1 x hx]
      exact heapFrame_priority w w2 hf x

theorem containment_not_bridges (w : World) (compared : GListNode) (track_object : Nat)
    (ahead : Bool) (h : containment w compared track_object ahead) :
    ¬ bridges w compared track_object ahead := by
  cases ahead with
  | true =>
    simp only [containment, bridges, track_end, if_true] at h ⊢
    omega
  | false =>
    simp only [containment, bridges, track_end, Bool.false_eq_true, if_false] at h ⊢
    omega

/-- C15 fails as stated: E (0 to 10) covers L (5 to 10) and the two end
together; the forward comparison of L with E, with no transition present,
creates the transition (5, 5), and so does the backward comparison of E with
L. -/
theorem same_end_is_bridged :
    (same_end_world.tobjs 0).start ≤ (same_end_world.tobjs 1).start ∧
    track_end same_end_world 1 ≤ track_end same_end_world 0 ∧
    transitions_of same_end_world 0 = [] ∧
    outcome_transitions
      (compare 2 same_end_world { prev := [], data := 0, next := [1] } 1 true) =
      some [(5, 5)] ∧
    outcome_transitions
      (compare 2 same_end_world { prev := [0], data := 1, next := [] } 0 false) =
      some [(5, 5)] := by
  decide

/-- C15, amended: both track objects belong to timeline objects, the one of
the changed object is in a layer that owns its members singly and whose
transitions can each be removed on their own, both track objects end below
`2 ^ 63`, and in a backward comparison the compared node has a predecessor.
When the earlier interval lies strictly around the later one, in either
direction, or when in the forward comparison the later object starts no
later than the earlier one, the comparison returns and leaves no transition
for the pair: the transition its search found is no longer a member of the
layer, no object is allocated, no layer gains a member, and no object changes
its start or duration. -/
theorem compare_containment_removes (fuel : Nat) (w : World) (compared : GListNode)
    (track_object object e layer : Nat) (ahead : Bool)
    (hobj : (w.tobjs track_object).timeline_object = some object)
    (hcomp : (w.tobjs compared.data).timeline_object = some e)
    (hlayer : ges_timeline_object_get_layer w object = some layer)
    (hapart : TransitionsApart w layer)
    (hown : LayerOwns w layer)
    (hprev : ahead = false → compared.prev ≠ [])
    (hfitc : Fits w compared.data) (hfitt : Fits w track_object)
    (hcont : containment w compared track_object ahead) :
    ∃ w', compare (fuel + 2) w compared track_object ahead = Outcome.done w' ∧
      w'.next_object = w.next_object ∧
      (∀ l, (members w' l).Sublist (members w l)) ∧
      (∀ tr, compare_found w compared ahead = some tr → tr ∉ members w' layer) ∧
      ∀ x, (w'.objs x).start = (w.objs x).start ∧
        (w'.objs x).duration = (w.objs x).duration := by
  have hnb : ¬ falls_through w compared track_object ahead := fun h =>
    containment_not_bridges w compared track_object ahead hcont
      ((falls_through_iff w compared track_object ahead hfitc hfitt).1 h)
  obtain ⟨w2, hf, ho, hgone, hres⟩ := compare_not_bridging fuel w compared track_object
    object e layer ahead hobj hcomp hlayer hapart hprev hnb
  have hgone2 : ∀ tr, compare_found w compared ahead = some tr → tr ∉ members w2 layer :=
    fun tr h => not_mem_of_layer_ref w2 layer tr (ho layer hown) (hgone tr h)
  rcases hres with ⟨_, hr⟩ | ⟨_, _, hr⟩
  · exact ⟨w2, hr, hf.2.2.2.1, hf.2.2.2.2.2.2.1, hgone2, fun x => heapFrame_start w w2 hf x⟩
  · refine ⟨_, hr, hf.2.2.2.1, hf.2.2.2.2.2.2.1, hgone2, ?_⟩
    intro x
    rw [((set_priority_frame w2 _ _).2.2.2.2.2 x).1, ((set_priority_frame w2 _ _).2.2.2.2.2 x).2]
    exact heapFrame_start w w2 hf x

/-- C16 fails as stated: A (0 to 10) and B (0 to 20), which contains it, both
have priority 3; after the forward comparison of B with A both still have
priority 3, so B is not above A. -/
theorem containment_keeps_priorities :
    (contained_world.tobjs 1).start ≤ (contained_world.tobjs 0).start ∧
    track_end contained_world 0 ≤ track_end contained_world 1 ∧
    [0, 1].map (fun o => (contained_world.objs o).priority) = [3, 3] ∧
    outcome_priorities
      (compare 2 contained_world { prev := [], data := 0, next := [1] } 1 true) [0, 1] =
      some [3, 3] := by
  decide

/-- C16, amended: both track objects belong to timeline objects, the one of
the changed object is in a layer whose transitions can each be removed on
their own, both track objects end below `2 ^ 63`, and in a backward
comparison the compared node has a predecessor.  When the pair overlaps (the
later object starts before the end of the earlier one) and either the earlier
interval lies strictly around the later one, in either direction, or in the
forward comparison the later object starts no later than the earlier one,
the comparison returns and changes no priority: the later object, the
earlier object and every other object keep the priorities they had. -/
theorem compare_containment_priorities (fuel : Nat) (w : World) (compared : GListNode)
    (track_object object e layer : Nat) (ahead : Bool)
    (hobj : (w.tobjs track_object).timeline_object = some object)
    (hcomp : (w.tobjs compared.data).timeline_object = some e)
    (hlayer : ges_timeline_object_get_layer w object = some layer)
    (hapart : TransitionsApart w layer)
    (hprev : ahead = false → compared.prev ≠ [])
    (hfitc : Fits w compared.data) (hfitt : Fits w track_object)
    (hcont : containment w compared track_object ahead)
    (hover : ¬ no_overlap w compared track_object ahead) :
    ∃ w', compare (fuel + 2) w compared track_object ahead = Outcome.done w' ∧
      ∀ x, (w'.objs x).priority = (w.objs x).priority := by
  have hnb : ¬ falls_through w compared track_object ahead := fun h =>
    containment_not_bridges w compared track_object ahead hcont
      ((falls_through_iff w compared track_object ahead hfitc hfitt).1 h)
  obtain ⟨w2, hf, _, _, hres⟩ := compare_not_bridging fuel w compared track_object
    object e layer ahead hobj hcomp hlayer hapart hprev hnb
  rcases hres with ⟨_, hr⟩ | ⟨hno, _, _⟩
  · exact ⟨w2, hr, fun x => heapFrame_priority w w2 hf x⟩
  · exact absurd ((first_test_iff w compared track_object ahead hfitc hfitt).1 hno) hover

theorem bridge_resized_eq (w : World) (layer first second : Option Nat) (tr t ts td : Nat) :
    compare_bridge w layer (some tr) first second t ts td =
      Outcome.done (ges_timeline_object_set_start_duration w tr ts td) := rfl

/-- C11 fails as stated: in `huge_world` E runs from 0 to 10 and L starts at
5 with the duration `2 ^ 63`, so that `E.start < L.start < E.end < L.end`,
and no transition is present.  Read into `gint64` the end of L is negative,
the forward comparison of L with E takes L for lying inside E, and the layer
ends without a transition. -/
theorem huge_duration_not_bridged :
    (huge_world.tobjs 0).start < (huge_world.tobjs 1).start ∧
    (huge_world.tobjs 1).start < track_end huge_world 0 ∧
    track_end huge_world 0 < track_end huge_world 1 ∧
    compare_found huge_world { prev := [], data := 0, next := [1] } true = none ∧
    outcome_members (compare 2 huge_world { prev := [], data := 0, next := [1] } 1 true) =
      some [0, 1] ∧
    outcome_transitions (compare 2 huge_world { prev := [], data := 0, next := [1] } 1 true) =
      some [] := by
  decide

/-- C11, amended: E and L are source track objects that belong to timeline
objects, L is on a track and its timeline object is in a layer whose
transitions can each be removed on their own, `E.start < L.start < E.end <
L.end` with `L.end` below `2 ^ 63`, and the search of the forward comparison
of L with E finds no transition.  The comparison then returns, allocates
exactly one object, a transition, and the member list of the layer is the
list left by the first block of `compare` with that object put in at one
place; the transition starts where L starts and lasts `E.end - L.start`; no
other object changes its start, duration or kind. -/
theorem compare_creates_transition (fuel : Nat) (w : World) (compared : GListNode)
    (track_object object e layer track : Nat)
    (hobj : (w.tobjs track_object).timeline_object = some object)
    (hcomp : (w.tobjs compared.data).timeline_object = some e)
    (hlayer : ges_timeline_object_get_layer w object = some layer)
    (htrack : (w.tobjs track_object).track = some track)
    (hapart : TransitionsApart w layer)
    (hover : (w.tobjs compared.data).start < (w.tobjs track_object).start ∧
      (w.tobjs track_object).start < track_end w compared.data ∧
      track_end w compared.data < track_end w track_object)
    (hfit : Fits w track_object)
    (hnone : compare_found w compared true = none) :
    ∃ w1 w', compare_cleanup (fuel + 2) w compared (some layer) true = Outcome.done w1 ∧
      compare (fuel + 2) w compared track_object true = Outcome.done w' ∧
      w'.next_object = w.next_object + 1 ∧
      (∃ pre post, members w1 layer = pre ++ post ∧
        members w' layer = pre ++ w.next_object :: post) ∧
      (w'.objs w.next_object).is_transition = true ∧
      (w'.objs w.next_object).start = (w.tobjs track_object).start ∧
      (w'.objs w.next_object).duration =
        track_end w compared.data - (w.tobjs track_object).start ∧
      ∀ x, x ≠ w.next_object →
        (w'.objs x).start = (w.objs x).start ∧ (w'.objs x).duration = (w.objs x).duration ∧
        (w'.objs x).is_transition = (w.objs x).is_transition := by
  have hfitc : Fits w compared.data := by
    unfold Fits at hfit ⊢
    omega
  have hb : bridges w compared track_object true := by
    simp only [bridges, if_true]
    exact ⟨hover.1, hover.2.1, Nat.le_of_lt hover.2.2⟩
  obtain ⟨w1, hc, hf1, _, hcmp⟩ := compare_bridging fuel w compared track_object object e
    layer true hobj hcomp hlayer hapart (fun h => absurd h (by simp))
    ((falls_through_iff w compared track_object true hfitc hfit).2 hb)
  have htrack1 : (w1.tobjs track_object).track = some track := by
    rw [hf1.1]
    exact htrack
  rw [hnone, bridge_created_eq w1 layer _ _ track_object track _ _ htrack1] at hcmp
  have hs := bridged_spec w1 layer (w1.track_type track) (earlier_of true object e)
    (later_of true object e) (bridge_start w compared track_object true)
    (bridge_duration w compared track_object true)
  have hn : w1.next_object = w.next_object := hf1.2.2.2.1
  rw [hn] at hs
  refine ⟨w1, _, hc, hcmp, hs.1, hs.2.2.1, hs.2.2.2.2.2.2.1, ?_, ?_, ?_⟩
  · rw [hs.2.2.2.2.1, bridge_start_fit w compared track_object true hfitc hfit]
    rfl
  · rw [hs.2.2.2.2.2.1, bridge_duration_fit w compared track_object true hfitc hfit hb]
    rfl
  · intro x hx
    have h := hs.2.2.2.2.2.2.2.2.1 x hx
    have hobjx := hf1.2.2.2.2.1 x
    have h1 := congrArg GESTimelineObject.start hobjx
    have h2 := congrArg GESTimelineObject.duration hobjx
    have h3 := congrArg GESTimelineObject.is_transition hobjx
    exact ⟨h.1.trans h1, h.2.1.trans h2, h.2.2.trans h3⟩

/-- C12: the backward comparison with equal starts.  X (5 to 25) and N (5 to
15) start together and X is listed first; the backward comparison of X with
N, with no transition present, creates the transition (5, 20), which ends at
25 while the overlap of the pair ends at 15.  The forward comparison of the
same pair creates nothing. -/
theorem same_start_bridge_too_long :
    max (same_start_world.tobjs 0).start (same_start_world.tobjs 1).start = 5 ∧
    min (track_end same_start_world 0) (track_end same_start_world 1) = 15 ∧
    outcome_transitions
      (compare 2 same_start_world { prev := [0], data := 1, next := [] } 0 false) =
      some [(5, 20)] ∧
    5 + 20 ≠ min (track_end same_start_world 0) (track_end same_start_world 1) ∧
    outcome_transitions
      (compare 2 same_start_world { prev := [], data := 0, next := [1] } 1 true) =
      some [] := by
  decide

/-- C17 fails as stated: E (priority 0, height 1) and L (priority 7) overlap
partly and their transition is present; the forward comparison resizes the
transition to (5, 5) and leaves L with priority 7, not 0 + 1. -/
theorem resize_keeps_priority :
    outcome_transitions
      (compare 2 bridged_world { prev := [], data := 0, next := [2, 1] } 1 true) =
      some [(5, 5)] ∧
    outcome_priorities
      (compare 2 bridged_world { prev := [], data := 0, next := [2, 1] } 1 true) [0, 1] =
      some [0, 7] ∧
    (bridged_world.objs 0).priority + (bridged_world.objs 0).height = 1 := by
  decide

/-- C17, amended: both track objects belong to timeline objects, which are
two distinct objects, the changed object is on a track and its timeline
object is in a layer whose transitions can each be removed on their own,
both track objects end below `2 ^ 63`, and in a backward comparison the
compared node has a predecessor.  When the comparison reaches its bridging
part (forward: the later object starts inside the earlier one and ends no
earlier than it; backward: the earlier object starts no later than the later
one, ends after its start, and starts with it or ends no later than it), it
returns; when it creates the transition, the later object ends with the
priority of the earlier one plus its height, reduced to 32 bits (the plain
sum when that fits), and when the transition was already present, the
comparison changes no priority. -/
theorem compare_bridge_stacks (fuel : Nat) (w : World) (compared : GListNode)
    (track_object object e layer track : Nat) (ahead : Bool)
    (hobj : (w.tobjs track_object).timeline_object = some object)
    (hcomp : (w.tobjs compared.data).timeline_object = some e)
    (hlayer : ges_timeline_object_get_layer w object = some layer)
    (htrack : (w.tobjs track_object).track = some track)
    (hapart : TransitionsApart w layer)
    (hprev : ahead = false → compared.prev ≠ [])
    (hfitc : Fits w compared.data) (hfitt : Fits w track_object)
    (hb : bridges w compared track_object ahead)
    (hne : earlier_of ahead object e ≠ later_of ahead object e) :
    ∃ w', compare (fuel + 2) w compared track_object ahead = Outcome.done w' ∧
      (compare_found w compared ahead = none →
        (w'.objs (later_of ahead object e)).priority =
          wrap32 ((w'.objs (earlier_of ahead object e)).priority +
            (w'.objs (earlier_of ahead object e)).height) ∧
        ((w'.objs (earlier_of ahead object e)).priority +
            (w'.objs (earlier_of ahead object e)).height < UINT32_RANGE →
          (w'.objs (later_of ahead object e)).priority =
            (w'.objs (earlier_of ahead object e)).priority +
              (w'.objs (earlier_of ahead object e)).height)) ∧
      (compare_found w compared ahead ≠ none →
        ∀ x, (w'.objs x).priority = (w.objs x).priority) := by
  obtain ⟨w1, _, hf1, _, hcmp⟩ := compare_bridging fuel w compared track_object object e
    layer ahead hobj hcomp hlayer hapart hprev
    ((falls_through_iff w compared track_object ahead hfitc hfitt).2 hb)
  cases hfound : compare_found w compared ahead with
  | none =>
    have htrack1 : (w1.tobjs track_object).track = some track := by
      rw [hf1.1]
      exact htrack
    rw [hfound, bridge_created_eq w1 layer _ _ track_object track _ _ htrack1] at hcmp
    have hs := bridged_spec w1 layer (w1.track_type track) (earlier_of ahead object e)
      (later_of ahead object e) (bridge_start w compared track_object ahead)
      (bridge_duration w compared track_object ahead)
    refine ⟨_, hcmp, fun _ => ⟨hs.2.2.2.2.2.2.2.1 hne, ?_⟩, fun h => absurd rfl h⟩
    intro hlt
    rw [hs.2.2.2.2.2.2.2.1 hne]
    exact Nat.mod_eq_of_lt hlt
  | some tr =>
    rw [hfound, bridge_resized_eq] at hcmp
    refine ⟨_, hcmp, fun h => absurd h (by simp), fun _ x => ?_⟩
    rw [(set_start_duration_frame w1 tr _ _).2.2.2.2.1 x]
    exact heapFrame_priority w w1 hf1 x

/-! ## Removing a source next to a transition -/

theorem add_object_quiet (w : World) (layer object : Nat)
    (hauto : (w.layers layer).auto_transition = false) :
    (ges_timeline_layer_add_object w layer object).2.connections = w.connections ∧
    (ges_timeline_layer_add_object w layer object).2.next_object = w.next_object ∧
    (ges_timeline_layer_add_object w layer object).2.tobjs = w.tobjs ∧
    (∀ x, ((ges_timeline_layer_add_object w layer object).2.objs x).is_transition =
      (w.objs x).is_transition) ∧
    ∀ l x, x ∈ members (ges_timeline_layer_add_object w layer object).2 l →
      x ∈ members w l ∨ (l = layer ∧ x = object) := by
  by_cases hfree : ges_timeline_object_get_layer w object = none
  · have hl := add_object_layers w layer object hfree
    have ho := add_object_objs w layer object hfree
    have hside : (ges_timeline_layer_add_object w layer object).2.connections =
          w.connections ∧
        (ges_timeline_layer_add_object w layer object).2.next_object = w.next_object ∧
        (ges_timeline_layer_add_object w layer object).2.tobjs = w.tobjs := by
      unfold ges_timeline_layer_add_object
      rw [hfree]
      simp only [resync_priorities_eq, Function.update_same, hauto, Bool.false_and,
        Bool.false_eq_true, if_false]
      split_ifs <;> exact ⟨rfl, rfl, rfl⟩
    refine ⟨hside.1, hside.2.1, hside.2.2, ?_, ?_⟩
    · intro x
      rw [ho]
      by_cases hx : x = object
      · subst hx
        simp
      · rw [Function.update_noteq hx]
    · intro l x hx
      by_cases hll : l = layer
      · subst hll
        have : x ∈ g_list_insert_sorted
            (fun a b => objects_start_compare (w.objs a) (w.objs b)) object
            (members w l) := by
          simpa [members, hl] using hx
        rcases (mem_insert_sorted _ object x _).1 this with e | e
        · exact Or.inr ⟨rfl, e⟩
        · exact Or.inl e
      · left
        simpa [members, hl, Function.update_noteq hll] using hx
  · rw [add_object_of_owned w layer object hfree]
    exact ⟨rfl, rfl, rfl, fun _ => rfl, fun _ _ h => Or.inl h⟩

theorem run_edits_quiet (fuel : Nat) :
    ∀ (ops : List EditOp) (w : World),
      (∀ l, (w.layers l).auto_transition = false) → w.connections = [] →
      ∃ w', run_edits fuel w ops = Outcome.done w' ∧
        w'.next_object = w.next_object ∧ w'.connections = [] ∧
        (∀ x, (w'.objs x).is_transition = (w.objs x).is_transition) ∧
        ∀ l x, x ∈ members w' l → x ∈ members w l ∨ EditOp.add l x ∈ ops := by
  intro ops
  induction ops with
  | nil =>
    intro w _ hconn
    exact ⟨w, rfl, rfl, hconn, fun _ => rfl, fun _ _ h => Or.inl h⟩
  | cons op ops ih =>
    intro w hauto hconn
    cases op with
    | add layer object =>
      have hq := add_object_quiet w layer object (hauto layer)
      have hauto1 : ∀ l,
          ((ges_timeline_layer_add_object w layer object).2.layers l).auto_transition =
            false := by
        intro l
        rw [add_object_auto]
        exact hauto l
      obtain ⟨w', hrun, hn, hc, ht, hm⟩ := ih _ hauto1 (hq.1.trans hconn)
      refine ⟨w', ?_, hn.trans hq.2.1, hc, fun x => (ht x).trans (hq.2.2.2.1 x), ?_⟩
      · simpa [run_edits, run_edit, Outcome.andThen] using hrun
      · intro l x hx
        rcases hm l x hx with h | h
        · rcases hq.2.2.2.2 l x h with h2 | ⟨h2, h3⟩
          · exact Or.inl h2
          · right
            rw [h2, h3]
            exact List.mem_cons_self _ _
        · exact Or.inr (List.mem_cons_of_mem _ h)
    | set_start t start =>
      have hstep : ges_track_object_set_start fuel w t start =
          Outcome.done
            { w with
              tobjs := Function.update w.tobjs t ({ w.tobjs t with start := start }) } := by
        simp [ges_track_object_set_start, handlers_of, hconn, run_handlers]
      obtain ⟨w', hrun, hn, hc, ht, hm⟩ := ih
        { w with tobjs := Function.update w.tobjs t ({ w.tobjs t with start := start }) }
        hauto hconn
      refine ⟨w', ?_, hn, hc, ht, ?_⟩
      · simpa [run_edits, run_edit, Outcome.andThen, hstep] using hrun
      · intro l x hx
        rcases hm l x hx with h | h
        · exact Or.inl h
        · exact Or.inr (List.mem_cons_of_mem _ h)
    | set_duration t duration =>
      have hstep : ges_track_object_set_duration fuel w t duration =
          Outcome.done
            { w with
              tobjs := Function.update w.tobjs t
                ({ w.tobjs t with duration := duration }) } := by
        simp [ges_track_object_set_duration, handlers_of, hconn, run_handlers]
      obtain ⟨w', hrun, hn, hc, ht, hm⟩ := ih
        { w with
          tobjs := Function.update w.tobjs t ({ w.tobjs t with duration := duration }) }
        hauto hconn
      refine ⟨w', ?_, hn, hc, ht, ?_⟩
      · simpa [run_edits, run_edit, Outcome.andThen, hstep] using hrun
      · intro l x hx
        rcases hm l x hx with h | h
        · exact Or.inl h
        · exact Or.inr (List.mem_cons_of_mem _ h)

/-- C20: handlers outlive the flag.  Auto-transition is switched on for a new
layer, the sources A (0 to 10) and B (20 to 30) are added and get their track
objects, and auto-transition is switched off: the flag is false and the layer
holds no transition.  Moving the track object of B to start 5 then adds the
transition (5, 5) to the layer, with the flag still false. -/
theorem stale_handlers_create_transition :
    outcome_auto toggled_world = some false ∧
    outcome_members toggled_world = some [0, 1] ∧
    outcome_transitions toggled_world = some [] ∧
    outcome_auto toggled_moved = some false ∧
    outcome_members toggled_moved = some [2, 0, 1] ∧
    outcome_transitions toggled_moved = some [(5, 5)] := by
  decide

/-- C18: the second classification creates a transition.  In `wedge_world`
the first classification of X allocates nothing and leaves the members as
they were, with the one transition stretched to (5, 10) by the backward
comparison of X with N, which start together; the track list is unchanged.
The second classification no longer finds a transition that ends where E
ends and creates the transition (5, 5): the member list grows. -/
theorem second_run_creates_transition :
    outcome_members wedge_once = some [0, 1, 2, 3] ∧
    outcome_transitions wedge_once = some [(5, 10)] ∧
    outcome_track wedge_once = some [0, 3, 1, 2] ∧
    outcome_members wedge_twice = some [4, 0, 1, 2, 3] ∧
    outcome_transitions wedge_twice = some [(5, 5), (5, 10)] ∧
    outcome_members wedge_twice ≠ outcome_members wedge_once := by
  decide

/-! ## The concrete scenes -/

theorem scene_owns (objects : List GESTimelineObject) (track_objects : List GESTrackObject)
    (track : List Nat) (h : ∀ o ∈ objects, o.layer = some 0) :
    LayerOwns (scene objects track_objects track) 0 := by
  refine ⟨?_, ?_⟩
  · simp only [members, scene, if_true]
    exact List.nodup_range _
  · intro o
    simp only [members, scene, if_true, ges_timeline_object_get_layer, List.mem_range]
    constructor
    · intro ho
      rw [List.getD_eq_getElem _ _ ho]
      exact h _ (List.getElem_mem _)
    · intro hl
      by_contra hge
      rw [List.getD_eq_default _ _ (Nat.le_of_not_lt hge)] at hl
      exact absurd hl (by decide)

theorem scene_no_transition (objects : List GESTimelineObject)
    (track_objects : List GESTrackObject) (track : List Nat) (layer : Nat)
    (h : ∀ t ∈ track_objects, t.kind = GESTrackObjectKind.source) :
    TransitionsApart (scene objects track_objects track) layer := by
  intro t tl ht _ _
  exfalso
  have hk : ((scene objects track_objects track).tobjs t).kind = GESTrackObjectKind.source := by
    simp only [scene]
    by_cases hlt : t < track_objects.length
    · rw [List.getD_eq_getElem _ _ hlt]
      exact h _ (List.getElem_mem _)
    · rw [List.getD_eq_default _ _ (Nat.le_of_not_lt hlt)]
      rfl
  simp [GES_IS_TRACK_TRANSITION, hk] at ht

theorem scene_one_transition (objects : List GESTimelineObject)
    (a b c : GESTrackObject) (track : List Nat)
    (ha : a.kind = GESTrackObjectKind.source) (hb : b.kind = GESTrackObjectKind.source)
    (hc : c.timeline_object = some 2)
    (hidle : removal_idle (scene objects [a, b, c] track) 0 2 = true) :
    TransitionsApart (scene objects [a, b, c] track) 0 := by
  intro t tl ht htl _
  have h2 : t = 2 := by
    rcases t with _ | _ | _ | t
    · simp [GES_IS_TRACK_TRANSITION, scene, ha] at ht
    · simp [GES_IS_TRACK_TRANSITION, scene, hb] at ht
    · rfl
    · exfalso
      have hk : ((scene objects [a, b, c] track).tobjs (t + 3)).kind =
          GESTrackObjectKind.source := by
        simp only [scene]
        rw [List.getD_eq_default _ _ (by simp)]
        rfl
      simp [GES_IS_TRACK_TRANSITION, hk] at ht
  subst h2
  have h3 : tl = 2 := by
    simp only [scene, List.getD_cons_succ, List.getD_cons_zero, hc] at htl
    injection htl with htl
    exact htl.symm
  subst h3
  exact hidle

theorem touching_world_apart : TransitionsApart touching_world 0 :=
  scene_one_transition _ _ _ _ _ rfl rfl rfl (by decide)

theorem inside_world_apart : TransitionsApart inside_world 0 :=
  scene_one_transition _ _ _ _ _ rfl rfl rfl (by decide)

theorem touching_world_owns : LayerOwns touching_world 0 :=
  scene_owns _ _ _ (by decide)

theorem inside_world_owns : LayerOwns inside_world 0 :=
  scene_owns _ _ _ (by decide)

theorem pair_world_apart : TransitionsApart pair_world 0 :=
  scene_no_transition _ _ _ 0 (by decide)

/-- With E from 0 to 10 and L from 5 to 15 and no transition, the forward
comparison of L with E leaves exactly one transition in the layer, from 5
and 5 long, at the address that was free. -/
theorem compare_creates_transition_witness :
    compare_found pair_world { prev := [], data := 0, next := [1] } true = none ∧
    outcome_transitions (compare 2 pair_world { prev := [], data := 0, next := [1] } 1 true) =
      some [(5, 5)] ∧
    ∃ w', compare 2 pair_world { prev := [], data := 0, next := [1] } 1 true =
        Outcome.done w' ∧
      w'.next_object = 3 ∧ (w'.objs 2).is_transition = true ∧
      (w'.objs 2).start = 5 ∧ (w'.objs 2).duration = 5 := by
  refine ⟨by decide, by decide, ?_⟩
  obtain ⟨_, w', _, h2, h3, _, h5, h6, h7, _⟩ :=
    compare_creates_transition 0 pair_world { prev := [], data := 0, next := [1] } 1 1 0 0 0
      rfl rfl rfl rfl pair_world_apart (by decide) (by unfold Fits; decide) (by decide)
  exact ⟨w', h2, h3, h5, h6, h7⟩

/-- With A from 0 to 10 (priority 0), B moved to start 10 (priority 1) and
their transition listed between them, the forward comparison of B with A
takes the transition out of the layer and leaves B with priority 0. -/
theorem compare_no_overlap_restacks_witness :
    (touching_world.objs 1).priority = 1 ∧ (touching_world.objs 0).priority = 0 ∧
    2 ∈ members touching_world 0 ∧
    ∃ w', compare 2 touching_world { prev := [], data := 0, next := [2, 1] } 1 true =
        Outcome.done w' ∧
      2 ∉ members w' 0 ∧ (w'.objs 1).priority = 0 ∧ (w'.objs 0).priority = 0 := by
  refine ⟨by decide, by decide, by decide, ?_⟩
  obtain ⟨w', h1, h2, h3, h4⟩ :=
    compare_no_overlap_restacks 0 touching_world { prev := [], data := 0, next := [2, 1] }
      1 1 0 0 2 true rfl rfl rfl touching_world_apart touching_world_owns
      (fun h => absurd h (by decide)) (by unfold Fits; decide) (by unfold Fits; decide)
      (by unfold no_overlap; decide) (by decide)
  exact ⟨w', h1, h2, h3, h4 0 (by decide)⟩

/-- With E from 0 to 20 strictly around L from 5 to 15, the forward
comparison removes the transition found for the pair and creates none. -/
theorem compare_containment_removes_witness :
    containment inside_world { prev := [], data := 0, next := [2, 1] } 1 true ∧
    compare_found inside_world { prev := [], data := 0, next := [2, 1] } true = some 2 ∧
    ∃ w', compare 2 inside_world { prev := [], data := 0, next := [2, 1] } 1 true =
        Outcome.done w' ∧
      w'.next_object = 3 ∧ 2 ∉ members w' 0 := by
  have hc : containment inside_world { prev := [], data := 0, next := [2, 1] } 1 true := by
    unfold containment
    decide
  refine ⟨hc, by decide, ?_⟩
  obtain ⟨w', h1, h2, _, h4, _⟩ :=
    compare_containment_removes 0 inside_world { prev := [], data := 0, next := [2, 1] }
      1 1 0 0 true rfl rfl rfl inside_world_apart inside_world_owns
      (fun h => absurd h (by decide)) (by unfold Fits; decide) (by unfold Fits; decide) hc
  exact ⟨w', h1, h2, h4 2 (by decide)⟩

/-- In the same scene L keeps its priority 4 and E its priority 0. -/
theorem compare_containment_priorities_witness :
    containment inside_world { prev := [], data := 0, next := [2, 1] } 1 true ∧
    ¬ no_overlap inside_world { prev := [], data := 0, next := [2, 1] } 1 true ∧
    ∃ w', compare 2 inside_world { prev := [], data := 0, next := [2, 1] } 1 true =
        Outcome.done w' ∧
      (w'.objs 1).priority = 4 ∧ (w'.objs 0).priority = 0 := by
  have hc : containment inside_world { prev := [], data := 0, next := [2, 1] } 1 true := by
    unfold containment
    decide
  have hn : ¬ no_overlap inside_world { prev := [], data := 0, next := [2, 1] } 1 true := by
    unfold no_overlap
    decide
  refine ⟨hc, hn, ?_⟩
  obtain ⟨w', h1, h2⟩ :=
    compare_containment_priorities 0 inside_world { prev := [], data := 0, next := [2, 1] }
      1 1 0 0 true rfl rfl rfl inside_world_apart (fun h => absurd h (by decide))
      (by unfold Fits; decide) (by unfold Fits; decide) hc hn
  exact ⟨w', h1, h2 1, h2 0⟩

/-- With E from 0 to 10 and L from 5 to 15 and no transition, the forward
comparison creates one and L ends with the priority of E plus its height. -/
theorem compare_bridge_stacks_witness :
    bridges pair_world { prev := [], data := 0, next := [1] } 1 true ∧
    ∃ w', compare 2 pair_world { prev := [], data := 0, next := [1] } 1 true =
        Outcome.done w' ∧
      (w'.objs 1).priority = wrap32 ((w'.objs 0).priority + (w'.objs 0).height) := by
  have hb : bridges pair_world { prev := [], data := 0, next := [1] } 1 true := by
    unfold bridges
    decide
  refine ⟨hb, ?_⟩
  obtain ⟨w', h1, h2, _⟩ :=
    compare_bridge_stacks 0 pair_world { prev := [], data := 0, next := [1] } 1 1 0 0 0 true
      rfl rfl rfl rfl pair_world_apart (fun h => absurd h (by decide))
      (by unfold Fits; decide) (by unfold Fits; decide) hb (by decide)
  exact ⟨w', h1, (h2 (by decide)).1⟩

theorem foldl_rel (R : World → World → Prop) (hrefl : ∀ w, R w w)
    (htrans : ∀ a b c, R a b → R b c → R a c) (f : World → Nat → World)
    (hf : ∀ w o, R w (f w o)) :
    ∀ (os : List Nat) (w : World), R w (os.foldl f w) := by
  intro os
  induction os with
  | nil =>
    intro w
    exact hrefl w
  | cons o os ih =>
    intro w
    rw [List.foldl_cons]
    exact htrans _ _ _ (hf w o) (ih (f w o))

theorem connectsOnly_refl (w : World) : ConnectsOnly w w :=
  ⟨rfl, rfl, rfl, rfl, rfl, rfl, rfl, [], by simp⟩

theorem connectsOnly_trans (a b c : World) (h1 : ConnectsOnly a b) (h2 : ConnectsOnly b c) :
    ConnectsOnly a c := by
  obtain ⟨a1, a2, a3, a4, a5, a6, a7, x, a8⟩ := h1
  obtain ⟨b1, b2, b3, b4, b5, b6, b7, y, b8⟩ := h2
  refine ⟨b1.trans a1, b2.trans a2, b3.trans a3, b4.trans a4, b5.trans a5, b6.trans a6,
    b7.trans a7, x ++ y, ?_⟩
  rw [b8, a8, List.append_assoc]

theorem set_auto_transition_fold (layer : Nat) (os : List Nat) (w : World) :
    ConnectsOnly w (os.foldl
        (fun acc obj =>
          if GES_IS_TIMELINE_SOURCE acc obj then
            let c1 := g_signal_connect acc (Emitter.timeline_object obj)
              SignalName.track_object_added Callback.track_object_added_cb (some layer)
            let c2 := g_signal_connect c1.2 (Emitter.timeline_object obj)
              SignalName.track_object_removed Callback.track_object_removed_cb (some layer)
            { c2.2 with
              layer_data := c2.2.layer_data ++ [c1.1, c2.1] }
          else acc)
        w) := by
  apply foldl_rel ConnectsOnly connectsOnly_refl connectsOnly_trans
  intro w1 o
  by_cases hs : GES_IS_TIMELINE_SOURCE w1 o = true
  · simp only [hs, if_true]
    refine ⟨rfl, rfl, rfl, rfl, rfl, rfl, rfl, ?_⟩
    refine ⟨[Connection.mk w1.next_handler (Emitter.timeline_object o)
          SignalName.track_object_added Callback.track_object_added_cb (some layer),
        Connection.mk (w1.next_handler + 1) (Emitter.timeline_object o)
          SignalName.track_object_removed Callback.track_object_removed_cb (some layer)], ?_⟩
    simp [g_signal_connect]
  · simp only [hs]
    exact connectsOnly_refl w1

/-- C21: `ges_timeline_layer_set_auto_transition` stores the flag, so that
`ges_timeline_layer_get_auto_transition` returns it, and leaves alone the
member list of every layer, every timeline object (start, duration and
priority among its fields), every track object and track list, the priority
and the band of every layer, the flag of every other layer and the
allocator: no transition is created.  Besides the flag only the list of
connected handlers changes: nothing is disconnected, handlers are appended
when the flag is set to TRUE and none when it is set to FALSE. -/
theorem set_auto_transition_only_flag (w : World) (layer : Nat) (enabled : Bool) :
    ges_timeline_layer_get_auto_transition
      (ges_timeline_layer_set_auto_transition w layer enabled) layer = enabled ∧
    (∀ l, members (ges_timeline_layer_set_auto_transition w layer enabled) l = members w l) ∧
    (ges_timeline_layer_set_auto_transition w layer enabled).objs = w.objs ∧
    (ges_timeline_layer_set_auto_transition w layer enabled).tobjs = w.tobjs ∧
    (ges_timeline_layer_set_auto_transition w layer enabled).tracks = w.tracks ∧
    (∀ l, ({ (ges_timeline_layer_set_auto_transition w layer enabled).layers l with
        auto_transition := false } : GESTimelineLayer) =
      { w.layers l with auto_transition := false }) ∧
    (∀ l, ((ges_timeline_layer_set_auto_transition w layer enabled).layers l).auto_transition =
      if l = layer then enabled else (w.layers l).auto_transition) ∧
    (∀ l, transitions_of (ges_timeline_layer_set_auto_transition w layer enabled) l =
      transitions_of w l) ∧
    (ges_timeline_layer_set_auto_transition w layer enabled).next_object = w.next_object ∧
    (ges_timeline_layer_set_auto_transition w layer false).connections = w.connections ∧
    ∃ added, (ges_timeline_layer_set_auto_transition w layer enabled).connections =
      w.connections ++ added := by
  have hfalse : (ges_timeline_layer_set_auto_transition w layer false).connections =
      w.connections := by
    simp [ges_timeline_layer_set_auto_transition]
  cases enabled with
  | false =>
    refine ⟨?_, ?_, ?_, ?_, ?_, ?_, ?_, ?_, ?_, hfalse, [], ?_⟩
    · simp [ges_timeline_layer_get_auto_transition, ges_timeline_layer_set_auto_transition]
    · intro l
      by_cases hl : l = layer
      · subst hl
        simp [members, ges_timeline_layer_set_auto_transition]
      · simp [members, ges_timeline_layer_set_auto_transition, Function.update_noteq hl]
    · simp [ges_timeline_layer_set_auto_transition]
    · simp [ges_timeline_layer_set_auto_transition]
    · simp [ges_timeline_layer_set_auto_transition]
    · intro l
      by_cases hl : l = layer
      · subst hl
        simp [ges_timeline_layer_set_auto_transition]
      · simp [ges_timeline_layer_set_auto_transition, Function.update_noteq hl]
    · intro l
      by_cases hl : l = layer
      · subst hl
        simp [ges_timeline_layer_set_auto_transition]
      · simp [ges_timeline_layer_set_auto_transition, Function.update_noteq hl, hl]
    · intro l
      by_cases hl : l = layer
      · subst hl
        simp [transitions_of, members, ges_timeline_layer_set_auto_transition]
      · simp [transitions_of, members, ges_timeline_layer_set_auto_transition,
          Function.update_noteq hl]
    · simp [ges_timeline_layer_set_auto_transition]
    · simp [hfalse]
  | true =>
    obtain ⟨h1, h2, h3, h4, _, h6, _, added, h8⟩ :=
      set_auto_transition_fold layer (w.layers layer).objects_start w
    refine ⟨?_, ?_, ?_, ?_, ?_, ?_, ?_, ?_, ?_, hfalse, added, ?_⟩
    · simp [ges_timeline_layer_get_auto_transition, ges_timeline_layer_set_auto_transition]
    · intro l
      by_cases hl : l = layer
      · subst hl
        simp only [members, ges_timeline_layer_set_auto_transition, if_true,
          Function.update_same]
        rw [h4]
      · simp only [members, ges_timeline_layer_set_auto_transition, if_true,
          Function.update_noteq hl]
        rw [h4]
    · simp only [ges_timeline_layer_set_auto_transition, if_true]
      exact h1
    · simp only [ges_timeline_layer_set_auto_transition, if_true]
      exact h2
    · simp only [ges_timeline_layer_set_auto_transition, if_true]
      exact h3
    · intro l
      by_cases hl : l = layer
      · subst hl
        simp only [ges_timeline_layer_set_auto_transition, if_true, Function.update_same]
        rw [h4]
      · simp only [ges_timeline_layer_set_auto_transition, if_true, Function.update_noteq hl]
        rw [h4]
    · intro l
      by_cases hl : l = layer
      · subst hl
        simp [ges_timeline_layer_set_auto_transition]
      · simp only [ges_timeline_layer_set_auto_transition, if_true, Function.update_noteq hl,
          if_neg hl]
        rw [h4]
    · intro l
      by_cases hl : l = layer
      · subst hl
        simp only [transitions_of, members, ges_timeline_layer_set_auto_transition, if_true,
          Function.update_same]
        rw [h4, h1]
      · simp only [transitions_of, members, ges_timeline_layer_set_auto_transition, if_true,
          Function.update_noteq hl]
        rw [h4, h1]
    · simp only [ges_timeline_layer_set_auto_transition, if_true]
      exact h6
    · simp only [ges_timeline_layer_set_auto_transition, if_true]
      exact h8

theorem foldl_prepend (l : List Nat) :
    ∀ acc : List Nat, l.foldl g_list_prepend acc = l.reverse ++ acc := by
  induction l with
  | nil =>
    intro acc
    rfl
  | cons x xs ih =>
    intro acc
    rw [List.foldl_cons, ih]
    simp [g_list_prepend]

/-- C23: the default implementation of `ges_timeline_layer_get_objects`
returns the members of the layer as the internal list holds them: the same
elements in the same order, hence as many.  The call is a function of the
heap and changes none of it. -/
theorem get_objects_lists_members (w : World) (layer : Nat) :
    ges_timeline_layer_get_objects none w layer = members w layer ∧
    (ges_timeline_layer_get_objects none w layer).length = (members w layer).length ∧
    ∀ i : Nat, (ges_timeline_layer_get_objects none w layer)[i]? = (members w layer)[i]? := by
  have h : ges_timeline_layer_get_objects none w layer = members w layer := by
    simp [ges_timeline_layer_get_objects, g_list_reverse, foldl_prepend, members]
  exact ⟨h, by rw [h], fun i => by rw [h]⟩

/-- C30: `ges_track_audio_transition_duration_changed` returns at its
`return` statement for every duration and every state of the transition, with
or without element and control sources: the keyframes of both control sources
are the ones from before the call, and so is every other field. -/
theorem audio_duration_changed_returns_early (self : GESTrackAudioTransition)
    (duration : Nat) :
    (ges_track_audio_transition_duration_changed self duration).a_control_source =
      self.a_control_source ∧
    (ges_track_audio_transition_duration_changed self duration).b_control_source =
      self.b_control_source ∧
    ges_track_audio_transition_duration_changed self duration = self := by
  have h : ges_track_audio_transition_duration_changed self duration = self := by
    unfold ges_track_audio_transition_duration_changed
    simp [Flow.next, Flow.result]
  exact ⟨by rw [h], by rw [h], h⟩

theorem audio_keyframes_after_return :
    (audio_transition_set_keyframes faded_transition 9).a_control_source =
      some [(0, 1), (9, 0)] ∧
    (audio_transition_set_keyframes faded_transition 9).b_control_source =
      some [(0, 0), (9, 1)] ∧
    audio_transition_set_keyframes faded_transition 9 ≠ faded_transition := by
  decide

theorem remove_object_finish_split (w : World) (layer object : Nat) :
    remove_object_finish w layer object =
      remove_object_unlink (remove_object_emit w layer object) layer object := rfl

/-- C22: `object-removed` is emitted before the object is removed.  Object 0
is removed from layer 0; the call returns TRUE with the heap that the
statements after `g_signal_emit` make of the heap at the emission.  At the
emission the signal is the last one emitted, object 0 is still in the member
list and its layer reference is still layer 0; only after the call is it
neither.  In `ges_timeline_layer_add_object` the emission is the last
statement: the heap before it has the object in the member list with its
layer reference set. -/
theorem object_removed_emitted_early :
    ges_timeline_layer_remove_object 1 single_world_added 0 0 =
      Outcome.done (true,
        remove_object_unlink (remove_object_emit single_world_added 0 0) 0 0) ∧
    (remove_object_emit single_world_added 0 0).emitted.getLast? =
      some (Emission.object_removed 0 0) ∧
    members (remove_object_emit single_world_added 0 0) 0 = [0] ∧
    ges_timeline_object_get_layer (remove_object_emit single_world_added 0 0) 0 = some 0 ∧
    outcome_removed (ges_timeline_layer_remove_object 1 single_world_added 0 0) 0 =
      some (true, []) ∧
    (∃ w5, single_world_added = g_signal_emit w5 (Emission.object_added 0 0) ∧
      members w5 0 = [0] ∧ ges_timeline_object_get_layer w5 0 = some 0) := by
  refine ⟨rfl, by decide, by decide, by decide, by decide, ?_⟩
  exact ⟨{ single_world_added with emitted := [] }, rfl, by decide, by decide⟩

/-- C24: classifying C removes the transition of A and B.  In `chain_world`
A (0 to 10) and B (5 to 15) overlap partly and their transition (5, 5),
object 3, is a member, listed right before B.  The forward comparison of C
(10 to 20) with B, alone or as made by `calculate_transitions` on C, removes
object 3 in its first block, because the transition lies inside B, and
creates the transition (10, 5) of B and C: afterwards the pair A, B has no
transition. -/
theorem compare_removes_other_pair :
    (chain_world.tobjs 0).start < (chain_world.tobjs 1).start ∧
    (chain_world.tobjs 1).start < track_end chain_world 0 ∧
    track_end chain_world 0 < track_end chain_world 1 ∧
    members chain_world 0 = [0, 1, 2, 3] ∧
    transitions_of chain_world 0 = [(5, 5)] ∧
    outcome_members (compare 2 chain_world { prev := [3, 0], data := 1, next := [2] } 2 true) =
      some [4, 0, 1, 2] ∧
    outcome_transitions
      (compare 2 chain_world { prev := [3, 0], data := 1, next := [2] } 2 true) =
      some [(10, 5)] ∧
    outcome_members (calculate_transitions 2 chain_world 2) = some [4, 0, 1, 2] ∧
    outcome_transitions (calculate_transitions 2 chain_world 2) = some [(10, 5)] := by
  decide

/-- C25: the two directions disagree on a pair that starts together.  E and
L both run from 0 to 10 and no transition is present.  The forward
comparison (L changed, compared with E) creates nothing and changes no
priority; the backward comparison (E changed, compared with L) creates the
transition (0, 10) and stacks L on E. -/
theorem directions_disagree_at_equal_start :
    (level_world.tobjs 0).start = (level_world.tobjs 1).start ∧
    track_end level_world 0 = track_end level_world 1 ∧
    transitions_of level_world 0 = [] ∧
    outcome_transitions
      (compare 2 level_world { prev := [], data := 0, next := [1] } 1 true) = some [] ∧
    outcome_priorities
      (compare 2 level_world { prev := [], data := 0, next := [1] } 1 true) [0, 1] =
      some [0, 0] ∧
    outcome_transitions
      (compare 2 level_world { prev := [0], data := 1, next := [] } 0 false) =
      some [(0, 10)] ∧
    outcome_priorities
      (compare 2 level_world { prev := [0], data := 1, next := [] } 0 false) [0, 1] =
      some [0, 1] := by
  decide

/-! ## A removal that does not return -/

theorem adjacent_first (rm : World → Nat → Outcome (Bool × World))
    (h : rm adjacent_world 3 = Outcome.exhausted) :
    look_for_transition rm adjacent_world 2 = Outcome.exhausted := by
  have h1 : (adjacent_world.tobjs 2).track = some 0 := rfl
  have h2 : adjacent_world.tracks 0 = [0, 2, 3, 1] := rfl
  have h3 : GES_IS_TRACK_SOURCE adjacent_world 3 = false := by decide
  have h4 : GES_IS_TRACK_AUDIO_OR_VIDEO_TRANSITION adjacent_world 3 = true := by decide
  have h5 : (adjacent_world.tobjs 3).timeline_object = some 3 := rfl
  unfold look_for_transition
  rw [h1]
  simp only [h2]
  simp [List.dropWhile, List.takeWhile, look_for_transition_walk, h3, h4, h5, h]

theorem adjacent_second (rm : World → Nat → Outcome (Bool × World))
    (h : rm adjacent_world 2 = Outcome.exhausted) :
    look_for_transition rm adjacent_world 3 = Outcome.exhausted := by
  have h1 : (adjacent_world.tobjs 3).track = some 0 := rfl
  have h2 : adjacent_world.tracks 0 = [0, 2, 3, 1] := rfl
  have h3 : GES_IS_TRACK_SOURCE adjacent_world 1 = true := by decide
  have h4 : GES_IS_TRACK_SOURCE adjacent_world 2 = false := by decide
  have h5 : GES_IS_TRACK_AUDIO_OR_VIDEO_TRANSITION adjacent_world 2 = true := by decide
  have h6 : (adjacent_world.tobjs 2).timeline_object = some 2 := rfl
  unfold look_for_transition
  rw [h1]
  simp only [h2]
  simp [List.dropWhile, List.takeWhile, look_for_transition_walk, h3, h4, h5, h6, h]

theorem adjacent_source (rm : World → Nat → Outcome (Bool × World))
    (h : rm adjacent_world 2 = Outcome.exhausted) :
    look_for_transition rm adjacent_world 0 = Outcome.exhausted := by
  have h1 : (adjacent_world.tobjs 0).track = some 0 := rfl
  have h2 : adjacent_world.tracks 0 = [0, 2, 3, 1] := rfl
  have h4 : GES_IS_TRACK_SOURCE adjacent_world 2 = false := by decide
  have h5 : GES_IS_TRACK_AUDIO_OR_VIDEO_TRANSITION adjacent_world 2 = true := by decide
  have h6 : (adjacent_world.tobjs 2).timeline_object = some 2 := rfl
  unfold look_for_transition
  rw [h1]
  simp only [h2]
  simp [List.dropWhile, List.takeWhile, look_for_transition_walk, h4, h5, h6, h]

theorem adjacent_transitions_recurse (fuel : Nat) :
    ges_timeline_layer_remove_object fuel adjacent_world 0 2 = Outcome.exhausted ∧
    ges_timeline_layer_remove_object fuel adjacent_world 0 3 = Outcome.exhausted := by
  induction fuel with
  | zero => exact ⟨rfl, rfl⟩
  | succ fuel ih =>
    have ha : (adjacent_world.layers 0).auto_transition = true := rfl
    have h2 : (adjacent_world.objs 2).trackobjects = [2] := rfl
    have h3 : (adjacent_world.objs 3).trackobjects = [3] := rfl
    constructor
    · rw [remove_object_member fuel adjacent_world 0 2 rfl]
      simp only [ha, if_true, h2, look_for_transition_all]
      rw [adjacent_first _ ih.2]
    · rw [remove_object_member fuel adjacent_world 0 3 rfl]
      simp only [ha, if_true, h3, look_for_transition_all]
      rw [adjacent_second _ ih.1]

/-- C28: a removal that never returns.  In `adjacent_world` the track lists
two transitions of the layer next to each other between the sources A and B.
Removing A looks for transitions next to it and removes the first, whose
removal removes the second, whose removal removes the first again, whose
back reference is still the layer: whatever the recursion budget,
`ges_timeline_layer_remove_object` on A runs out of it, and so does the
removal of either transition. -/
theorem remove_object_recurses_forever (fuel : Nat) :
    ges_timeline_layer_remove_object fuel adjacent_world 0 0 = Outcome.exhausted ∧
    ges_timeline_layer_remove_object fuel adjacent_world 0 2 = Outcome.exhausted ∧
    ges_timeline_layer_remove_object fuel adjacent_world 0 3 = Outcome.exhausted := by
  refine ⟨?_, adjacent_transitions_recurse fuel⟩
  cases fuel with
  | zero => rfl
  | succ fuel =>
    have ha : (adjacent_world.layers 0).auto_transition = true := rfl
    have h0 : (adjacent_world.objs 0).trackobjects = [0] := rfl
    rw [remove_object_member fuel adjacent_world 0 0 rfl]
    simp only [ha, if_true, h0, look_for_transition_all]
    rw [adjacent_source _ (adjacent_transitions_recurse fuel).1]

theorem parted_first (rm : World → Nat → Outcome (Bool × World))
    (h : rm parted_adjacent_world 3 = Outcome.exhausted) :
    look_for_transition rm parted_adjacent_world 2 = Outcome.exhausted := by
  have h1 : (parted_adjacent_world.tobjs 2).track = some 0 := rfl
  have h2 : parted_adjacent_world.tracks 0 = [0, 2, 3, 1] := rfl
  have h3 : GES_IS_TRACK_SOURCE parted_adjacent_world 3 = false := by decide
  have h4 : GES_IS_TRACK_AUDIO_OR_VIDEO_TRANSITION parted_adjacent_world 3 = true := by decide
  have h5 : (parted_adjacent_world.tobjs 3).timeline_object = some 3 := rfl
  unfold look_for_transition
  rw [h1]
  simp only [h2]
  simp [List.dropWhile, List.takeWhile, look_for_transition_walk, h3, h4, h5, h]

theorem parted_second (rm : World → Nat → Outcome (Bool × World))
    (h : rm parted_adjacent_world 2 = Outcome.exhausted) :
    look_for_transition rm parted_adjacent_world 3 = Outcome.exhausted := by
  have h1 : (parted_adjacent_world.tobjs 3).track = some 0 := rfl
  have h2 : parted_adjacent_world.tracks 0 = [0, 2, 3, 1] := rfl
  have h3 : GES_IS_TRACK_SOURCE parted_adjacent_world 1 = true := by decide
  have h4 : GES_IS_TRACK_SOURCE parted_adjacent_world 2 = false := by decide
  have h5 : GES_IS_TRACK_AUDIO_OR_VIDEO_TRANSITION parted_adjacent_world 2 = true := by decide
  have h6 : (parted_adjacent_world.tobjs 2).timeline_object = some 2 := rfl
  unfold look_for_transition
  rw [h1]
  simp only [h2]
  simp [List.dropWhile, List.takeWhile, look_for_transition_walk, h3, h4, h5, h6, h]

theorem parted_transitions_recurse (fuel : Nat) :
    ges_timeline_layer_remove_object fuel parted_adjacent_world 0 2 = Outcome.exhausted ∧
    ges_timeline_layer_remove_object fuel parted_adjacent_world 0 3 = Outcome.exhausted := by
  induction fuel with
  | zero => exact ⟨rfl, rfl⟩
  | succ fuel ih =>
    have ha : (parted_adjacent_world.layers 0).auto_transition = true := rfl
    have h2 : (parted_adjacent_world.objs 2).trackobjects = [2] := rfl
    have h3 : (parted_adjacent_world.objs 3).trackobjects = [3] := rfl
    constructor
    · rw [remove_object_member fuel parted_adjacent_world 0 2 rfl]
      simp only [ha, if_true, h2, look_for_transition_all]
      rw [parted_first _ ih.2]
    · rw [remove_object_member fuel parted_adjacent_world 0 3 rfl]
      simp only [ha, if_true, h3, look_for_transition_all]
      rw [parted_second _ ih.1]

theorem compare_exhausted (fuel : Nat) (w : World) (compared : GListNode)
    (track_object object layer tr : Nat)
    (hobj : (w.tobjs track_object).timeline_object = some object)
    (hlayer : ges_timeline_object_get_layer w object = some layer)
    (hclean : compare_cleanup fuel w compared (some layer) true = Outcome.done w)
    (hfound : compare_found w compared true = some tr)
    (hfirst : first_test w compared track_object true)
    (hrm : ges_timeline_layer_remove_object fuel w layer tr = Outcome.exhausted) :
    compare fuel w compared track_object true = Outcome.exhausted := by
  simp only [compare_found, if_true] at hfound
  simp only [first_test, signed_end, signed_start, if_true] at hfirst
  unfold compare
  simp only [hobj, hlayer, hclean, if_true, hfound]
  rw [if_pos hfirst]
  simp [compare_no_overlap, remove_object_checked, hrm]

/-- C13: a no-overlap comparison that never returns.  In
`parted_adjacent_world` the neighbouring sources A (0 to 10) and B (10 to
20) touch, the track lists two transitions of the layer between them, and
the forward search finds the first of them, object 2, which ends where A
ends.  The forward comparison of B with A takes the no-overlap branch and
removes the transition found; that removal removes the transition next to
it, whose removal removes the first again: whatever the recursion budget,
`compare` runs out of it, so it neither removes the transition nor
returns. -/
theorem no_overlap_removal_never_returns (fuel : Nat) :
    track_end parted_adjacent_world 0 ≤ (parted_adjacent_world.tobjs 1).start ∧
    members parted_adjacent_world 0 = [0, 1, 2, 3] ∧
    compare_found parted_adjacent_world { prev := [], data := 0, next := [2, 3, 1] } true =
      some 2 ∧
    compare fuel parted_adjacent_world { prev := [], data := 0, next := [2, 3, 1] } 1 true =
      Outcome.exhausted := by
  refine ⟨by decide, by decide, by decide, ?_⟩
  exact compare_exhausted fuel parted_adjacent_world { prev := [], data := 0, next := [2, 3, 1] }
    1 1 0 2 rfl rfl rfl (by decide) (by unfold first_test; decide)
    (parted_transitions_recurse fuel).1

/-! ## The neighbours that are compared -/

theorem nearest_source_some (w : World) :
    ∀ (l : List Nat) (r : List Nat × Nat × List Nat), nearest_source w l = some r →
      l = r.1 ++ r.2.1 :: r.2.2 ∧ (∀ x ∈ r.1, GES_IS_TRACK_SOURCE w x = false) ∧
        GES_IS_TRACK_SOURCE w r.2.1 = true := by
  intro l
  induction l with
  | nil =>
    intro r h
    simp [nearest_source] at h
  | cons y ys ih =>
    intro r h
    rw [nearest_source] at h
    by_cases hy : GES_IS_TRACK_SOURCE w y = true
    · rw [if_pos hy] at h
      injection h with h
      subst h
      exact ⟨rfl, by simp, hy⟩
    · rw [if_neg hy] at h
      cases hn : nearest_source w ys with
      | none =>
        rw [hn] at h
        simp at h
      | some r1 =>
        rw [hn] at h
        injection h with h
        subst h
        obtain ⟨h1, h2, h3⟩ := ih r1 hn
        refine ⟨?_, ?_, h3⟩
        · simp only [List.cons_append]
          rw [← h1]
        · intro x hx
          rcases List.mem_cons.mp hx with e | e
          · rw [e]
            simpa using hy
          · exact h2 x e

theorem nearest_source_none (w : World) :
    ∀ l : List Nat, nearest_source w l = none → ∀ x ∈ l, GES_IS_TRACK_SOURCE w x = false := by
  intro l
  induction l with
  | nil =>
    intro _ x hx
    simp at hx
  | cons y ys ih =>
    intro h x hx
    rw [nearest_source] at h
    by_cases hy : GES_IS_TRACK_SOURCE w y = true
    · rw [if_pos hy] at h
      simp at h
    · rw [if_neg hy] at h
      cases hn : nearest_source w ys with
      | none =>
        rcases List.mem_cons.mp hx with e | e
        · rw [e]
          simpa using hy
        · exact ih hn x e
      | some r1 =>
        rw [hn] at h
        simp at h

theorem nearest_source_congr (w w1 : World) (h : SameKinds w w1) (l : List Nat) :
    nearest_source w1 l = nearest_source w l := by
  induction l with
  | nil => rfl
  | cons y ys ih =>
    have hy : GES_IS_TRACK_SOURCE w1 y = GES_IS_TRACK_SOURCE w y := by
      simp only [GES_IS_TRACK_SOURCE, h y]
    rw [nearest_source, nearest_source, hy, ih]

theorem g_list_find_from_split (t : Nat) (post : List Nat) :
    ∀ (pre acc : List Nat), t ∉ pre →
      g_list_find_from acc (pre ++ t :: post) t =
        some { prev := pre.reverse ++ acc, data := t, next := post } := by
  intro pre
  induction pre with
  | nil =>
    intro acc _
    simp [g_list_find_from]
  | cons y ys ih =>
    intro acc h
    have hy : y ≠ t := fun e => h (by simp [e])
    have hys : t ∉ ys := fun e => h (List.mem_cons_of_mem _ e)
    rw [List.cons_append, g_list_find_from, if_neg hy, ih (y :: acc) hys]
    simp

theorem g_list_find_split (t : Nat) (pre post : List Nat) (h : t ∉ pre) :
    g_list_find (pre ++ t :: post) t =
      some { prev := pre.reverse, data := t, next := post } := by
  unfold g_list_find
  rw [g_list_find_from_split t post pre [] h]
  simp

theorem walk_next_source_eq (w : World) :
    ∀ (l prev : List Nat) (data : Nat),
      walk_next_source w prev data l =
        (nearest_source w l).map
          (fun r => ({ prev := r.1.reverse ++ data :: prev, data := r.2.1, next := r.2.2 } :
            GListNode)) := by
  intro l
  induction l with
  | nil =>
    intro prev data
    rfl
  | cons y ys ih =>
    intro prev data
    rw [walk_next_source, nearest_source]
    by_cases hy : GES_IS_TRACK_SOURCE w y = true
    · simp [hy]
    · rw [if_neg hy, if_neg hy, ih]
      cases nearest_source w ys with
      | none => rfl
      | some r => simp

theorem walk_prev_source_eq (w : World) :
    ∀ (l next : List Nat) (data : Nat),
      walk_prev_source w next data l =
        (nearest_source w l).map
          (fun r => ({ prev := r.2.2, data := r.2.1, next := r.1.reverse ++ data :: next } :
            GListNode)) := by
  intro l
  induction l with
  | nil =>
    intro next data
    rfl
  | cons y ys ih =>
    intro next data
    rw [walk_prev_source, nearest_source]
    by_cases hy : GES_IS_TRACK_SOURCE w y = true
    · simp [hy]
    · rw [if_neg hy, if_neg hy, ih]
      cases nearest_source w ys with
      | none => rfl
      | some r => simp

theorem next_with_list_eq (fuel : Nat) (w : World) (t : Nat) (pre post : List Nat)
    (h : t ∉ pre) :
    calculate_next_transition_with_list fuel w t (pre ++ t :: post) =
      compare_with_later fuel w t pre post := by
  unfold calculate_next_transition_with_list compare_with_later
  rw [g_list_find_split t pre post h]
  simp only
  rw [walk_next_source_eq]
  cases nearest_source w post with
  | none => rfl
  | some r => rfl

theorem calculate_transitions_eq (fuel : Nat) (w : World) (t : Nat) (pre post : List Nat)
    (hlist : track_get_by_layer w (layer_of_track_object w t) (w.tobjs t).track =
      pre ++ t :: post)
    (hfirst : t ∉ pre) :
    calculate_transitions fuel w t = classify_both_neighbours fuel w t pre post := by
  unfold calculate_transitions classify_both_neighbours compare_with_earlier
  simp only
  rw [hlist, g_list_find_split t pre post hfirst]
  simp only
  rw [walk_prev_source_eq]
  cases nearest_source w pre.reverse with
  | none =>
    simp only [Option.map_none', Outcome.andThen]
    exact next_with_list_eq fuel w t pre post hfirst
  | some r =>
    simp only [Option.map_some']
    cases compare fuel w { prev := r.2.2, data := r.2.1, next := r.1.reverse ++ t :: post }
        t true with
    | done w1 =>
      simp only [Outcome.andThen]
      exact next_with_list_eq fuel w1 t pre post hfirst
    | fault => rfl
    | exhausted => rfl

/-! ## Relations kept by every step of a comparison -/

theorem remove_checked_rel (R : World → World → Prop) (hR : Preserved R) (fuel : Nat)
    (w : World) (layer object : Option Nat) (w' : World)
    (h : remove_object_checked fuel w layer object = Outcome.done w') : R w w' := by
  obtain ⟨hrefl, htrans, hfin, _⟩ := hR
  have hstay : ∀ w2, Outcome.done w = Outcome.done w2 → R w w2 := by
    intro w2 e
    injection e with e
    rw [← e]
    exact hrefl w
  unfold remove_object_checked at h
  cases layer with
  | none => cases object <;> exact hstay _ h
  | some l =>
    cases object with
    | none => exact hstay _ h
    | some o =>
      simp only at h
      cases hr : ges_timeline_layer_remove_object fuel w l o with
      | done r =>
        rw [hr] at h
        injection h with h
        rw [← h]
        exact remove_object_rel R hrefl htrans hfin fuel w l o r hr
      | fault => rw [hr] at h; simp at h
      | exhausted => rw [hr] at h; simp at h

theorem cleanup_rel (R : World → World → Prop) (hR : Preserved R) (fuel : Nat)
    (w : World) (compared : GListNode) (layer : Option Nat) (ahead : Bool) (w1 : World)
    (h : compare_cleanup fuel w compared layer ahead = Outcome.done w1) : R w w1 := by
  have hstay : ∀ w2, Outcome.done w = Outcome.done w2 → R w w2 := by
    intro w2 e
    injection e with e
    rw [← e]
    exact hR.1 w
  unfold compare_cleanup at h
  cases ahead with
  | true =>
    simp only [if_true] at h
    cases hp : compared.prev with
    | nil =>
      rw [hp] at h
      exact hstay _ h
    | cons p rest =>
      rw [hp] at h
      simp only at h
      split_ifs at h with h1 h2
      · exact remove_checked_rel R hR fuel w _ _ w1 h
      · exact hstay _ h
      · exact hstay _ h
  | false =>
    simp only [Bool.false_eq_true, if_false] at h
    cases hn : compared.next with
    | nil =>
      rw [hn] at h
      exact hstay _ h
    | cons n rest =>
      rw [hn] at h
      simp only at h
      split_ifs at h with h1
      · cases hp : compared.prev with
        | nil =>
          rw [hp] at h
          simp at h
        | cons p rest2 =>
          rw [hp] at h
          simp only at h
          split_ifs at h with h2
          · exact remove_checked_rel R hR fuel w _ _ w1 h
          · exact hstay _ h
      · exact hstay _ h

theorem no_overlap_rel (R : World → World → Prop) (hR : Preserved R) (fuel : Nat)
    (w : World) (layer trans source target : Option Nat) (w' : World)
    (h : compare_no_overlap fuel w layer trans source target = Outcome.done w') : R w w' := by
  unfold compare_no_overlap at h
  cases trans with
  | none =>
    simp only at h
    injection h with h
    rw [← h]
    exact hR.1 w
  | some tr =>
    simp only at h
    cases hr : remove_object_checked fuel w layer (some tr) with
    | done w1 =>
      rw [hr] at h
      simp only at h
      have h1 : R w w1 := remove_checked_rel R hR fuel w layer (some tr) w1 hr
      cases source with
      | none => simp at h
      | some src =>
        cases target with
        | none =>
          simp only at h
          injection h with h
          rw [← h]
          exact h1
        | some dst =>
          simp only at h
          injection h with h
          rw [← h]
          exact hR.2.1 _ _ _ h1 (hR.2.2.2.1 _ _ _)
    | fault => rw [hr] at h; simp at h
    | exhausted => rw [hr] at h; simp at h

theorem bridge_rel (R : World → World → Prop) (hR : Preserved R)
    (w : World) (layer trans first second : Option Nat) (t ts td : Nat) (w' : World)
    (h : compare_bridge w layer trans first second t ts td = Outcome.done w') : R w w' := by
  obtain ⟨_, htrans, _, hprio, hsd, hnew, hfmt, hadd, hconn⟩ := hR
  unfold compare_bridge at h
  cases trans with
  | some tr =>
    simp only at h
    injection h with h
    rw [← h]
    exact hsd _ _ _ _
  | none =>
    simp only at h
    cases htrack : ((ges_timeline_standard_transition_new_for_nick w).2.tobjs t).track with
    | none => rw [htrack] at h; simp at h
    | some track =>
      rw [htrack] at h
      simp only at h
      cases layer with
      | none => simp at h
      | some l =>
        simp only at h
        cases first with
        | none => simp at h
        | some f =>
          simp only at h
          injection h with h
          rw [← h]
          refine htrans _ _ _ ?_ (hsd _ _ _ _)
          refine htrans _ _ _ ?_ (hconn _ _ _ _ _)
          have h3 : R w (ges_timeline_layer_add_object
              (ges_timeline_object_set_supported_formats
                (ges_timeline_standard_transition_new_for_nick w).2
                (ges_timeline_standard_transition_new_for_nick w).1
                ((ges_timeline_standard_transition_new_for_nick w).2.track_type track))
              l (ges_timeline_standard_transition_new_for_nick w).1).2 :=
            htrans _ _ _ (htrans _ _ _ (hnew w) (hfmt _ _ _)) (hadd _ _ _)
          cases second with
          | none => exact h3
          | some sec => exact htrans _ _ _ h3 (hprio _ _ _)

theorem compare_rel (R : World → World → Prop) (hR : Preserved R) (fuel : Nat)
    (w : World) (compared : GListNode) (track_object : Nat) (ahead : Bool) (w' : World)
    (h : compare fuel w compared track_object ahead = Outcome.done w') : R w w' := by
  unfold compare at h
  cases hobj : (w.tobjs track_object).timeline_object with
  | none =>
    rw [hobj] at h
    simp only at h
    injection h with h
    rw [← h]
    exact hR.1 w
  | some object =>
    rw [hobj] at h
    simp only at h
    cases hc : compare_cleanup fuel w compared (ges_timeline_object_get_layer w object)
        ahead with
    | done w1 =>
      rw [hc] at h
      simp only at h
      have h1 : R w w1 := cleanup_rel R hR fuel w compared _ ahead w1 hc
      cases ahead with
      | true =>
        simp only [if_true] at h
        split_ifs at h
        · exact hR.2.1 _ _ _ h1 (no_overlap_rel R hR fuel w1 _ _ _ _ w' h)
        · exact hR.2.1 _ _ _ h1 (remove_checked_rel R hR fuel w1 _ _ w' h)
        · exact hR.2.1 _ _ _ h1 (remove_checked_rel R hR fuel w1 _ _ w' h)
        · exact hR.2.1 _ _ _ h1 (bridge_rel R hR w1 _ _ _ _ _ _ _ w' h)
      | false =>
        simp only [Bool.false_eq_true, if_false] at h
        split_ifs at h
        · exact hR.2.1 _ _ _ h1 (no_overlap_rel R hR fuel w1 _ _ _ _ w' h)
        · exact hR.2.1 _ _ _ h1 (remove_checked_rel R hR fuel w1 _ _ w' h)
        · exact hR.2.1 _ _ _ h1 (remove_checked_rel R hR fuel w1 _ _ w' h)
        · exact hR.2.1 _ _ _ h1 (bridge_rel R hR w1 _ _ _ _ _ _ _ w' h)
    | fault => rw [hc] at h; simp at h
    | exhausted => rw [hc] at h; simp at h

theorem add_object_side (w : World) (layer object : Nat) :
    (ges_timeline_layer_add_object w layer object).2.tobjs = w.tobjs ∧
    ∃ added, (ges_timeline_layer_add_object w layer object).2.connections =
      w.connections ++ added := by
  unfold ges_timeline_layer_add_object
  cases hl : ges_timeline_object_get_layer w object with
  | some l0 => exact ⟨rfl, [], by simp⟩
  | none =>
    simp only [resync_priorities_eq]
    split_ifs
    · exact ⟨rfl, [Connection.mk w.next_handler (Emitter.timeline_object object)
          SignalName.track_object_added Callback.track_object_added_cb (some layer),
        Connection.mk (w.next_handler + 1) (Emitter.timeline_object object)
          SignalName.track_object_removed Callback.track_object_removed_cb none],
        by simp [g_signal_emit, ges_timeline_object_set_priority,
          ges_timeline_object_set_layer, g_signal_connect]⟩
    · exact ⟨rfl, [Connection.mk w.next_handler (Emitter.timeline_object object)
          SignalName.track_object_added Callback.track_object_added_cb (some layer),
        Connection.mk (w.next_handler + 1) (Emitter.timeline_object object)
          SignalName.track_object_removed Callback.track_object_removed_cb none],
        by simp [g_signal_emit, ges_timeline_object_set_layer, g_signal_connect]⟩
    · exact ⟨rfl, [], by simp [g_signal_emit, ges_timeline_object_set_priority,
        ges_timeline_object_set_layer]⟩
    · exact ⟨rfl, [], by simp [g_signal_emit, ges_timeline_object_set_layer]⟩

theorem sameKinds_preserved : Preserved SameKinds := by
  refine ⟨fun _ _ => rfl, fun _ _ _ h1 h2 t => (h2 t).trans (h1 t), ?_, fun _ _ _ _ => rfl,
    ?_, fun _ _ => rfl, fun _ _ _ _ => rfl, ?_, fun _ _ _ _ _ _ => rfl⟩
  · intro w l o t
    rw [(finish_rest w l o).1]
  · intro w o ts td t
    simp only [ges_timeline_object_set_start_duration]
    split_ifs <;> rfl
  · intro w l o t
    rw [(add_object_side w l o).1]

theorem handlersKept_of_append (w w' : World)
    (h : ∃ added, w'.connections = w.connections ++ added) : HandlersKept w w' := by
  obtain ⟨added, h⟩ := h
  intro o sig
  refine ⟨added.filter
    (fun c => decide (c.emitter = Emitter.timeline_object o) && decide (c.signal = sig)), ?_⟩
  simp only [handlers_of, h, List.filter_append]

theorem disconnect_keeps (w : World) (k id o : Nat) (sig : SignalName) :
    handlers_of (g_signal_handler_disconnect w (Emitter.track k) id)
      (Emitter.timeline_object o) sig = handlers_of w (Emitter.timeline_object o) sig := by
  simp only [handlers_of, g_signal_handler_disconnect, List.filter_filter]
  apply List.filter_congr
  intro c _
  by_cases hc : c.emitter = Emitter.timeline_object o
  · simp [hc]
  · simp [hc]

theorem disconnect_fold_keeps (o : Nat) (sig : SignalName) (entries : List (Nat × Nat)) :
    ∀ w : World,
      handlers_of
        (entries.foldl (fun acc e => g_signal_handler_disconnect acc (Emitter.track e.1) e.2) w)
        (Emitter.timeline_object o) sig = handlers_of w (Emitter.timeline_object o) sig := by
  induction entries with
  | nil =>
    intro w
    rfl
  | cons e es ih =>
    intro w
    rw [List.foldl_cons, ih, disconnect_keeps]

theorem finish_keeps (w : World) (layer object o : Nat) (sig : SignalName) :
    handlers_of (remove_object_finish w layer object) (Emitter.timeline_object o) sig =
      handlers_of w (Emitter.timeline_object o) sig := by
  have h := disconnect_fold_keeps o sig (w.layers layer).signal_table w
  simp only [handlers_of] at h ⊢
  simp only [remove_object_finish, disconnect_all_handlers, g_signal_emit,
    ges_timeline_object_set_layer]
  exact h

theorem handlersKept_preserved : Preserved HandlersKept := by
  refine ⟨fun _ _ _ => ⟨[], by simp⟩, ?_, ?_, ?_, ?_, ?_, ?_, ?_, ?_⟩
  · intro a b c h1 h2 o sig
    obtain ⟨x, hx⟩ := h1 o sig
    obtain ⟨y, hy⟩ := h2 o sig
    exact ⟨x ++ y, by rw [hy, hx, List.append_assoc]⟩
  · intro w l o o1 sig
    exact ⟨[], by rw [finish_keeps]; simp⟩
  · intro w o pr
    exact handlersKept_of_append _ _ ⟨[], by simp [ges_timeline_object_set_priority]⟩
  · intro w o ts td
    exact handlersKept_of_append _ _ ⟨[], by simp [ges_timeline_object_set_start_duration]⟩
  · intro w
    exact handlersKept_of_append _ _
      ⟨[], by simp [ges_timeline_standard_transition_new_for_nick]⟩
  · intro w o f
    exact handlersKept_of_append _ _
      ⟨[], by simp [ges_timeline_object_set_supported_formats]⟩
  · intro w l o
    exact handlersKept_of_append _ _ (add_object_side w l o).2
  · intro w e sg c d
    exact handlersKept_of_append _ _ ⟨_, rfl⟩

/-! ## The comparisons of a classification -/

theorem track_get_by_layer_eq (w : World) (t : Nat) :
    track_get_by_layer w (layer_of_track_object w t) (w.tobjs t).track =
      same_layer_list w t := by
  unfold track_get_by_layer same_layer_list ges_track_get_objects
  cases (w.tobjs t).track with
  | none => rfl
  | some k =>
    simp only
    apply List.filter_congr
    intro x _
    have hx : ∀ y, layer_of_track_object w y =
        (w.tobjs y).timeline_object.bind (fun tl => (w.objs tl).layer) := by
      intro y
      unfold layer_of_track_object
      cases (w.tobjs y).timeline_object <;> rfl
    rw [hx x, hx t]

/-- C27: the same-layer list of the track object `t` (the track objects its
track lists whose timeline object is in the layer of the timeline object of
`t`) is `pre ++ t :: post`, with `t` not in `pre`.  Then
`calculate_transitions` makes at most two comparisons, in this order: one
with the nearest source before `t` in that list, with `ahead = TRUE`, and
one with the nearest source after `t` in that list, with `ahead = FALSE`,
each on the node of that source in the list; where no source stands on a
side, no comparison is made on that side.  The nearest source is the one
with only non-sources of the list between it and `t`, and the first
comparison does not change which one it is. -/
theorem calculate_transitions_neighbours (fuel : Nat) (w : World) (t : Nat)
    (pre post : List Nat)
    (hlist : same_layer_list w t = pre ++ t :: post)
    (hfirst : t ∉ pre) :
    calculate_transitions fuel w t = classify_both_neighbours fuel w t pre post ∧
    (∀ r, nearest_source w pre.reverse = some r →
      pre = r.2.2.reverse ++ r.2.1 :: r.1.reverse ∧ GES_IS_TRACK_SOURCE w r.2.1 = true ∧
        ∀ x ∈ r.1, GES_IS_TRACK_SOURCE w x = false) ∧
    (nearest_source w pre.reverse = none → ∀ x ∈ pre, GES_IS_TRACK_SOURCE w x = false) ∧
    (∀ r, nearest_source w post = some r →
      post = r.1 ++ r.2.1 :: r.2.2 ∧ GES_IS_TRACK_SOURCE w r.2.1 = true ∧
        ∀ x ∈ r.1, GES_IS_TRACK_SOURCE w x = false) ∧
    (nearest_source w post = none → ∀ x ∈ post, GES_IS_TRACK_SOURCE w x = false) ∧
    ∀ w1, compare_with_earlier fuel w t pre post = Outcome.done w1 →
      nearest_source w1 post = nearest_source w post := by
  have hcode : track_get_by_layer w (layer_of_track_object w t) (w.tobjs t).track =
      pre ++ t :: post := by
    rw [track_get_by_layer_eq]
    exact hlist
  refine ⟨calculate_transitions_eq fuel w t pre post hcode hfirst, ?_, ?_, ?_, ?_, ?_⟩
  · intro r hr
    obtain ⟨h1, h2, h3⟩ := nearest_source_some w pre.reverse r hr
    refine ⟨?_, h3, h2⟩
    have h := congrArg List.reverse h1
    simpa using h
  · intro hn x hx
    exact nearest_source_none w pre.reverse hn x (by simpa using hx)
  · intro r hr
    obtain ⟨h1, h2, h3⟩ := nearest_source_some w post r hr
    exact ⟨h1, h3, h2⟩
  · intro hn x hx
    exact nearest_source_none w post hn x hx
  · intro w1 h1
    apply nearest_source_congr
    unfold compare_with_earlier at h1
    cases hn : nearest_source w pre.reverse with
    | none =>
      rw [hn] at h1
      injection h1 with h1
      rw [← h1]
      exact sameKinds_preserved.1 w
    | some r =>
      rw [hn] at h1
      exact compare_rel SameKinds sameKinds_preserved fuel w _ t true w1 h1

/-- C26 fails as stated: in `pair_world` L starts inside E and no transition
is present; the duration handler on L creates nothing, while
`calculate_transitions`, the start handler and the classification against
both neighbours each create the transition (5, 5).  In `bridged_world` with
L shortened to end inside E, the duration handler leaves the transition
(5, 5) a member, while `calculate_transitions` removes it. -/
theorem duration_handler_skips_earlier :
    outcome_transitions (track_object_duration_cb 2 pair_world 1) = some [] ∧
    outcome_transitions (calculate_transitions 2 pair_world 1) = some [(5, 5)] ∧
    outcome_transitions (track_object_changed_cb 2 pair_world 1) = some [(5, 5)] ∧
    outcome_transitions (classify_both_neighbours 2 pair_world 1 [0] []) = some [(5, 5)] ∧
    outcome_transitions (shrunk_world.andThen (fun w => track_object_duration_cb 2 w 1)) =
      some [(5, 5)] ∧
    outcome_transitions (shrunk_world.andThen (fun w => calculate_transitions 2 w 1)) =
      some [] := by
  decide

/-- C26, amended: when the duration of a track object changes, the handler
makes the comparison with the later neighbour only: for the track object at
the place `pre ++ t :: post` of the list of its layer, it is the comparison
with the nearest source after it, with `ahead = FALSE`, the second of the two
that `calculate_transitions` makes, and none when no source stands after
it. -/
theorem duration_cb_compares_later (fuel : Nat) (w : World) (t : Nat) (pre post : List Nat)
    (hlist : track_get_by_layer w (layer_of_track_object w t) (w.tobjs t).track =
      pre ++ t :: post)
    (hfirst : t ∉ pre) :
    track_object_duration_cb fuel w t = compare_with_later fuel w t pre post := by
  unfold track_object_duration_cb calculate_next_transition
  cases htrack : (w.tobjs t).track with
  | none =>
    rw [htrack] at hlist
    simp [track_get_by_layer, ges_track_get_objects] at hlist
  | some k =>
    rw [htrack] at hlist
    simp only [Option.isSome_some, if_true]
    rw [hlist]
    exact next_with_list_eq fuel w t pre post hfirst

/-! ## Height subscriptions -/

theorem add_object_height_handlers (w : World) (layer object : Nat) (e : Emitter) :
    handlers_of (ges_timeline_layer_add_object w layer object).2 e SignalName.notify_height =
      handlers_of w e SignalName.notify_height := by
  unfold ges_timeline_layer_add_object
  cases hl : ges_timeline_object_get_layer w object with
  | some l0 => rfl
  | none =>
    simp only [resync_priorities_eq]
    split_ifs <;>
      simp [handlers_of, g_signal_emit, ges_timeline_object_set_priority,
        ges_timeline_object_set_layer, g_signal_connect, List.filter_append]

theorem bridge_subscribes (w : World) (l f sec t ts td : Nat) (w' : World)
    (h : compare_bridge w (some l) none (some f) (some sec) t ts td = Outcome.done w') :
    height_subscriptions w' f = height_subscriptions w f ++ [some sec] := by
  unfold compare_bridge at h
  simp only at h
  cases htrack : ((ges_timeline_standard_transition_new_for_nick w).2.tobjs t).track with
  | none => rw [htrack] at h; simp at h
  | some track =>
    rw [htrack] at h
    simp only at h
    injection h with h
    rw [← h]
    have ha := add_object_height_handlers
      (ges_timeline_object_set_supported_formats
        (ges_timeline_standard_transition_new_for_nick w).2
        (ges_timeline_standard_transition_new_for_nick w).1
        ((ges_timeline_standard_transition_new_for_nick w).2.track_type track))
      l (ges_timeline_standard_transition_new_for_nick w).1 (Emitter.timeline_object f)
    simp only [handlers_of] at ha
    simp only [height_subscriptions, handlers_of, ges_timeline_object_set_start_duration,
      g_signal_connect, ges_timeline_object_set_priority, List.filter_append, ha]
    simp [ges_timeline_object_set_supported_formats,
      ges_timeline_standard_transition_new_for_nick]

/-- C29 fails as stated: A (0 to 10) and B are members of an auto-transition
layer with their handlers connected.  Moving B to start 5 creates the
transition (5, 5) and connects one height subscription on A for B.  Moving B
on to start 10 removes the transition by the no-overlap verdict and leaves B
with priority 0; the subscription is still connected, and a change of the
height of A to 4 then sets the priority of B to 4 although no transition is
present.  Moving B back to start 5 instead creates the transition anew and
leaves two subscriptions for the pair. -/
theorem height_subscription_outlives_transition :
    outcome_transitions crossfaded_world = some [(5, 5)] ∧
    outcome_subscriptions crossfaded_world = some [some 1] ∧
    outcome_transitions parted_world = some [] ∧
    outcome_priorities parted_world [0, 1] = some [0, 0] ∧
    outcome_subscriptions parted_world = some [some 1] ∧
    outcome_transitions parted_raised = some [] ∧
    outcome_priorities parted_raised [0, 1] = some [0, 4] ∧
    outcome_transitions rejoined_world = some [(5, 5)] ∧
    outcome_subscriptions rejoined_world = some [some 1, some 1] := by
  decide

/-- C29, amended: no comparison disconnects a height subscription, whatever
its verdict: for every timeline object, the subscriptions connected before a
comparison that returns are connected after it, in the same order, followed
by the ones it added.  The handler of a subscription sets the priority of
the second object to the priority plus the height of the first, in 32 bits,
whether or not a transition is present; and the step of a comparison that
creates the transition connects one more subscription for the pair after the
ones that are there. -/
theorem compare_keeps_height_subscriptions (fuel : Nat) (w : World) (compared : GListNode)
    (track_object : Nat) (ahead : Bool) (w' : World)
    (h : compare fuel w compared track_object ahead = Outcome.done w') :
    (∀ o, ∃ added, height_subscriptions w' o = height_subscriptions w o ++ added) ∧
    (∀ o second,
      ((timeline_object_height_changed_cb w' o (some second)).objs second).priority =
        wrap32 ((w'.objs o).priority + (w'.objs o).height)) ∧
    ∀ w0 l f sec t ts td w1,
      compare_bridge w0 (some l) none (some f) (some sec) t ts td = Outcome.done w1 →
        height_subscriptions w1 f = height_subscriptions w0 f ++ [some sec] := by
  refine ⟨?_, ?_, fun w0 l f sec t ts td w1 hb => bridge_subscribes w0 l f sec t ts td w1 hb⟩
  · intro o
    obtain ⟨added, ha⟩ :=
      compare_rel HandlersKept handlersKept_preserved fuel w compared track_object ahead w' h
        o SignalName.notify_height
    exact ⟨added.map (fun c => c.data), by simp [height_subscriptions, ha]⟩
  · intro o second
    simp [timeline_object_height_changed_cb, ges_timeline_object_set_priority]

/-! ## Instances of the statements on comparisons -/

/-- In `mixed_world` the track lists the source X of layer 1 between A and B
of layer 0.  The same-layer list of B leaves X out, the nearest source before
B is A and the one after it is C: the classification of B creates the
transition (5, 5) with A and the transition (12, 3) with C, and none with X,
which would start at 5 and last 7. -/
theorem calculate_transitions_neighbours_witness :
    mixed_world.tracks 0 = [0, 1, 2, 3] ∧
    same_layer_list mixed_world 2 = [0, 2, 3] ∧
    nearest_source mixed_world [0] = some ([], 0, []) ∧
    nearest_source mixed_world [3] = some ([], 3, []) ∧
    calculate_transitions 2 mixed_world 2 =
      classify_both_neighbours 2 mixed_world 2 [0] [3] ∧
    outcome_transitions (calculate_transitions 2 mixed_world 2) = some [(12, 3), (5, 5)] := by
  refine ⟨by decide, by decide, by decide, by decide, ?_, by decide⟩
  exact (calculate_transitions_neighbours 2 mixed_world 2 [0] [3]
    (by decide) (by decide)).1

/-- In `wedge_world` the duration handler on X makes the backward comparison
with N, which stretches the transition to (5, 10). -/
theorem duration_cb_compares_later_witness :
    track_object_duration_cb 3 wedge_world 1 = compare_with_later 3 wedge_world 1 [0, 3] [2] ∧
    outcome_transitions (compare_with_later 3 wedge_world 1 [0, 3] [2]) = some [(5, 10)] := by
  refine ⟨?_, by decide⟩
  exact duration_cb_compares_later 3 wedge_world 1 [0, 3] [2] (by decide) (by decide)

/-- With the subscription of A and B connected, the forward comparison of B
(moved to where A ends) removes the transition and keeps the subscription. -/
theorem compare_keeps_height_subscriptions_witness :
    height_subscriptions touching_subscribed 0 = [some 1] ∧
    ∃ w', compare 2 touching_subscribed { prev := [], data := 0, next := [2, 1] } 1 true =
        Outcome.done w' ∧
      transitions_of w' 0 = [] ∧
      ∃ added, height_subscriptions w' 0 = [some 1] ++ added := by
  refine ⟨by decide, ?_⟩
  have ht : outcome_transitions
      (compare 2 touching_subscribed { prev := [], data := 0, next := [2, 1] } 1 true) =
      some [] := by decide
  cases hc : compare 2 touching_subscribed { prev := [], data := 0, next := [2, 1] } 1 true with
  | done w' =>
    rw [hc] at ht
    refine ⟨w', rfl, by simpa [outcome_transitions] using ht, ?_⟩
    exact (compare_keeps_height_subscriptions 2 touching_subscribed
      { prev := [], data := 0, next := [2, 1] } 1 true w' hc).1 0
  | fault =>
    rw [hc] at ht
    simp [outcome_transitions] at ht
  | exhausted =>
    rw [hc] at ht
    simp [outcome_transitions] at ht

end GES
